import Mathlib

/-!
Verification of the `imarsman/timestamp` Go library (files `timestamp.go`,
`timestamp_parse.go`, `pkg/utility`).

Shallow embedding conventions:
* Go strings are embedded as `List Nat` of rune code points (`runesOf` converts a
  Lean string literal).  All inputs relevant to the claims are ASCII, where Go's
  byte positions coincide with rune positions.
* `unicode.IsDigit` / `unicode.IsSpace` are modelled on the ASCII/Latin-1 range
  (the library's tolerated alphabet); Unicode digit classes beyond ASCII are not
  modelled.
* Go's distinct error messages are represented by the constructors of `Err`;
  each constructor corresponds to one message template in the source.
* A Go runtime panic (slice out of range) is a distinct outcome `PRes.panicked`,
  not an ordinary error return.
* `time.Time` is embedded as `GoTime`: absolute Unix nanoseconds plus the
  location attached to the value.  `time.Date` computes the absolute instant
  by pure arithmetic over the proleptic Gregorian calendar, which matches Go's
  field-normalizing behaviour.
-/

/-- Rune list of a string literal (all claim inputs are ASCII). -/
def runesOf (s : String) : List Nat :=
  s.data.map Char.toNat

/-- `unicode.IsDigit` restricted to ASCII digits. -/
def isDigitR (r : Nat) : Bool :=
  48 ≤ r && r ≤ 57

/-- `unicode.IsSpace` restricted to the ASCII/Latin-1 white space set. -/
def isSpaceR (r : Nat) : Bool :=
  r == 32 || (9 ≤ r && r ≤ 13) || r == 133 || r == 160

/-- `strings.TrimSpace`. -/
def trimSpace (rs : List Nat) : List Nat :=
  ((rs.dropWhile (fun r => isSpaceR r)).reverse.dropWhile (fun r => isSpaceR r)).reverse

/-- `unicode.ToUpper` on the two letters the scanner cares about; for ASCII
letters it subtracts 32. -/
def toUpperR (r : Nat) : Nat :=
  if 97 ≤ r && r ≤ 122 then r - 32 else r

/-! ## Locations and instants -/

/-- `*time.Location` restricted to what the library uses: a zone name and a
fixed offset in seconds east of UTC.  (`time.FixedZone` produces exactly
this much information.) -/
structure Location where
  name : String
  offset : Int
deriving Repr, DecidableEq

/-- `time.UTC`. -/
def utc : Location := ⟨"UTC", 0⟩

/-- `time.Local`: host dependent; only its replacement by `.In` matters here. -/
def localLoc : Location := ⟨"Local", 0⟩

/-- `time.FixedZone`. -/
def FixedZone (name : String) (offsetSec : Int) : Location :=
  ⟨name, offsetSec⟩

/-- Days from civil: days between 1970-01-01 and `y-m-d` in the proleptic
Gregorian calendar, with Go's month normalization (arbitrary integer month
rolls into the year, arbitrary day is added as an offset). -/
def daysFromCivil (y m d : Int) : Int :=
  let m0 : Int := m - 1
  let y : Int := y + (m0 / 12) + (if m0 % 12 < 0 then -1 else 0)
  let m0 : Int := m0.emod 12      -- in [0, 11]
  let yAdj : Int := if m0 < 2 then y - 1 else y    -- March-based year
  let era : Int := (if yAdj ≥ 0 then yAdj else yAdj - 399) / 400
  let yoe : Int := yAdj - era * 400                 -- [0, 399]
  let mp : Int := (m0 + 10) % 12                    -- March = 0
  let doy : Int := (153 * mp + 2) / 5 + d - 1       -- day of March-based year
  let doe : Int := yoe * 365 + yoe / 4 - yoe / 100 + doy
  era * 146097 + doe - 719468

/-- Civil from days: inverse decomposition used when formatting. -/
def civilFromDays (z : Int) : Int × Int × Int :=
  let z : Int := z + 719468
  let era : Int := (if z ≥ 0 then z else z - 146096) / 146097
  let doe : Int := z - era * 146097                               -- [0, 146096]
  let yoe : Int := (doe - doe / 1460 + doe / 36524 - doe / 146096) / 365
  let y : Int := yoe + era * 400
  let doy : Int := doe - (365 * yoe + yoe / 4 - yoe / 100)        -- [0, 365]
  let mp : Int := (5 * doy + 2) / 153                             -- [0, 11]
  let d : Int := doy - (153 * mp + 2) / 5 + 1                     -- [1, 31]
  let m : Int := if mp < 10 then mp + 3 else mp - 9               -- [1, 12]
  (if m ≤ 2 then y + 1 else y, m, d)

/-- `time.Time`: absolute instant in Unix nanoseconds plus attached location. -/
structure GoTime where
  nanos : Int
  loc : Location
deriving Repr, DecidableEq

/-- `time.Date`: builds the absolute instant from (possibly denormalized)
calendar fields interpreted in `loc`. -/
def timeDate (y m d h mn s ns : Int) (loc : Location) : GoTime :=
  ⟨(daysFromCivil y m d * 86400 + h * 3600 + mn * 60 + s - loc.offset) * 1000000000 + ns, loc⟩

/-- `time.Unix` (the local zone it attaches is immediately replaced by the
callers in this library via `.In`). -/
def timeUnix (sec nsec : Int) : GoTime :=
  ⟨sec * 1000000000 + nsec, localLoc⟩

/-- `Time.In`. -/
def timeIn (t : GoTime) (loc : Location) : GoTime :=
  ⟨t.nanos, loc⟩

/-! ## Error model

Each constructor of `Err` stands for one distinct error message template
produced in the source. -/

/-- The six fixed-width calendar fields, for `FieldLengthMismatch` (named `FieldName` as Mathlib takes `Field`). -/
inductive FieldName where
  | year | month | day | hour | minute | second
deriving Repr, DecidableEq

inductive Err where
  /-- "input ... length is ... and > max of 35" -/
  | inputTooLong (len : Nat)
  /-- "got unparsed caracters 'c'@i,... in input ..." ; payload keeps each
  offending rune with its position, in scan order. -/
  | unparsedChars (cs : List (Nat × Nat))
  /-- "zone is of length n wich is not enough to detect zone" -/
  | ambiguousZoneLength (n : Nat)
  /-- "input (field) length is not (2|4)" -/
  | fieldLengthMismatch (f : FieldName)
  /-- "couldn't parse number" (atoi2/atoi4) or a `strconv` failure -/
  | numericDecodeFailure
  /-- "UTC offset minutes m not in a 15 minute increment" -/
  | offsetNotOnQuarterHour (m : Int)
  /-- "Could not parse as ISO timestamp ..." (iso-only dispatcher exit) -/
  | isoParseFailure (ts : List Nat)
  /-- "timestamp.ParseUnixTS: Could not parse as UNIX timestamp ..." -/
  | unixDecodeFailure (ts : List Nat)
  /-- "timestamp.parseTimestamp: could not parse as UNIX timestamp ..." -/
  | unixParseFailure (ts : List Nat)
  /-- "timestamp.parseTimestamp: could not parse with other timestamp patterns" -/
  | noFallbackFormatMatched (ts : List Nat)
deriving Repr, DecidableEq

deriving instance DecidableEq for Except

/-- Outcome of a Go call that may also panic (slice bounds out of range). -/
inductive PRes where
  | ok (t : GoTime)
  | err (e : Err)
  | panicked
deriving Repr, DecidableEq

/-! ## Numeric decoding (`atoi2`, `atoi4`, `strconv`) -/

/-- `atoi2`: fixed-width 2-rune decode; the Go byte-subtraction range check
`a < 0 || a > 9` is equivalent to the bound check on the code point. -/
def atoi2 (l : List Nat) : Except Err Nat :=
  match l with
  | a :: b :: _ =>
    if 48 ≤ a ∧ a ≤ 57 ∧ 48 ≤ b ∧ b ≤ 57 then
      .ok ((a - 48) * 10 + (b - 48))
    else .error .numericDecodeFailure
  | _ => .error .numericDecodeFailure

/-- `atoi4`: fixed-width 4-rune decode. -/
def atoi4 (l : List Nat) : Except Err Nat :=
  match l with
  | a :: b :: c :: d :: _ =>
    if 48 ≤ a ∧ a ≤ 57 ∧ 48 ≤ b ∧ b ≤ 57 ∧ 48 ≤ c ∧ c ≤ 57 ∧ 48 ≤ d ∧ d ≤ 57 then
      .ok ((a - 48) * 1000 + (b - 48) * 100 + (c - 48) * 10 + (d - 48))
    else .error .numericDecodeFailure
  | _ => .error .numericDecodeFailure

/-- `strconv.Atoi` on a digit-only string (no sign appears at its call sites);
empty input is an error, as in Go. -/
def atoiN (l : List Nat) : Except Err Nat :=
  if l = [] then .error .numericDecodeFailure
  else if l.all (fun r => isDigitR r) then
    .ok (l.foldl (fun acc r => acc * 10 + (r - 48)) 0)
  else .error .numericDecodeFailure

/-! ## The ISO scanner state machine -/

def emptySection : Nat := 0
def yearSection : Nat := 1
def monthSection : Nat := 2
def daySection : Nat := 3
def hourSection : Nat := 4
def minuteSection : Nat := 5
def secondSection : Nat := 6
def subsecondSection : Nat := 7
def zoneSection : Nat := 8
def afterSection : Nat := 9

def yearMax : Nat := 4
def monthMax : Nat := 2
def dayMax : Nat := 2
def hourMax : Nat := 2
def minuteMax : Nat := 2
def secondMax : Nat := 2
def subsecondMax : Nat := 9
def zoneMax : Nat := 4

/-- The scanner's mutable locals. `terminated` models the `break` executed on a
legal Z; `unparsed` keeps (rune, position) instead of the formatted
`'c'@i` strings. -/
structure ScanState where
  currentSection : Nat
  yearPart : List Nat
  monthPart : List Nat
  dayPart : List Nat
  hourPart : List Nat
  minutePart : List Nat
  secondPart : List Nat
  subsecondPart : List Nat
  zonePart : List Nat
  offsetPositive : Bool
  unparsed : List (Nat × Nat)
  terminated : Bool
deriving Repr, DecidableEq

def initScanState : ScanState :=
  ⟨emptySection, [], [], [], [], [], [], [], [], false, [], false⟩

/-- `addIf`: append while below capacity, report whether the part is now full. -/
def addIf (part : List Nat) (add : Nat) (max : Nat) : List Nat × Bool :=
  let part := if part.length < max then part ++ [add] else part
  (part, part.length == max)

/-- `isZero`: is a rune slice all `'0'`. -/
def isZeroPart (part : List Nat) : Bool :=
  part.all (fun r => r == 48)

/-- One iteration of the scanner loop body, for rune `r` at position `i`. -/
def scanStep (st : ScanState) (r : Nat) (i : Nat) : ScanState :=
  if isDigitR r then
    if st.currentSection = emptySection ∨ st.currentSection = yearSection then
      let (part, full) := addIf st.yearPart r yearMax
      { st with yearPart := part,
                currentSection := if full then monthSection else yearSection }
    else if st.currentSection = monthSection then
      let (part, full) := addIf st.monthPart r monthMax
      { st with monthPart := part,
                currentSection := if full then daySection else st.currentSection }
    else if st.currentSection = daySection then
      let (part, full) := addIf st.dayPart r dayMax
      { st with dayPart := part,
                currentSection := if full then hourSection else st.currentSection }
    else if st.currentSection = hourSection then
      let (part, full) := addIf st.hourPart r hourMax
      { st with hourPart := part,
                currentSection := if full then minuteSection else st.currentSection }
    else if st.currentSection = minuteSection then
      let (part, full) := addIf st.minutePart r minuteMax
      { st with minutePart := part,
                currentSection := if full then secondSection else st.currentSection }
    else if st.currentSection = secondSection then
      let (part, full) := addIf st.secondPart r secondMax
      { st with secondPart := part,
                currentSection := if full then subsecondSection else st.currentSection }
    else if st.currentSection = subsecondSection then
      let (part, full) := addIf st.subsecondPart r subsecondMax
      { st with subsecondPart := part,
                currentSection := if full then zoneSection else st.currentSection }
    else if st.currentSection = zoneSection then
      let (part, full) := addIf st.zonePart r zoneMax
      { st with zonePart := part,
                currentSection := if full then afterSection else st.currentSection }
    else
      { st with unparsed := st.unparsed ++ [(r, i)] }
  else if r = 46 then
    -- '.': extraneous decimals skipped; in the subsecond section the Go code
    -- also performs no state change.
    st
  else if r = 45 ∨ r = 43 then
    if st.currentSection = subsecondSection then
      { st with offsetPositive := r = 43, currentSection := zoneSection }
    else st
  else if toUpperR r = 84 ∨ r = 58 ∨ r = 47 then
    -- 'T'/'t', ':', '/'
    st
  else if toUpperR r = 90 then
    -- 'Z'/'z'
    if st.currentSection = zoneSection ∨ st.currentSection = subsecondSection then
      { st with zonePart := st.zonePart ++ [48, 48, 48, 48], terminated := true }
    else
      { st with unparsed := st.unparsed ++ [(r, i)] }
  else if isSpaceR r then
    st
  else
    { st with unparsed := st.unparsed ++ [(r, i)] }

/-- The scanner loop over the input runes, starting at position `i`; `break`
(`terminated`) stops consumption. -/
def scanRunes (st : ScanState) (rs : List Nat) (i : Nat) : ScanState :=
  match rs with
  | [] => st
  | r :: rest =>
    let st' := scanStep st r i
    if st'.terminated then st' else scanRunes st' rest (i + 1)

example : (scanRunes initScanState (runesOf "20060102") 0).yearPart = runesOf "2006" := by
  decide

example : (scanRunes initScanState (runesOf "20060102") 0).dayPart = runesOf "02" := by
  decide

/-! ## Post-scan validation and instant construction (`ParseISOTimestamp` tail) -/

/-- Everything after the scan loop in `ParseISOTimestamp` (lines 590-856):
zone length validation and padding, time-part defaulting, field length
checks, numeric decoding, subsecond scaling and zone resolution.
`LocationFromOffset`'s returned handle is value-equal to
`FixedZone "FixedZone" offsetSec` (see the cache development below), which is
what is used here. -/
def resolveScan (st : ScanState) (location : Location) : Except Err GoTime :=
  let zonePart := st.zonePart
  let zoneLen := zonePart.length
  if zoneLen < zoneMax ∧ (zoneLen = 1 ∨ zoneLen = 3) then
    .error (.ambiguousZoneLength zoneLen)
  else
    -- zoneFound is false only in the zoneLen = 0 branch
    let zoneFound : Bool := zoneLen ≠ 0
    let zonePart :=
      if zoneLen = 0 then zonePart ++ [48, 48, 48, 48]
      else if zoneLen = 2 then zonePart ++ [48, 48]
      else zonePart
    -- Allow date-only input: default all three time parts together
    let (hourPart, minutePart, secondPart) :=
      if st.hourPart.length = 0 ∧ st.minutePart.length = 0 ∧ st.secondPart.length = 0 then
        ([48, 48], [48, 48], [48, 48])
      else (st.hourPart, st.minutePart, st.secondPart)
    if st.yearPart.length ≠ yearMax then .error (.fieldLengthMismatch .year)
    else if st.monthPart.length ≠ monthMax then .error (.fieldLengthMismatch .month)
    else if st.dayPart.length ≠ dayMax then .error (.fieldLengthMismatch .day)
    else if hourPart.length ≠ hourMax then .error (.fieldLengthMismatch .hour)
    else if minutePart.length ≠ minuteMax then .error (.fieldLengthMismatch .minute)
    else if secondPart.length ≠ secondMax then .error (.fieldLengthMismatch .second)
    else
      -- each failed decode returns its error, as Go's `if err != nil { return }`
      match (if isZeroPart st.yearPart then pure 0 else atoi4 st.yearPart : Except Err Nat) with
      | .error e => .error e
      | .ok y =>
      match (if isZeroPart st.monthPart then pure 0 else atoi2 st.monthPart : Except Err Nat) with
      | .error e => .error e
      | .ok m =>
      match (if isZeroPart st.dayPart then pure 0 else atoi2 st.dayPart : Except Err Nat) with
      | .error e => .error e
      | .ok d =>
      match (if isZeroPart hourPart then pure 0 else atoi2 hourPart : Except Err Nat) with
      | .error e => .error e
      | .ok h =>
      match (if isZeroPart minutePart then pure 0 else atoi2 minutePart : Except Err Nat) with
      | .error e => .error e
      | .ok mn =>
      match (if isZeroPart secondPart then pure 0 else atoi2 secondPart : Except Err Nat) with
      | .error e => .error e
      | .ok s =>
      -- subsecond decode and ×10^(9−len) scaling (exact also through Go's
      -- float64 since the result < 10^9)
      match (if st.subsecondPart.length > 0 ∧ ¬ isZeroPart st.subsecondPart then
               (atoiN st.subsecondPart).map (fun v =>
                 if st.subsecondPart.length < subsecondMax then
                   v * 10 ^ (subsecondMax - st.subsecondPart.length)
                 else v)
             else pure 0 : Except Err Nat) with
      | .error e => .error e
      | .ok subseconds =>
        let offsetZero := isZeroPart zonePart
        if zoneFound = false then
          .ok (timeDate y m d h mn s subseconds location)
        else if offsetZero = true then
          .ok (timeDate y m d h mn s subseconds utc)
        else
          match (if isZeroPart (zonePart.take 2) then pure 0
                 else atoiN (zonePart.take 2) : Except Err Nat) with
          | .error e => .error e
          | .ok offsetH =>
          match (if isZeroPart (zonePart.drop 2) then pure 0
                 else atoiN (zonePart.drop 2) : Except Err Nat) with
          | .error e => .error e
          | .ok offsetM =>
            let offsetSec : Int := (offsetH : Int) * 60 * 60 + (offsetM : Int) * 60
            let offsetSec := if st.offsetPositive = false then -offsetSec else offsetSec
            if offsetM = 0 ∨ offsetM = 15 ∨ offsetM = 30 ∨ offsetM = 45 then
              .ok (timeDate y m d h mn s subseconds (FixedZone "FixedZone" offsetSec))
            else
              .error (.offsetNotOnQuarterHour offsetM)

/-- `ParseISOTimestamp`: length gate, scan, unparsed-character aggregation,
then post-scan resolution. -/
def parseISOTimestamp (timeStr : List Nat) (location : Location) : Except Err GoTime :=
  if timeStr.length > 35 then .error (.inputTooLong timeStr.length)
  else if (scanRunes initScanState timeStr 0).unparsed ≠ [] then
    .error (.unparsedChars (scanRunes initScanState timeStr 0).unparsed)
  else resolveScan (scanRunes initScanState timeStr 0) location

/-! ## The numeric-candidate regexes -/

/-- Denotation of the compiled regex `^\d+\.?\d+$` (the source's `reDigits`):
at least two characters, all digits except at most one interior dot, and both
endpoints digits.  (Equivalent to the regex: with no dot it demands ≥ 2
digits; with a dot, ≥ 1 digit on each side.) -/
def reDigitsMatch (rs : List Nat) : Bool :=
  2 ≤ rs.length &&
  rs.all (fun r => isDigitR r || r == 46) &&
  rs.countP (fun r => r == 46) ≤ 1 &&
  (match rs.head? with | some r => isDigitR r | none => false) &&
  (match rs.getLast? with | some r => isDigitR r | none => false)

/-- Denotation of the regex `^\d+(\.\d+)?$` that the SPEC text uses for the
numeric-candidate test (claim C1's wording): like `reDigitsMatch` but a single
digit already matches. -/
def specNumericMatch (rs : List Nat) : Bool :=
  1 ≤ rs.length &&
  rs.all (fun r => isDigitR r || r == 46) &&
  rs.countP (fun r => r == 46) ≤ 1 &&
  (match rs.head? with | some r => isDigitR r | none => false) &&
  (match rs.getLast? with | some r => isDigitR r | none => false)

/-! ## Unix timestamp decoding -/

/-- `strings.SplitN(s, ".", 2)`: the part before the first `.` and, when a dot
exists, the remainder after it. -/
def splitFirstDot : List Nat → List Nat × Option (List Nat)
  | [] => ([], none)
  | r :: rest =>
    if r = 46 then ([], some rest)
    else
      let (a, b) := splitFirstDot rest
      (r :: a, b)

/-- `strconv.ParseInt(_, 10, 64)`: optional sign, digits, 64-bit range check. -/
def parseInt64 (l : List Nat) : Except Err Int :=
  let signDigits : Bool × List Nat :=
    match l with
    | 43 :: rest => (false, rest)
    | 45 :: rest => (true, rest)
    | _ => (false, l)
  let neg := signDigits.1
  let digits := signDigits.2
  if digits = [] then .error .numericDecodeFailure
  else if digits.all (fun r => isDigitR r) then
    let v : Nat := digits.foldl (fun acc r => acc * 10 + (r - 48)) 0
    let v : Int := if neg then -(v : Int) else (v : Int)
    if -(2 ^ 63) ≤ v ∧ v ≤ 2 ^ 63 - 1 then .ok v else .error .numericDecodeFailure
  else .error .numericDecodeFailure

/-- `parseUnixTS` (the docker-derived helper): split on the first dot, decode
seconds and the fractional part, scale the fraction to nanoseconds.  For a
fraction of ≤ 9 digits Go's `float64(n) * math.Pow(10, 9-len)` is exact
(result < 10^9) and equals this integer arithmetic; the > 9 digit case (the
spec's acknowledged shrinking defect) is approximated by the corresponding
power-of-ten division, which no claim exercises. -/
def parseUnixTS (timeStr : List Nat) : Except Err (Int × Int) := do
  let sa := splitFirstDot timeStr
  let s ← parseInt64 sa.1
  match sa.2 with
  | none => .ok (s, 0)
  | some sa1 => do
    let n ← parseInt64 sa1
    let n : Int :=
      if sa1.length ≤ 9 then n * (10 : Int) ^ (9 - sa1.length)
      else n / (10 : Int) ^ (sa1.length - 9)
    .ok (s, n)

/-- `ParseUnixTS`: regex and length gates, then the `[0:10)`/`[11:len-1)`
re-slicing for long inputs.  For a matching input of length exactly 11 the Go
slice expression `timeStr[11:timeStrLength-1]` has low > high and panics. -/
def ParseUnixTS (timeStr : List Nat) : PRes :=
  let timeStrLength := timeStr.length
  if reDigitsMatch timeStr = true then
    if timeStrLength > 6 then
      if timeStrLength > 10 then
        if timeStrLength - 1 < 11 then .panicked
        else
          let sec := timeStr.take 10
          let nsec := (timeStr.take (timeStrLength - 1)).drop 11
          let toSend := sec ++ [46] ++ nsec
          match parseUnixTS toSend with
          | .error e => .err e
          | .ok (s, n) => .ok (timeUnix s n)
      else
        match parseUnixTS timeStr with
        | .error e => .err e
        | .ok (s, n) => .ok (timeUnix s n)
    else .err (.unixDecodeFailure timeStr)
  else .err (.unixDecodeFailure timeStr)

/-! ## The offset-location cache -/

/-- The process-wide `map[int]*time.Location` held in `locationAtomic`,
as an association list keyed by offset seconds (one entry per distinct key). -/
abbrev ZoneCache := List (Int × Location)

/-- Go map access on the association list. -/
def cacheLookup : ZoneCache → Int → Option Location
  | [], _ => none
  | (k, l) :: rest, off => if k = off then some l else cacheLookup rest off

/-- `LocationFromOffset` as a state-passing function: lookup, full clear on a
hit that observes more than 50 entries, insert on a miss. -/
def locationFromOffset (cache : ZoneCache) (offsetSec : Int) : Location × ZoneCache :=
  match cacheLookup cache offsetSec with
  | some l => (l, if cache.length > 50 then [] else cache)
  | none =>
    let l := FixedZone "FixedZone" offsetSec
    (l, cache ++ [(offsetSec, l)])

/-- Run a sequence of offset requests against the cache. -/
def runCache (cache : ZoneCache) (reqs : List Int) : ZoneCache :=
  match reqs with
  | [] => cache
  | o :: rest => runCache (locationFromOffset cache o).2 rest

/-! ## Classifier / dispatcher -/

/-- `nonISOTimeFormats` (= `timeFormats`), the fallback chain in source order. -/
def nonISOTimeFormats : List String :=
  [ "Mon, 02 Jan 2006 15:04:05 GMT",
    "Mon, 02 Jan 2006 15:04:05 -0700",
    "Mon, 02 Jan 2006 15:04:05",
    "Monday, 02-Jan-2006 15:04:05",
    "02 Jan 06 15:04 -0700",
    "2006-01-02 15-04-05",
    "20060102150405",
    "20060102",
    "01/02/2006",
    "1/2/2006" ]

/-- Result of the dispatcher together with which strategies it invoked
(`isoTried` ⟺ `ParseISOTimestamp` was called, `unixTried` ⟺ `ParseUnixTS`
was called). -/
structure DispatchResult where
  result : PRes
  isoTried : Bool
  unixTried : Bool
deriving Repr, DecidableEq

/-- The fallback loop over `nonISOTimeFormats`; `tpil` stands for the external
collaborator `time.ParseInLocation` (format, text, default location). -/
def tryFormats (tpil : String → List Nat → Location → Option GoTime)
    (fmts : List String) (original : List Nat) (location : Location) : PRes :=
  match fmts with
  | [] => .err (.noFallbackFormatMatched original)
  | f :: rest =>
    match tpil f original location with
    | some t => .ok t
    | none => tryFormats tpil rest original location

/-- `parseTimestamp`: trim, numeric-candidate classification, ISO attempt for
non-candidates, iso-only exit, Unix attempt for candidates, fallback chain. -/
def parseTimestampT (tpil : String → List Nat → Location → Option GoTime)
    (timeStr : List Nat) (location : Location) (isoOnly : Bool) : DispatchResult :=
  let timeStr := trimSpace timeStr
  let original := timeStr
  let isTS : Bool := reDigitsMatch timeStr && !(timeStr.length == 8) && !(timeStr.length == 14)
  if isTS = false then
    match parseISOTimestamp timeStr location with
    | .ok t => ⟨.ok t, true, false⟩
    | .error _ =>
      if isoOnly = true then ⟨.err (.isoParseFailure timeStr), true, false⟩
      else ⟨tryFormats tpil nonISOTimeFormats original location, true, false⟩
  else
    if isoOnly = true then ⟨.err (.isoParseFailure timeStr), false, false⟩
    else
      match ParseUnixTS timeStr with
      | .panicked => ⟨.panicked, false, true⟩
      | .err _ => ⟨.err (.unixParseFailure timeStr), false, true⟩
      | .ok t => ⟨.ok (timeIn t location), false, true⟩

def ParseInUTC (tpil : String → List Nat → Location → Option GoTime)
    (timeStr : List Nat) : PRes :=
  (parseTimestampT tpil timeStr utc false).result

def ParseISOInUTC (tpil : String → List Nat → Location → Option GoTime)
    (timeStr : List Nat) : PRes :=
  (parseTimestampT tpil timeStr utc true).result

def ParseInLocation (tpil : String → List Nat → Location → Option GoTime)
    (timeStr : List Nat) (location : Location) : PRes :=
  (parseTimestampT tpil timeStr location false).result

def ParseISOInLocation (tpil : String → List Nat → Location → Option GoTime)
    (timeStr : List Nat) (location : Location) : PRes :=
  (parseTimestampT tpil timeStr location true).result

/-- A vacuous stand-in for the external `time.ParseInLocation`, used only to
instantiate `tpil` in closed statements whose truth does not depend on it. -/
def noFallback : String → List Nat → Location → Option GoTime :=
  fun _ _ _ => none

/-! ## Formatting (`timestamp.go`) -/

/-- Decimal digit runes, fuel-indexed so that it is structurally recursive
(the fuel `n` itself always suffices: a number has at most `n` digits). -/
def decimalDigitsAux : Nat → Nat → List Nat
  | 0, n => [48 + n % 10]
  | fuel + 1, n => if n < 10 then [48 + n] else decimalDigitsAux fuel (n / 10) ++ [48 + n % 10]

/-- Decimal digit runes of a natural number (most significant first). -/
def decimalDigits (n : Nat) : List Nat :=
  decimalDigitsAux n n

/-- Go's `appendInt(v, width)`: minus sign for negatives, zero padding of the
magnitude up to `width`, full decimal beyond it. -/
def appendIntW (w : Nat) (n : Int) : List Nat :=
  let ds := decimalDigits n.natAbs
  let padded := List.replicate (w - ds.length) 48 ++ ds
  if n < 0 then 45 :: padded else padded

/-- The civil fields Go's `Format` reads off a `time.Time`. -/
structure DateFields where
  year : Int
  month : Int
  day : Int
  hour : Int
  minute : Int
  second : Int
  nsec : Int
deriving Repr, DecidableEq

/-- Decompose an instant into the civil fields of its attached location. -/
def dateFieldsOf (t : GoTime) : DateFields :=
  let sec := t.nanos.fdiv 1000000000
  let ns := t.nanos.fmod 1000000000
  let localSec := sec + t.loc.offset
  let days := localSec.fdiv 86400
  let sod := localSec.fmod 86400
  let c := civilFromDays days
  ⟨c.1, c.2.1, c.2.2, sod / 3600, (sod / 60) % 60, sod % 60, ns⟩

/-- The `±hhmm` / `±hh:mm` zone rendering of layouts `-0700` and `-07:00`. -/
def formatZoneHM (colon : Bool) (offset : Int) : List Nat :=
  let sign := if offset < 0 then 45 else 43
  let u := offset.natAbs / 60
  sign :: (appendIntW 2 ((u / 60 : Nat) : Int) ++ (if colon then [58] else []) ++
    appendIntW 2 ((u % 60 : Nat) : Int))

/-- `ISO8601Compact`: layout `"20060102T150405-0700"`. -/
def iso8601Compact (t : GoTime) : List Nat :=
  let f := dateFieldsOf t
  appendIntW 4 f.year ++ appendIntW 2 f.month ++ appendIntW 2 f.day ++ [84] ++
    appendIntW 2 f.hour ++ appendIntW 2 f.minute ++ appendIntW 2 f.second ++
    formatZoneHM false t.loc.offset

/-- `ISO8601CompactMsec`: layout `"20060102T150405.000-0700"`. -/
def iso8601CompactMsec (t : GoTime) : List Nat :=
  let f := dateFieldsOf t
  appendIntW 4 f.year ++ appendIntW 2 f.month ++ appendIntW 2 f.day ++ [84] ++
    appendIntW 2 f.hour ++ appendIntW 2 f.minute ++ appendIntW 2 f.second ++
    [46] ++ appendIntW 3 (f.nsec / 1000000) ++
    formatZoneHM false t.loc.offset

/-- `ISO8601`: layout `"2006-01-02T15:04:05-07:00"`. -/
def iso8601Ext (t : GoTime) : List Nat :=
  let f := dateFieldsOf t
  appendIntW 4 f.year ++ [45] ++ appendIntW 2 f.month ++ [45] ++ appendIntW 2 f.day ++
    [84] ++ appendIntW 2 f.hour ++ [58] ++ appendIntW 2 f.minute ++ [58] ++
    appendIntW 2 f.second ++ formatZoneHM true t.loc.offset

/-- `ISO8601Msec`: layout `"2006-01-02T15:04:05.000-07:00"`. -/
def iso8601ExtMsec (t : GoTime) : List Nat :=
  let f := dateFieldsOf t
  appendIntW 4 f.year ++ [45] ++ appendIntW 2 f.month ++ [45] ++ appendIntW 2 f.day ++
    [84] ++ appendIntW 2 f.hour ++ [58] ++ appendIntW 2 f.minute ++ [58] ++
    appendIntW 2 f.second ++ [46] ++ appendIntW 3 (f.nsec / 1000000) ++
    formatZoneHM true t.loc.offset

def weekdayNames : List String :=
  ["Sun", "Mon", "Tue", "Wed", "Thu", "Fri", "Sat"]

def monthNames : List String :=
  ["Jan", "Feb", "Mar", "Apr", "May", "Jun", "Jul", "Aug", "Sep", "Oct", "Nov", "Dec"]

/-- `RFC7232`: convert to UTC first, then layout
`"Mon, 02 Jan 2006 15:04:05 GMT"` (`http.TimeFormat`). -/
def rfc7232 (t : GoTime) : List Nat :=
  let t := timeIn t utc
  let f := dateFieldsOf t
  let days := (t.nanos.fdiv 1000000000).fdiv 86400
  let wd := ((days.emod 7) + 4) % 7
  runesOf (weekdayNames.getD wd.toNat "") ++ runesOf ", " ++
    appendIntW 2 f.day ++ [32] ++ runesOf (monthNames.getD (f.month - 1).toNat "") ++
    [32] ++ appendIntW 4 f.year ++ [32] ++ appendIntW 2 f.hour ++ [58] ++
    appendIntW 2 f.minute ++ [58] ++ appendIntW 2 f.second ++ runesOf " GMT"

example : iso8601Compact (timeDate 2006 1 2 15 4 5 0 utc) = runesOf "20060102T150405+0000" := by
  decide

example :
    iso8601Ext (timeDate 2006 1 2 15 4 5 0 (FixedZone "FixedZone" (-25200))) =
      runesOf "2006-01-02T15:04:05-07:00" := by
  decide

example : rfc7232 (timeDate 2006 1 2 15 4 5 0 utc) = runesOf "Mon, 02 Jan 2006 15:04:05 GMT" := by
  decide

/-! ## Claims about the classifier (C1, C10) -/

/-- Pure-digit strings of length ≥ 2 match the compiled regex. -/
theorem reDigitsMatch_of_digits (ts : List Nat) (h : ∀ r ∈ ts, isDigitR r = true)
    (hl : 2 ≤ ts.length) : reDigitsMatch ts = true := by
  match ts, hl with
  | a :: rest, hl2 =>
    have ha := h a (by simp)
    have hdot : ∀ r ∈ a :: rest, ¬ r = 46 := by
      intro r hr
      have h2 := h r hr
      simp only [isDigitR, Bool.and_eq_true, decide_eq_true_eq] at h2
      omega
    have hne : a :: rest ≠ [] := by simp
    have hlastmem : (a :: rest).getLast hne ∈ a :: rest := List.getLast_mem _
    have hlast := h _ hlastmem
    have hcount : List.countP (fun r => r == 46) (a :: rest) = 0 := by
      apply List.countP_eq_zero.mpr
      intro r hr
      simp [hdot r hr]
    have hall : (a :: rest).all (fun r => isDigitR r || r == 46) = true := by
      simp only [List.all_eq_true]
      intro r hr
      simp [h r hr]
    unfold reDigitsMatch
    rw [List.getLast?_eq_getLast _ hne]
    simp only [List.head?_cons, hall, hcount, ha, hlast, Bool.and_eq_true, decide_eq_true_eq]
    simp
    have h3 := hl2
    simp only [List.length_cons] at h3
    omega

/-- With `isoOnly`, a numeric-candidate input exits with the ISO failure
message before any strategy is invoked. -/
theorem isoOnly_numeric_exit (tpil : String → List Nat → Location → Option GoTime)
    (loc : Location) (ts : List Nat) (hm : reDigitsMatch (trimSpace ts) = true)
    (h8 : (trimSpace ts).length ≠ 8) (h14 : (trimSpace ts).length ≠ 14) :
    parseTimestampT tpil ts loc true =
      ⟨.err (.isoParseFailure (trimSpace ts)), false, false⟩ := by
  have hts : (reDigitsMatch (trimSpace ts) && !((trimSpace ts).length == 8) &&
      !((trimSpace ts).length == 14)) = true := by
    simp [hm, h8, h14]
  simp only [parseTimestampT, hts]
  simp

/-- C1 (counterexample): the single-digit input "5" matches the SPEC's regex
`^\d+(\.\d+)?$`, is trimmed, and has length neither 8 nor 14, yet the
dispatcher does NOT attempt Unix decoding and DOES attempt the ISO scanner —
the code's regex `^\d+\.?\d+$` requires two digits, so "5" is not a numeric
candidate. -/
theorem C1_counterexample :
    specNumericMatch (runesOf "5") = true ∧
    trimSpace (runesOf "5") = runesOf "5" ∧
    (runesOf "5").length ≠ 8 ∧ (runesOf "5").length ≠ 14 ∧
    (parseTimestampT noFallback (runesOf "5") utc false).unixTried = false ∧
    (parseTimestampT noFallback (runesOf "5") utc false).isoTried = true := by
  decide

/-- C1 (amended): for trimmed input matching the code's regex `^\d+\.?\d+$`
(at least two digits, or digits on both sides of one dot) with length neither
8 nor 14, the full dispatcher attempts Unix decoding and never the ISO
scanner; trimmed pure-digit input of length exactly 8 or 14 goes to the ISO
scanner and never to Unix decoding. -/
theorem C1_theorem (tpil : String → List Nat → Location → Option GoTime)
    (loc : Location) (ts : List Nat) (htrim : trimSpace ts = ts) :
    (reDigitsMatch ts = true → ts.length ≠ 8 → ts.length ≠ 14 →
      (parseTimestampT tpil ts loc false).unixTried = true ∧
      (parseTimestampT tpil ts loc false).isoTried = false) ∧
    ((∀ r ∈ ts, isDigitR r = true) → (ts.length = 8 ∨ ts.length = 14) →
      (parseTimestampT tpil ts loc false).isoTried = true ∧
      (parseTimestampT tpil ts loc false).unixTried = false) := by
  constructor
  · intro hm h8 h14
    have hts : (reDigitsMatch ts && !(ts.length == 8) && !(ts.length == 14)) = true := by
      simp [hm, h8, h14]
    simp only [parseTimestampT, htrim, hts]
    simp only [Bool.true_eq_false, if_false, Bool.false_eq_true]
    cases hpu : ParseUnixTS ts <;> simp
  · intro hd h814
    have hts : (reDigitsMatch ts && !(ts.length == 8) && !(ts.length == 14)) = false := by
      rcases h814 with h | h <;> simp [h]
    simp only [parseTimestampT, htrim, hts]
    simp only [if_true]
    cases hpi : parseISOTimestamp ts loc <;> simp

/-- C1 (witness): the amended theorem applied at "1136214245" (a 10-digit
Unix-second candidate) and "20060102" (pure digits of length 8). -/
theorem C1_witness :
    (parseTimestampT noFallback (runesOf "1136214245") utc false).unixTried = true ∧
    (parseTimestampT noFallback (runesOf "1136214245") utc false).isoTried = false ∧
    (parseTimestampT noFallback (runesOf "20060102") utc false).isoTried = true := by
  have h1 := C1_theorem noFallback utc (runesOf "1136214245") (by decide)
  have h2 := C1_theorem noFallback utc (runesOf "20060102") (by decide)
  exact ⟨(h1.1 (by decide) (by decide) (by decide)).1,
    (h1.1 (by decide) (by decide) (by decide)).2,
    (h2.2 (by decide) (by decide)).1⟩

/-- C10: a numeric-candidate input given to the ISO-only entry points yields
the ISO-parse failure without the ISO scanner being invoked, even when
`ParseISOTimestamp` itself would succeed on it — witnessed by the 18-digit
all-digit string, which the raw scanner parses successfully. -/
theorem C10_theorem (tpil : String → List Nat → Location → Option GoTime)
    (loc : Location) (ts : List Nat) :
    (reDigitsMatch (trimSpace ts) = true → (trimSpace ts).length ≠ 8 →
      (trimSpace ts).length ≠ 14 →
      (parseTimestampT tpil ts loc true).result = .err (.isoParseFailure (trimSpace ts)) ∧
      (parseTimestampT tpil ts loc true).isoTried = false) ∧
    parseISOTimestamp (runesOf "123456789012345678") utc =
      .ok ⟨-23074350445432200000, utc⟩ ∧
    ParseISOInUTC tpil (runesOf "123456789012345678") =
      .err (.isoParseFailure (runesOf "123456789012345678")) := by
  refine ⟨?_, by decide, ?_⟩
  · intro hm h8 h14
    rw [isoOnly_numeric_exit tpil loc ts hm h8 h14]
    exact ⟨rfl, rfl⟩
  · show (parseTimestampT tpil (runesOf "123456789012345678") utc true).result = _
    rw [isoOnly_numeric_exit tpil utc (runesOf "123456789012345678")
      (by decide) (by decide) (by decide)]
    decide

/-! ## Claims about the Unix decoder (C2) -/

/-- The code's regex only accepts strings the spec's `digits[.digits]` shape
also accepts. -/
theorem reDigitsMatch_imp_spec (ts : List Nat) (h : reDigitsMatch ts = true) :
    specNumericMatch ts = true := by
  unfold reDigitsMatch at h
  unfold specNumericMatch
  simp only [Bool.and_eq_true, decide_eq_true_eq] at h ⊢
  exact ⟨⟨⟨⟨by omega, h.1.1.1.2⟩, h.1.1.2⟩, h.1.2⟩, h.2⟩

/-- C2 (counterexample): "1234567.890" has 11 characters but only 10 digits
once the dot is removed, so by the claim it must NOT be re-sliced and would
decode as seconds 1234567, nanoseconds 890000000; the code triggers the
re-slice on total length > 10 and, the slice bounds `[11:10]` being invalid,
panics. -/
theorem C2_counterexample :
    (runesOf "1234567.890").length = 11 ∧
    (runesOf "1234567.890").countP (fun r => isDigitR r) = 10 ∧
    parseUnixTS (runesOf "1234567.890") = .ok (1234567, 890000000) ∧
    ParseUnixTS (runesOf "1234567.890") = .panicked := by
  decide

/-- C2 (amended): `ParseUnixTS` fails with the Unix-decode failure for inputs
not matching `digits[.digits]` or of length ≤ 6; "1136214245" decodes to
seconds 1136214245 and nanoseconds 0; the input is decoded as-is for total
length in [7,10] and re-sliced exactly when the TOTAL length (dot included)
exceeds 10: for length ≥ 12 characters [0,10) become the seconds part and
[11,length−1) the nanosecond fraction, and for length exactly 11 the Go
slice expression panics. -/
theorem C2_theorem :
    (∀ ts : List Nat, specNumericMatch ts = false ∨ ts.length ≤ 6 →
      ParseUnixTS ts = .err (.unixDecodeFailure ts)) ∧
    ParseUnixTS (runesOf "1136214245") = .ok (timeUnix 1136214245 0) ∧
    (∀ ts : List Nat, reDigitsMatch ts = true → 7 ≤ ts.length → ts.length ≤ 10 →
      ParseUnixTS ts =
        match parseUnixTS ts with
        | .ok sn => .ok (timeUnix sn.1 sn.2)
        | .error e => .err e) ∧
    (∀ ts : List Nat, reDigitsMatch ts = true → 12 ≤ ts.length →
      ParseUnixTS ts =
        match parseUnixTS (ts.take 10 ++ [46] ++ (ts.take (ts.length - 1)).drop 11) with
        | .ok sn => .ok (timeUnix sn.1 sn.2)
        | .error e => .err e) ∧
    (∀ ts : List Nat, reDigitsMatch ts = true → ts.length = 11 →
      ParseUnixTS ts = .panicked) := by
  refine ⟨?_, by decide, ?_, ?_, ?_⟩
  · intro ts h
    rcases h with h | h
    · have hm : reDigitsMatch ts = false := by
        cases hr : reDigitsMatch ts
        · rfl
        · rw [reDigitsMatch_imp_spec ts hr] at h
          exact absurd h (by simp)
      simp [ParseUnixTS, hm]
    · unfold ParseUnixTS
      cases hr : reDigitsMatch ts
      · simp
      · simp only [if_true]
        have hle : ¬ (ts.length > 6) := by omega
        simp [hle]
  · intro ts hm h7 h10
    unfold ParseUnixTS
    simp only [hm, if_true]
    have hgt : ts.length > 6 := by omega
    have hng : ¬ (ts.length > 10) := by omega
    simp only [hgt, if_true, hng, if_false]
    cases hp : parseUnixTS ts <;> simp
  · intro ts hm h12
    unfold ParseUnixTS
    simp only [hm, if_true]
    have hgt : ts.length > 6 := by omega
    have hgt10 : ts.length > 10 := by omega
    have hnp : ¬ (ts.length - 1 < 11) := by omega
    simp only [hgt, if_true, hgt10, hnp, if_false]
    cases hp : parseUnixTS (ts.take 10 ++ [46] ++ (ts.take (ts.length - 1)).drop 11) <;>
      simp [hp]
  · intro ts hm h11
    unfold ParseUnixTS
    simp only [hm, if_true]
    have hgt : ts.length > 6 := by omega
    have hgt10 : ts.length > 10 := by omega
    have hp : ts.length - 1 < 11 := by omega
    simp [hgt, hgt10, hp]

/-- C2 (witness): the amended theorem applied at "123456" (too short),
"2006010247" (10 digits, decoded as-is), the 18-digit fused string, and an
11-digit string (panic). -/
theorem C2_witness :
    ParseUnixTS (runesOf "123456") = .err (.unixDecodeFailure (runesOf "123456")) ∧
    ParseUnixTS (runesOf "2006010247") =
      (match parseUnixTS (runesOf "2006010247") with
        | .ok sn => .ok (timeUnix sn.1 sn.2)
        | .error e => .err e) ∧
    ParseUnixTS (runesOf "113621424536300000") =
      (match parseUnixTS ((runesOf "113621424536300000").take 10 ++ [46] ++
          ((runesOf "113621424536300000").take ((runesOf "113621424536300000").length - 1)).drop 11) with
        | .ok sn => .ok (timeUnix sn.1 sn.2)
        | .error e => .err e) ∧
    ParseUnixTS (runesOf "12345678901") = .panicked :=
  ⟨C2_theorem.1 (runesOf "123456") (Or.inr (by decide)),
   C2_theorem.2.2.1 (runesOf "2006010247") (by decide) (by decide) (by decide),
   C2_theorem.2.2.2.1 (runesOf "113621424536300000") (by decide) (by decide),
   C2_theorem.2.2.2.2 (runesOf "12345678901") (by decide) (by decide)⟩

/-! ## Claims about the offset-location cache (C6) -/

/-- Every cache entry maps its key to the fixed zone handle for that key. -/
def cacheWF (c : ZoneCache) : Prop := ∀ p ∈ c, p.2 = FixedZone "FixedZone" p.1

theorem cacheLookup_wf (c : ZoneCache) (off : Int) (l : Location) (h : cacheWF c)
    (hl : cacheLookup c off = some l) : l = FixedZone "FixedZone" off := by
  induction c with
  | nil => simp [cacheLookup] at hl
  | cons p rest ih =>
    obtain ⟨k, v⟩ := p
    by_cases hk : k = off
    · subst hk
      simp [cacheLookup] at hl
      subst hl
      exact h (k, v) (by simp)
    · simp [cacheLookup, hk] at hl
      exact ih (fun q hq => h q (by simp [hq])) hl

theorem cacheWF_step (c : ZoneCache) (off : Int) (h : cacheWF c) :
    cacheWF (locationFromOffset c off).2 := by
  unfold locationFromOffset
  cases hl : cacheLookup c off with
  | none =>
    intro p hp
    simp only [List.mem_append, List.mem_singleton] at hp
    rcases hp with hp | hp
    · exact h p hp
    · subst hp; rfl
  | some l =>
    by_cases h50 : c.length > 50
    · simp [h50]
      intro p hp
      simp at hp
    · simp [h50]
      exact h

theorem cacheWF_run (c : ZoneCache) (reqs : List Int) (h : cacheWF c) :
    cacheWF (runCache c reqs) := by
  induction reqs generalizing c with
  | nil => exact h
  | cons o rest ih => exact ih _ (cacheWF_step c o h)

theorem locationFromOffset_handle (c : ZoneCache) (off : Int) (h : cacheWF c) :
    (locationFromOffset c off).1 = FixedZone "FixedZone" off := by
  unfold locationFromOffset
  cases hl : cacheLookup c off with
  | none => simp
  | some l =>
    simpa using cacheLookup_wf c off l h hl

def cacheKeys (c : ZoneCache) : List Int := c.map Prod.fst

theorem cacheLookup_none (c : ZoneCache) (off : Int) :
    cacheLookup c off = none ↔ off ∉ cacheKeys c := by
  induction c with
  | nil => simp [cacheLookup, cacheKeys]
  | cons p rest ih =>
    obtain ⟨k, v⟩ := p
    by_cases hk : k = off
    · subst hk
      simp [cacheLookup, cacheKeys]
    · simp [cacheLookup, hk, cacheKeys] at ih ⊢
      rw [ih]
      constructor
      · intro h
        exact ⟨fun he => hk he.symm, h⟩
      · intro h
        exact h.2

/-- Invariant for the bounded-growth argument: distinct keys, all drawn from
`allowed`. -/
def cacheInv (allowed : Finset Int) (c : ZoneCache) : Prop :=
  (cacheKeys c).Nodup ∧ ∀ k ∈ cacheKeys c, k ∈ allowed

theorem cacheInv_step (allowed : Finset Int) (c : ZoneCache) (off : Int)
    (h : cacheInv allowed c) (hoff : off ∈ allowed) :
    cacheInv allowed (locationFromOffset c off).2 := by
  unfold locationFromOffset
  cases hl : cacheLookup c off with
  | none =>
    have hnotin : off ∉ cacheKeys c := (cacheLookup_none c off).mp hl
    constructor
    · simp only [cacheKeys, List.map_append]
      rw [List.nodup_append]
      refine ⟨h.1, by simp, ?_⟩
      simp only [List.map_cons, List.map_nil]
      intro k hk
      simp only [List.mem_singleton]
      intro he
      exact hnotin (he ▸ hk)
    · intro k hk
      simp only [cacheKeys, List.map_append, List.mem_append] at hk
      rcases hk with hk | hk
      · exact h.2 k hk
      · simp at hk
        subst hk
        exact hoff
  | some l =>
    by_cases h50 : c.length > 50
    · simp [h50, cacheInv, cacheKeys]
    · simpa [h50] using h

theorem cacheInv_run (allowed : Finset Int) (c : ZoneCache) (reqs : List Int)
    (h : cacheInv allowed c) (hreqs : ∀ o ∈ reqs, o ∈ allowed) :
    cacheInv allowed (runCache c reqs) := by
  induction reqs generalizing c with
  | nil => exact h
  | cons o rest ih =>
    exact ih _ (cacheInv_step allowed c o h (hreqs o (by simp)))
      (fun o2 h2 => hreqs o2 (by simp [h2]))

theorem cacheInv_length (allowed : Finset Int) (c : ZoneCache) (h : cacheInv allowed c) :
    c.length ≤ allowed.card := by
  have h1 : (cacheKeys c).toFinset.card = (cacheKeys c).length :=
    List.toFinset_card_of_nodup h.1
  have h2 : (cacheKeys c).toFinset ⊆ allowed := by
    intro k hk
    exact h.2 k (List.mem_toFinset.mp hk)
  have h3 := Finset.card_le_card h2
  have h4 : (cacheKeys c).length = c.length := by simp [cacheKeys]
  omega

/-- C6 (counterexample): 51 distinct never-repeated offsets grow the cache to
51 entries — the bound of 50 is breached with no clearing (a clear happens
only on a later cache HIT). -/
theorem C6_counterexample :
    (runCache [] ((List.range 51).map (fun n => (n : Int)))).length = 51 := by
  decide

/-- C6 (amended): lookups of the same offset always return the equal fixed
zone handle, whatever the request history; the cache is never selectively
evicted — each call leaves it unchanged, appends exactly the new entry, or
clears it entirely; the full clear happens exactly on a hit observing more
than 50 entries; and the size stays bounded by 50 whenever the requested
offsets are drawn from at most 50 distinct values.  (More than 50 distinct
misses exceed the bound until the next hit, per the counterexample.) -/
theorem C6_theorem :
    (∀ reqs1 reqs2 : List Int, ∀ off : Int,
      (locationFromOffset (runCache [] reqs1) off).1 =
        (locationFromOffset (runCache [] reqs2) off).1) ∧
    (∀ c : ZoneCache, ∀ off : Int,
      (locationFromOffset c off).2 = [] ∨ (locationFromOffset c off).2 = c ∨
        (locationFromOffset c off).2 = c ++ [(off, FixedZone "FixedZone" off)]) ∧
    (∀ c : ZoneCache, ∀ off : Int, ∀ l : Location,
      cacheLookup c off = some l → 50 < c.length → (locationFromOffset c off).2 = []) ∧
    (∀ reqs : List Int, ∀ allowed : Finset Int, allowed.card ≤ 50 →
      (∀ o ∈ reqs, o ∈ allowed) → (runCache [] reqs).length ≤ 50) := by
  refine ⟨?_, ?_, ?_, ?_⟩
  · intro reqs1 reqs2 off
    rw [locationFromOffset_handle _ off (cacheWF_run [] reqs1 (by intro p hp; simp at hp)),
      locationFromOffset_handle _ off (cacheWF_run [] reqs2 (by intro p hp; simp at hp))]
  · intro c off
    unfold locationFromOffset
    cases hl : cacheLookup c off with
    | none => right; right; simp
    | some l =>
      by_cases h50 : c.length > 50
      · left; simp [h50]
      · right; left; simp [h50]
  · intro c off l hl h50
    unfold locationFromOffset
    rw [hl]
    simp [h50]
  · intro reqs allowed hcard hreqs
    have hinv := cacheInv_run allowed [] reqs (by constructor <;> simp [cacheKeys]) hreqs
    have := cacheInv_length allowed _ hinv
    omega

/-- C6 (witness): the amended theorem applied at concrete histories: equal
handles for offset 3600 after different histories; a full clear on a hit over
a 51-entry cache; and a three-request single-offset history staying ≤ 50. -/
theorem C6_witness :
    (locationFromOffset (runCache [] [0]) 3600).1 =
      (locationFromOffset (runCache [] [3600, 0]) 3600).1 ∧
    (locationFromOffset (runCache [] ((List.range 51).map (fun n => (n : Int)))) 0).2 = [] ∧
    (runCache [] [0, 0, 0]).length ≤ 50 :=
  ⟨C6_theorem.1 [0] [3600, 0] 3600,
   C6_theorem.2.2.1 _ 0 (FixedZone "FixedZone" 0) (by decide) (by decide),
   C6_theorem.2.2.2 [0, 0, 0] {0} (by decide) (by decide)⟩

/-- C10 (witness): the theorem's universal part applied at the numeric
candidate "115". -/
theorem C10_witness :
    (parseTimestampT noFallback (runesOf "115") utc true).result =
      .err (.isoParseFailure (runesOf "115")) ∧
    (parseTimestampT noFallback (runesOf "115") utc true).isoTried = false := by
  have h := (C10_theorem noFallback utc (runesOf "115")).1 (by decide) (by decide) (by decide)
  rw [(by decide : trimSpace (runesOf "115") = runesOf "115")] at h
  exact h

/-! ## Claims about the Z / zone handling of the scanner (C5) -/

/-- C5 (counterexample): on "20060102T150405+01Z" the 'Z' arrives in the Zone
state with "01" already in the zone buffer; the code APPENDS "0000", giving a
6-rune buffer "010000", and the parse succeeds with offset +3600 — not the
UTC offset the claim requires. -/
theorem C5_counterexample :
    (scanRunes initScanState (runesOf "20060102T150405+01Z") 0).zonePart = runesOf "010000" ∧
    (scanRunes initScanState (runesOf "20060102T150405+01Z") 0).zonePart ≠ [48, 48, 48, 48] ∧
    parseISOTimestamp (runesOf "20060102T150405+01Z") utc =
      .ok ⟨1136210645000000000, FixedZone "FixedZone" 3600⟩ := by
  decide

/-- C5 (amended): 'Z'/'z' in the Subsecond or Zone state APPENDS "0000" to
the zone buffer (so the buffer becomes exactly "0000" only when it was empty,
e.g. when 'Z' follows the seconds/subseconds, in which case the offset
resolves to UTC) and terminates scanning immediately, discarding all
remaining input; in any other state it is recorded as an unparsed-character
error.  "20060102T150405Z" and "20060102T150405+0000" parse to the identical
UTC instant. -/
theorem C5_theorem :
    (∀ st : ScanState, ∀ r i : Nat, (r = 90 ∨ r = 122) →
      ((st.currentSection = zoneSection ∨ st.currentSection = subsecondSection) →
        ∀ rs : List Nat,
          scanRunes st (r :: rs) i =
            { st with zonePart := st.zonePart ++ [48, 48, 48, 48], terminated := true }) ∧
      (¬ (st.currentSection = zoneSection ∨ st.currentSection = subsecondSection) →
        scanStep st r i = { st with unparsed := st.unparsed ++ [(r, i)] })) ∧
    parseISOTimestamp (runesOf "20060102T150405Z") utc =
      parseISOTimestamp (runesOf "20060102T150405+0000") utc ∧
    parseISOTimestamp (runesOf "20060102T150405Z") utc = .ok ⟨1136214245000000000, utc⟩ := by
  refine ⟨?_, by decide, by decide⟩
  intro st r i hr
  have hstep : ∀ hs : st.currentSection = zoneSection ∨ st.currentSection = subsecondSection,
      scanStep st r i =
        { st with zonePart := st.zonePart ++ [48, 48, 48, 48], terminated := true } := by
    intro hs
    rcases hr with rfl | rfl <;>
      · unfold scanStep
        simp [isDigitR, toUpperR, hs]
  constructor
  · intro hs rs
    unfold scanRunes
    rw [hstep hs]
    simp
  · intro hs
    rcases hr with rfl | rfl <;>
      · unfold scanStep
        simp [isDigitR, toUpperR, hs]

/-- C5 (witness): the amended theorem applied with the 'Z' arriving in the
Zone state of a concrete scan (trailing '?' discarded), and arriving in the
Empty state (recorded as unparsed). -/
theorem C5_witness :
    scanRunes (scanRunes initScanState (runesOf "20060102T150405+01") 0) [90, 63] 18 =
      { scanRunes initScanState (runesOf "20060102T150405+01") 0 with
          zonePart :=
            (scanRunes initScanState (runesOf "20060102T150405+01") 0).zonePart ++
              [48, 48, 48, 48],
          terminated := true } ∧
    scanStep initScanState 90 0 = { initScanState with unparsed := [(90, 0)] } := by
  constructor
  · exact (C5_theorem.1 _ 90 18 (Or.inl rfl)).1 (by decide) [63]
  · have h := (C5_theorem.1 initScanState 90 0 (Or.inl rfl)).2 (by decide)
    simpa using h

/-! ## Claims about unparsed-character aggregation (C7) -/

/-- Characters rejected by every branch of the scanner loop, in any state. -/
def alwaysOffendingR (c : Nat) : Bool :=
  !(isDigitR c) && c != 46 && c != 45 && c != 43 && toUpperR c != 84 &&
    c != 58 && c != 47 && toUpperR c != 90 && !(isSpaceR c)

/-- A character no branch accepts only appends an unparsed-character record;
the rest of the state is untouched, so scanning continues. -/
theorem scanStep_offending (st : ScanState) (c i : Nat) (h : alwaysOffendingR c = true) :
    scanStep st c i = { st with unparsed := st.unparsed ++ [(c, i)] } := by
  simp only [alwaysOffendingR, Bool.and_eq_true, Bool.not_eq_true', bne_iff_ne, ne_eq] at h
  obtain ⟨⟨⟨⟨⟨⟨⟨⟨hd, h46⟩, h45⟩, h43⟩, h84⟩, h58⟩, h47⟩, h90⟩, hsp⟩ := h
  unfold scanStep
  simp [hd, h46, h45, h43, h84, h58, h47, h90, hsp]

theorem scanRunes_cons (st : ScanState) (r : Nat) (rs : List Nat) (i : Nat) :
    scanRunes st (r :: rs) i =
      if (scanStep st r i).terminated = true then scanStep st r i
      else scanRunes (scanStep st r i) rs (i + 1) := rfl

/-- Scanning splits over append as long as no 'Z' terminator fired. -/
theorem scanRunes_append (st : ScanState) (rs more : List Nat) (i : Nat)
    (h : (scanRunes st rs i).terminated = false) :
    scanRunes st (rs ++ more) i = scanRunes (scanRunes st rs i) more (i + rs.length) := by
  induction rs generalizing st i with
  | nil => simp [scanRunes]
  | cons r rest ih =>
    by_cases ht : (scanStep st r i).terminated = true
    · rw [scanRunes_cons, if_pos ht] at h
      rw [ht] at h
      exact absurd h (by simp)
    · have hrhs : scanRunes st (r :: rest) i = scanRunes (scanStep st r i) rest (i + 1) := by
        rw [scanRunes_cons, if_neg ht]
      have hlhs : scanRunes st ((r :: rest) ++ more) i =
          scanRunes (scanStep st r i) (rest ++ more) (i + 1) := by
        rw [List.cons_append, scanRunes_cons, if_neg ht]
      rw [hrhs] at h
      rw [hlhs, hrhs, ih _ _ h]
      congr 1
      simp only [List.length_cons]
      omega

/-- C7 (counterexample): in "20060102T150405?Z?" the rune '?' (63) sits at
positions 15 and 17; the legal 'Z' at 16 terminates the scan, so the scanner
does NOT continue to the end of the input and the aggregated error preserves
only the offending character at position 15, not the one at 17. -/
theorem C7_counterexample :
    (runesOf "20060102T150405?Z?").getD 17 0 = 63 ∧
    alwaysOffendingR 63 = true ∧
    (scanRunes initScanState (runesOf "20060102T150405?Z?") 0).terminated = true ∧
    parseISOTimestamp (runesOf "20060102T150405?Z?") utc =
      .error (.unparsedChars [(63, 15)]) := by
  decide

/-- C7 (amended): the scanner does not stop at an unparsable character — an
offending character appended to any scan that has not hit a legal 'Z'
terminator is recorded with its exact position and the scan state is
otherwise unchanged, so scanning continues to the end of the input unless a
legal 'Z'/'z' terminates it early; all characters recorded before
termination are preserved, with positions, in one aggregated error, as in
"?2006?0102?" whose single error lists all three '?' positions. -/
theorem C7_theorem :
    (∀ st : ScanState, ∀ rs : List Nat, ∀ i c : Nat,
      alwaysOffendingR c = true →
      (scanRunes st rs i).terminated = false →
      scanRunes st (rs ++ [c]) i =
        { scanRunes st rs i with
            unparsed := (scanRunes st rs i).unparsed ++ [(c, i + rs.length)] }) ∧
    parseISOTimestamp (runesOf "?2006?0102?") utc =
      .error (.unparsedChars [(63, 0), (63, 5), (63, 10)]) := by
  refine ⟨?_, by decide⟩
  intro st rs i c hc ht
  rw [scanRunes_append st rs [c] i ht, scanRunes_cons, scanStep_offending _ c _ hc]
  simp [scanRunes, ht]

/-- C7 (witness): the amended theorem applied to the scan of "?2006" extended
by a second '?' — the new error is recorded at position 5 and scanning went
on. -/
theorem C7_witness :
    scanRunes initScanState (runesOf "?2006" ++ [63]) 0 =
      { scanRunes initScanState (runesOf "?2006") 0 with
          unparsed := (scanRunes initScanState (runesOf "?2006") 0).unparsed ++ [(63, 5)] } := by
  have h := C7_theorem.1 initScanState (runesOf "?2006") 0 63 (by decide) (by decide)
  simpa using h
/-- The plain decimal value of a digit-rune buffer. -/
def digitVal (l : List Nat) : Nat :=
  l.foldl (fun acc r => acc * 10 + (r - 48)) 0

theorem digitVal_zero (l : List Nat) (h : isZeroPart l = true) : digitVal l = 0 := by
  induction l with
  | nil => rfl
  | cons r rest ih =>
    simp only [isZeroPart, List.all_cons, Bool.and_eq_true, beq_iff_eq] at h
    have h2 : isZeroPart rest = true := h.2
    unfold digitVal at ih ⊢
    simp only [List.foldl_cons, h.1]
    simpa using ih h2

theorem foldl_digit_acc (l : List Nat) (acc : Nat) (ha : 0 < acc) :
    0 < l.foldl (fun acc r => acc * 10 + (r - 48)) acc := by
  induction l generalizing acc with
  | nil => exact ha
  | cons r rest ih =>
    simp only [List.foldl_cons]
    exact ih (acc * 10 + (r - 48)) (by omega)

theorem digitVal_pos (l : List Nat) (hd : ∀ r ∈ l, isDigitR r = true)
    (hnz : isZeroPart l = false) : 0 < digitVal l := by
  induction l with
  | nil => simp [isZeroPart] at hnz
  | cons r rest ih =>
    simp only [isZeroPart, List.all_cons, Bool.and_eq_true, beq_iff_eq,
      Bool.and_eq_false_iff] at hnz
    unfold digitVal
    simp only [List.foldl_cons]
    rcases hnz with h | h
    · have hr := hd r (by simp)
      simp only [isDigitR, Bool.and_eq_true, decide_eq_true_eq] at hr
      have hne : r ≠ 48 := by simpa using h
      have : 0 < 0 * 10 + (r - 48) := by omega
      exact foldl_digit_acc rest _ this
    · have h2 : isZeroPart rest = false := by simpa [isZeroPart] using h
      have hrest := ih (fun x hx => hd x (by simp [hx])) h2
      unfold digitVal at hrest
      rcases Nat.eq_zero_or_pos (r - 48) with h0 | h0
      · have hacc : 0 * 10 + (r - 48) = 0 := by omega
        rw [hacc]
        exact hrest
      · exact foldl_digit_acc rest _ (by omega)

theorem atoi2_digits (l : List Nat) (h2 : l.length = 2) (hd : ∀ r ∈ l, isDigitR r = true) :
    atoi2 l = .ok (digitVal l) := by
  match l, h2 with
  | [a, b], _ =>
    have ha := hd a (by simp)
    have hb := hd b (by simp)
    simp only [isDigitR, Bool.and_eq_true, decide_eq_true_eq] at ha hb
    have hred : atoi2 [a, b] = if 48 ≤ a ∧ a ≤ 57 ∧ 48 ≤ b ∧ b ≤ 57 then
        .ok ((a - 48) * 10 + (b - 48)) else .error .numericDecodeFailure := rfl
    rw [hred, if_pos ⟨ha.1, ha.2, hb.1, hb.2⟩]
    unfold digitVal
    simp only [List.foldl_cons, List.foldl_nil, Except.ok.injEq]
    omega

theorem atoi4_digits (l : List Nat) (h4 : l.length = 4) (hd : ∀ r ∈ l, isDigitR r = true) :
    atoi4 l = .ok (digitVal l) := by
  match l, h4 with
  | [a, b, c, d], _ =>
    have ha := hd a (by simp)
    have hb := hd b (by simp)
    have hc := hd c (by simp)
    have hd4 := hd d (by simp)
    simp only [isDigitR, Bool.and_eq_true, decide_eq_true_eq] at ha hb hc hd4
    have hred : atoi4 [a, b, c, d] = if 48 ≤ a ∧ a ≤ 57 ∧ 48 ≤ b ∧ b ≤ 57 ∧
        48 ≤ c ∧ c ≤ 57 ∧ 48 ≤ d ∧ d ≤ 57 then
        .ok ((a - 48) * 1000 + (b - 48) * 100 + (c - 48) * 10 + (d - 48))
      else .error .numericDecodeFailure := rfl
    rw [hred, if_pos ⟨ha.1, ha.2, hb.1, hb.2, hc.1, hc.2, hd4.1, hd4.2⟩]
    unfold digitVal
    simp only [List.foldl_cons, List.foldl_nil, Except.ok.injEq]
    omega

theorem atoiN_digits (l : List Nat) (hne : l ≠ []) (hd : ∀ r ∈ l, isDigitR r = true) :
    atoiN l = .ok (digitVal l) := by
  unfold atoiN
  rw [if_neg hne, if_pos (by simpa [List.all_eq_true] using hd)]
  rfl

theorem decodeIf2 (l : List Nat) (h2 : l.length = 2) (hd : ∀ r ∈ l, isDigitR r = true) :
    (if isZeroPart l then (pure 0 : Except Err Nat) else atoi2 l) = .ok (digitVal l) := by
  by_cases h : isZeroPart l = true
  · rw [if_pos h, digitVal_zero l h]; rfl
  · rw [if_neg (by simp [h])]
    exact atoi2_digits l h2 hd

theorem decodeIf4 (l : List Nat) (h4 : l.length = 4) (hd : ∀ r ∈ l, isDigitR r = true) :
    (if isZeroPart l then (pure 0 : Except Err Nat) else atoi4 l) = .ok (digitVal l) := by
  by_cases h : isZeroPart l = true
  · rw [if_pos h, digitVal_zero l h]; rfl
  · rw [if_neg (by simp [h])]
    exact atoi4_digits l h4 hd

theorem decodeIfN (l : List Nat) (hne : l ≠ []) (hd : ∀ r ∈ l, isDigitR r = true) :
    (if isZeroPart l then (pure 0 : Except Err Nat) else atoiN l) = .ok (digitVal l) := by
  by_cases h : isZeroPart l = true
  · rw [if_pos h, digitVal_zero l h]; rfl
  · rw [if_neg (by simp [h])]
    exact atoiN_digits l hne hd

/-- Subsecond value after the library's left-aligned scaling. -/
def subsecondVal (l : List Nat) : Nat :=
  if l.length < subsecondMax then digitVal l * 10 ^ (subsecondMax - l.length) else digitVal l

theorem decodeSubsecond (l : List Nat) (hd : ∀ r ∈ l, isDigitR r = true) :
    (if l.length > 0 ∧ ¬ isZeroPart l then
       (atoiN l).map (fun v =>
         if l.length < subsecondMax then v * 10 ^ (subsecondMax - l.length) else v)
     else pure 0 : Except Err Nat) = .ok (subsecondVal l) := by
  by_cases h0 : l = []
  · subst h0
    have hval : subsecondVal ([] : List Nat) = 0 := by simp [subsecondVal, digitVal]
    rw [if_neg (by simp), hval]
    rfl
  · by_cases hz : isZeroPart l = true
    · have hval : subsecondVal l = 0 := by simp [subsecondVal, digitVal_zero l hz]
      rw [if_neg (by simp [hz]), hval]
      rfl
    · rw [if_pos ⟨by simpa using List.length_pos.mpr h0, by simp [hz]⟩, atoiN_digits l h0 hd]
      rfl

theorem decodeSubsecondN (l : List Nat) (hd : ∀ r ∈ l, isDigitR r = true) :
    (if 0 < l.length ∧ isZeroPart l = false then
       Except.map (fun v => if l.length < 9 then v * 10 ^ (9 - l.length) else v) (atoiN l)
     else pure 0 : Except Err Nat) = .ok (subsecondVal l) := by
  have h := decodeSubsecond l hd
  by_cases h0 : 0 < l.length ∧ isZeroPart l = false
  · rw [if_pos h0]
    rw [if_pos (show l.length > 0 ∧ ¬ isZeroPart l = true from ⟨h0.1, by simp [h0.2]⟩)] at h
    exact h
  · rw [if_neg h0]
    rw [if_neg (show ¬ (l.length > 0 ∧ ¬ isZeroPart l = true) from
      fun hc => h0 ⟨hc.1, by simpa using hc.2⟩)] at h
    exact h

abbrev fullLengths (st : ScanState) : Prop :=
  st.yearPart.length = 4 ∧ st.monthPart.length = 2 ∧ st.dayPart.length = 2 ∧
  st.hourPart.length = 2 ∧ st.minutePart.length = 2 ∧ st.secondPart.length = 2

abbrev digitParts (st : ScanState) : Prop :=
  (∀ r ∈ st.yearPart, isDigitR r = true) ∧ (∀ r ∈ st.monthPart, isDigitR r = true) ∧
  (∀ r ∈ st.dayPart, isDigitR r = true) ∧ (∀ r ∈ st.hourPart, isDigitR r = true) ∧
  (∀ r ∈ st.minutePart, isDigitR r = true) ∧ (∀ r ∈ st.secondPart, isDigitR r = true) ∧
  (∀ r ∈ st.subsecondPart, isDigitR r = true) ∧ (∀ r ∈ st.zonePart, isDigitR r = true)

theorem resolveScan_noZone (st : ScanState) (loc : Location)
    (hfl : fullLengths st) (hdig : digitParts st) (hz0 : st.zonePart.length = 0) :
    resolveScan st loc = .ok (timeDate (digitVal st.yearPart) (digitVal st.monthPart)
      (digitVal st.dayPart) (digitVal st.hourPart) (digitVal st.minutePart)
      (digitVal st.secondPart) (subsecondVal st.subsecondPart) loc) := by
  obtain ⟨hy, hm, hd2, hh, hmn, hs⟩ := hfl
  obtain ⟨dy, dm, dd, dh, dmn, ds, dsub, dz⟩ := hdig
  unfold resolveScan
  simp only [yearMax, monthMax, dayMax, hourMax, minuteMax, secondMax, subsecondMax, zoneMax,
    hz0, hy, hm, hd2, hh, hmn, hs, reduceIte]
  norm_num
  rw [if_pos hh, if_pos hmn, if_pos hs,
    decodeIf4 st.yearPart hy dy, decodeIf2 st.monthPart hm dm, decodeIf2 st.dayPart hd2 dd,
    decodeIf2 st.hourPart hh dh, decodeIf2 st.minutePart hmn dmn, decodeIf2 st.secondPart hs ds,
    decodeSubsecondN st.subsecondPart dsub]

theorem isZeroPart_append (a b : List Nat) :
    isZeroPart (a ++ b) = (isZeroPart a && isZeroPart b) := by
  simp [isZeroPart, List.all_append]

theorem resolveScan_zoneZero (st : ScanState) (loc : Location)
    (hfl : fullLengths st) (hdig : digitParts st)
    (hz : st.zonePart.length = 2 ∨ st.zonePart.length = 4)
    (hzero : isZeroPart st.zonePart = true) :
    resolveScan st loc = .ok (timeDate (digitVal st.yearPart) (digitVal st.monthPart)
      (digitVal st.dayPart) (digitVal st.hourPart) (digitVal st.minutePart)
      (digitVal st.secondPart) (subsecondVal st.subsecondPart) utc) := by
  obtain ⟨hy, hm, hd2, hh, hmn, hs⟩ := hfl
  obtain ⟨dy, dm, dd, dh, dmn, ds, dsub, dz⟩ := hdig
  rcases hz with hz | hz
  · unfold resolveScan
    simp only [yearMax, monthMax, dayMax, hourMax, minuteMax, secondMax, subsecondMax, zoneMax,
      hz, hy, hm, hd2, hh, hmn, hs, reduceIte]
    norm_num
    rw [if_pos hh, if_pos hmn, if_pos hs,
      decodeIf4 st.yearPart hy dy, decodeIf2 st.monthPart hm dm, decodeIf2 st.dayPart hd2 dd,
      decodeIf2 st.hourPart hh dh, decodeIf2 st.minutePart hmn dmn, decodeIf2 st.secondPart hs ds,
      decodeSubsecondN st.subsecondPart dsub]
    have hcond : isZeroPart (st.zonePart ++ [48, 48]) = true := by
      rw [isZeroPart_append, hzero]; rfl
    simp only [hcond]
    simp
  · unfold resolveScan
    simp only [yearMax, monthMax, dayMax, hourMax, minuteMax, secondMax, subsecondMax, zoneMax,
      hz, hy, hm, hd2, hh, hmn, hs, reduceIte]
    norm_num
    rw [if_pos hh, if_pos hmn, if_pos hs,
      decodeIf4 st.yearPart hy dy, decodeIf2 st.monthPart hm dm, decodeIf2 st.dayPart hd2 dd,
      decodeIf2 st.hourPart hh dh, decodeIf2 st.minutePart hmn dmn, decodeIf2 st.secondPart hs ds,
      decodeSubsecondN st.subsecondPart dsub]
    simp only [hzero]
    simp

theorem resolveScan_zone (st : ScanState) (loc : Location)
    (hfl : fullLengths st) (hdig : digitParts st)
    (hz : st.zonePart.length = 2 ∨ st.zonePart.length = 4)
    (hnzero : isZeroPart st.zonePart = false) :
    resolveScan st loc =
      (let zp := if st.zonePart.length = 2 then st.zonePart ++ [48, 48] else st.zonePart
       let offsetM := digitVal (zp.drop 2)
       let offsetSec : Int := (digitVal (zp.take 2) : Int) * 60 * 60 + (offsetM : Int) * 60
       let offsetSec := if st.offsetPositive = false then -offsetSec else offsetSec
       if offsetM = 0 ∨ offsetM = 15 ∨ offsetM = 30 ∨ offsetM = 45 then
         .ok (timeDate (digitVal st.yearPart) (digitVal st.monthPart)
           (digitVal st.dayPart) (digitVal st.hourPart) (digitVal st.minutePart)
           (digitVal st.secondPart) (subsecondVal st.subsecondPart)
           (FixedZone "FixedZone" offsetSec))
       else .error (.offsetNotOnQuarterHour offsetM)) := by
  obtain ⟨hy, hm, hd2, hh, hmn, hs⟩ := hfl
  obtain ⟨dy, dm, dd, dh, dmn, ds, dsub, dz⟩ := hdig
  rcases hz with hz | hz
  · have hzp : (st.zonePart ++ [48, 48]).length = 4 := by simp [hz]
    have hdzp : ∀ r ∈ st.zonePart ++ [48, 48], isDigitR r = true := by
      intro r hr
      rcases List.mem_append.mp hr with hr | hr
      · exact dz r hr
      · simp at hr
        subst hr
        decide
    have htk : (st.zonePart ++ [48, 48]).take 2 ≠ [] := by
      intro hc
      have := congrArg List.length hc
      simp [List.length_take, hzp] at this
    have hdr : (st.zonePart ++ [48, 48]).drop 2 ≠ [] := by
      intro hc
      have := congrArg List.length hc
      simp [List.length_drop, hzp] at this
    unfold resolveScan
    simp only [yearMax, monthMax, dayMax, hourMax, minuteMax, secondMax, subsecondMax, zoneMax,
      hz, hy, hm, hd2, hh, hmn, hs, reduceIte]
    norm_num
    rw [if_pos hh, if_pos hmn, if_pos hs,
      decodeIf4 st.yearPart hy dy, decodeIf2 st.monthPart hm dm, decodeIf2 st.dayPart hd2 dd,
      decodeIf2 st.hourPart hh dh, decodeIf2 st.minutePart hmn dmn, decodeIf2 st.secondPart hs ds,
      decodeSubsecondN st.subsecondPart dsub]
    have hcond : isZeroPart (st.zonePart ++ [48, 48]) = false := by
      rw [isZeroPart_append, hnzero]; rfl
    rw [decodeIfN _ htk (fun r hr => hdzp r (List.mem_of_mem_take hr)),
      decodeIfN _ hdr (fun r hr => hdzp r (List.mem_of_mem_drop hr))]
    simp only [hcond, Bool.false_eq_true, if_false]
  · have htk : st.zonePart.take 2 ≠ [] := by
      intro hc
      have := congrArg List.length hc
      simp [List.length_take, hz] at this
    have hdr : st.zonePart.drop 2 ≠ [] := by
      intro hc
      have := congrArg List.length hc
      simp [List.length_drop, hz] at this
    unfold resolveScan
    simp only [yearMax, monthMax, dayMax, hourMax, minuteMax, secondMax, subsecondMax, zoneMax,
      hz, hy, hm, hd2, hh, hmn, hs, reduceIte]
    norm_num
    rw [if_pos hh, if_pos hmn, if_pos hs,
      decodeIf4 st.yearPart hy dy, decodeIf2 st.monthPart hm dm, decodeIf2 st.dayPart hd2 dd,
      decodeIf2 st.hourPart hh dh, decodeIf2 st.minutePart hmn dmn, decodeIf2 st.secondPart hs ds,
      decodeSubsecondN st.subsecondPart dsub]
    rw [decodeIfN _ htk (fun r hr => dz r (List.mem_of_mem_take hr)),
      decodeIfN _ hdr (fun r hr => dz r (List.mem_of_mem_drop hr))]
    simp only [hnzero, Bool.false_eq_true, if_false]

/-- The zone buffer after the post-scan padding (length-2 zones get "00"
minutes appended). -/
def zonePadded (st : ScanState) : List Nat :=
  if st.zonePart.length = 2 then st.zonePart ++ [48, 48] else st.zonePart

/-- The minutes component `zone[2:4]` decodes to. -/
def zoneMinutes (st : ScanState) : Nat :=
  digitVal ((zonePadded st).drop 2)

/-- The signed offset seconds resolved from the zone buffer. -/
def zoneOffsetSec (st : ScanState) : Int :=
  let o : Int := (digitVal ((zonePadded st).take 2) : Int) * 60 * 60 + (zoneMinutes st : Int) * 60
  if st.offsetPositive = false then -o else o

/-- Zone resolution for a scanned, non-zero zone: quarter-hour check decides
between the fixed-zone instant and the offset error. -/
theorem resolveScan_zoneM (st : ScanState) (loc : Location)
    (hfl : fullLengths st) (hdig : digitParts st)
    (hz : st.zonePart.length = 2 ∨ st.zonePart.length = 4)
    (hnzero : isZeroPart st.zonePart = false) :
    resolveScan st loc =
      if zoneMinutes st = 0 ∨ zoneMinutes st = 15 ∨ zoneMinutes st = 30 ∨ zoneMinutes st = 45 then
        .ok (timeDate (digitVal st.yearPart) (digitVal st.monthPart) (digitVal st.dayPart)
          (digitVal st.hourPart) (digitVal st.minutePart) (digitVal st.secondPart)
          (subsecondVal st.subsecondPart) (FixedZone "FixedZone" (zoneOffsetSec st)))
      else .error (.offsetNotOnQuarterHour (zoneMinutes st)) := by
  rw [resolveScan_zone st loc hfl hdig hz hnzero]
  rfl

/-! ## Claims about zone resolution and time-part defaulting (C3, C9) -/

/-- C3: at zone resolution (zone buffer of valid scanned length 2 or 4, digit
buffers as the scanner produces them), an all-zero zone forces UTC regardless
of the caller default; an absent zone uses the caller default; otherwise the
minutes component decoded from `zone[2:4]` must be 0, 15, 30 or 45, the parse
failing with the offset-not-on-quarter-hour error exactly otherwise, as on
"2006/01/02T18.01.01+01:10". -/
theorem C3_theorem :
    (∀ st : ScanState, ∀ loc : Location, fullLengths st → digitParts st →
      (st.zonePart.length = 2 ∨ st.zonePart.length = 4) → isZeroPart st.zonePart = true →
      ∃ n : Int, resolveScan st loc = .ok ⟨n, utc⟩) ∧
    (∀ st : ScanState, ∀ loc : Location, fullLengths st → digitParts st →
      st.zonePart.length = 0 →
      ∃ n : Int, resolveScan st loc = .ok ⟨n, loc⟩) ∧
    (∀ st : ScanState, ∀ loc : Location, fullLengths st → digitParts st →
      (st.zonePart.length = 2 ∨ st.zonePart.length = 4) → isZeroPart st.zonePart = false →
      (¬ (zoneMinutes st = 0 ∨ zoneMinutes st = 15 ∨ zoneMinutes st = 30 ∨ zoneMinutes st = 45) →
        resolveScan st loc = .error (.offsetNotOnQuarterHour (zoneMinutes st))) ∧
      ((zoneMinutes st = 0 ∨ zoneMinutes st = 15 ∨ zoneMinutes st = 30 ∨ zoneMinutes st = 45) →
        ∃ t : GoTime, resolveScan st loc = .ok t ∧ t.loc = FixedZone "FixedZone" (zoneOffsetSec st))) ∧
    parseISOTimestamp (runesOf "2006/01/02T18.01.01+01:10") utc =
      .error (.offsetNotOnQuarterHour 10) := by
  refine ⟨?_, ?_, ?_, by decide⟩
  · intro st loc hfl hdig hz hzero
    exact ⟨_, by rw [resolveScan_zoneZero st loc hfl hdig hz hzero]; exact rfl⟩
  · intro st loc hfl hdig hz0
    exact ⟨_, by rw [resolveScan_noZone st loc hfl hdig hz0]; exact rfl⟩
  · intro st loc hfl hdig hz hnz
    constructor
    · intro hbad
      rw [resolveScan_zoneM st loc hfl hdig hz hnz, if_neg hbad]
    · intro hgood
      rw [resolveScan_zoneM st loc hfl hdig hz hnz, if_pos hgood]
      exact ⟨_, rfl, rfl⟩

/-- C3 (witness): the theorem applied at the scans of
"20060102T150405+0000" (zero zone, MST caller default, result still UTC),
"20060102T150405" (no zone, result in the MST default), and
"20060102T150405+0110" (10-minute offset rejected). -/
theorem C3_witness :
    (∃ n : Int, resolveScan (scanRunes initScanState (runesOf "20060102T150405+0000") 0)
      (FixedZone "MST" (-25200)) = .ok ⟨n, utc⟩) ∧
    (∃ n : Int, resolveScan (scanRunes initScanState (runesOf "20060102T150405") 0)
      (FixedZone "MST" (-25200)) = .ok ⟨n, FixedZone "MST" (-25200)⟩) ∧
    resolveScan (scanRunes initScanState (runesOf "20060102T150405+0110") 0) utc =
      .error (.offsetNotOnQuarterHour 10) := by
  refine ⟨C3_theorem.1 _ _ (by decide) (by decide) (by decide) (by decide),
    C3_theorem.2.1 _ _ (by decide) (by decide) (by decide), ?_⟩
  have h := (C3_theorem.2.2.1 (scanRunes initScanState (runesOf "20060102T150405+0110") 0)
    utc (by decide) (by decide) (by decide) (by decide)).1 (by decide)
  rw [(by decide :
    zoneMinutes (scanRunes initScanState (runesOf "20060102T150405+0110") 0) = 10)] at h
  exact h

/-- C9: if the hour, minute and second buffers are all empty they are
defaulted to "00" together (so "20060102" parses to 2006-01-02T00:00:00 UTC);
if at least one of the three is non-empty nothing is defaulted and the first
missing one is reported as a field-length mismatch naming that field. -/
theorem C9_theorem :
    (∀ st : ScanState, ∀ loc : Location,
      st.hourPart = [] → st.minutePart = [] → st.secondPart = [] →
      resolveScan st loc =
        resolveScan { st with hourPart := [48, 48], minutePart := [48, 48],
                              secondPart := [48, 48] } loc) ∧
    parseISOTimestamp (runesOf "20060102") utc = .ok ⟨1136160000000000000, utc⟩ ∧
    (∀ st : ScanState, ∀ loc : Location,
      ¬ (st.hourPart = [] ∧ st.minutePart = [] ∧ st.secondPart = []) →
      ¬ (st.zonePart.length = 1 ∨ st.zonePart.length = 3) →
      st.yearPart.length = 4 → st.monthPart.length = 2 → st.dayPart.length = 2 →
      (st.hourPart.length ≠ 2 → resolveScan st loc = .error (.fieldLengthMismatch .hour)) ∧
      (st.hourPart.length = 2 → st.minutePart.length ≠ 2 →
        resolveScan st loc = .error (.fieldLengthMismatch .minute)) ∧
      (st.hourPart.length = 2 → st.minutePart.length = 2 → st.secondPart.length ≠ 2 →
        resolveScan st loc = .error (.fieldLengthMismatch .second))) := by
  refine ⟨?_, by decide, ?_⟩
  · intro st loc h1 h2 h3
    simp only [resolveScan, h1, h2, h3]
    norm_num
  · intro st loc hne hzone hy hm hd2
    have hne0 : ¬ (st.hourPart.length = 0 ∧ st.minutePart.length = 0 ∧
        st.secondPart.length = 0) := by
      simpa [List.length_eq_zero] using hne
    have hzc : ¬ (st.zonePart.length < zoneMax ∧
        (st.zonePart.length = 1 ∨ st.zonePart.length = 3)) := fun hc => hzone hc.2
    refine ⟨?_, ?_, ?_⟩
    · intro hh
      unfold resolveScan
      simp only [hy, hm, hd2, yearMax, monthMax, dayMax, hourMax, minuteMax, secondMax]
      rw [if_neg hzc, if_neg hne0]
      norm_num
      exact fun h2 => absurd h2 hh
    · intro hh hmn
      unfold resolveScan
      simp only [hy, hm, hd2, yearMax, monthMax, dayMax, hourMax, minuteMax, secondMax]
      rw [if_neg hzc, if_neg hne0]
      norm_num
      rw [if_pos hh, if_neg hmn]
    · intro hh hmn hs
      unfold resolveScan
      simp only [hy, hm, hd2, yearMax, monthMax, dayMax, hourMax, minuteMax, secondMax]
      rw [if_neg hzc, if_neg hne0]
      norm_num
      rw [if_pos hh, if_pos hmn, if_neg hs]

/-- C9 (witness): the theorem applied at the scan of "20060102" (atomic
defaulting) and of "2006010215" (hour present, minute missing → the error
names the minute field). -/
theorem C9_witness :
    resolveScan (scanRunes initScanState (runesOf "20060102") 0) utc =
      resolveScan { scanRunes initScanState (runesOf "20060102") 0 with
          hourPart := [48, 48], minutePart := [48, 48], secondPart := [48, 48] } utc ∧
    resolveScan (scanRunes initScanState (runesOf "2006010215") 0) utc =
      .error (.fieldLengthMismatch .minute) :=
  ⟨C9_theorem.1 _ utc (by decide) (by decide) (by decide),
   (C9_theorem.2.2 _ utc (by decide) (by decide) (by decide) (by decide)
     (by decide)).2.1 (by decide) (by decide)⟩

/-! ## Claims about zone sign handling (C4) -/

/-- The scanner's zone-sign variable after one step: it changes only when a
'+' or '-' (43/45) arrives in the Subsecond state. -/
theorem scanStep_offsetPositive_eq (st : ScanState) (r i : Nat) :
    (scanStep st r i).offsetPositive =
      if st.currentSection = subsecondSection ∧ (r = 45 ∨ r = 43) then decide (r = 43)
      else st.offsetPositive := by
  by_cases hd : isDigitR r = true
  · have hc : ¬ (st.currentSection = subsecondSection ∧ (r = 45 ∨ r = 43)) := by
      simp only [isDigitR, Bool.and_eq_true, decide_eq_true_eq] at hd
      rintro ⟨-, h45 | h43⟩ <;> omega
    rw [if_neg hc]
    unfold scanStep
    rw [if_pos hd]
    repeat' split
    all_goals rfl
  · by_cases h46 : r = 46
    · have hc : ¬ (st.currentSection = subsecondSection ∧ (r = 45 ∨ r = 43)) := by
        rintro ⟨-, h45 | h43⟩ <;> omega
      rw [if_neg hc]
      unfold scanStep
      rw [if_neg hd, if_pos h46]
    · by_cases hsign : r = 45 ∨ r = 43
      · by_cases hsub : st.currentSection = subsecondSection
        · rw [if_pos ⟨hsub, hsign⟩]
          unfold scanStep
          rw [if_neg hd, if_neg h46, if_pos hsign, if_pos hsub]
        · rw [if_neg (fun hc => hsub hc.1)]
          unfold scanStep
          rw [if_neg hd, if_neg h46, if_pos hsign, if_neg hsub]
      · rw [if_neg (fun hc => hsign hc.2)]
        unfold scanStep
        rw [if_neg hd, if_neg h46, if_neg hsign]
        repeat' split
        all_goals rfl

/-- The sign variable can become true only through a '+' in the input. -/
theorem scan_plus (st : ScanState) (rs : List Nat) (i : Nat)
    (h : (scanRunes st rs i).offsetPositive = true) :
    st.offsetPositive = true ∨ 43 ∈ rs := by
  induction rs generalizing st i with
  | nil => exact Or.inl h
  | cons r rest ih =>
    rw [scanRunes_cons] at h
    by_cases ht : (scanStep st r i).terminated = true
    · rw [if_pos ht] at h
      have h2 := scanStep_offsetPositive_eq st r i
      rw [h] at h2
      by_cases hc : st.currentSection = subsecondSection ∧ (r = 45 ∨ r = 43)
      · rw [if_pos hc] at h2
        have h43 : r = 43 := by simpa using h2.symm
        exact Or.inr (by simp [h43])
      · rw [if_neg hc] at h2
        exact Or.inl h2.symm
    · rw [if_neg ht] at h
      rcases ih _ _ h with h2 | h2
      · have h3 := scanStep_offsetPositive_eq st r i
        rw [h2] at h3
        by_cases hc : st.currentSection = subsecondSection ∧ (r = 45 ∨ r = 43)
        · rw [if_pos hc] at h3
          have h43 : r = 43 := by simpa using h3.symm
          exact Or.inr (by simp [h43])
        · rw [if_neg hc] at h3
          exact Or.inl h3.symm
      · exact Or.inr (by simp [h2])

/-- Inversion of a successful `strconv.Atoi`. -/
theorem atoiN_ok_inv (l : List Nat) (v : Nat) (h : atoiN l = .ok v) :
    l ≠ [] ∧ (∀ r ∈ l, isDigitR r = true) ∧ v = digitVal l := by
  unfold atoiN at h
  by_cases h0 : l = []
  · rw [if_pos h0] at h
    exact absurd h (by simp)
  · rw [if_neg h0] at h
    by_cases hall : l.all (fun r => isDigitR r) = true
    · rw [if_pos hall] at h
      refine ⟨h0, by simpa [List.all_eq_true] using hall, ?_⟩
      have h2 := h.symm
      simpa [digitVal] using h2
    · rw [if_neg hall] at h
      exact absurd h (by simp)

theorem resolveScan_ambig (st : ScanState) (loc : Location)
    (hz : st.zonePart.length = 1 ∨ st.zonePart.length = 3) :
    resolveScan st loc = .error (.ambiguousZoneLength st.zonePart.length) := by
  unfold resolveScan
  rcases hz with hz | hz <;>
    · simp only [hz, zoneMax]
      norm_num

theorem resolveScan_badyear (st : ScanState) (loc : Location)
    (hza : ¬ (st.zonePart.length = 1 ∨ st.zonePart.length = 3))
    (hy : st.yearPart.length ≠ 4) :
    resolveScan st loc = .error (.fieldLengthMismatch .year) := by
  unfold resolveScan
  simp only [zoneMax, yearMax]
  rw [if_neg (fun hc => hza hc.2), if_pos hy]

theorem resolveScan_badmonth (st : ScanState) (loc : Location)
    (hza : ¬ (st.zonePart.length = 1 ∨ st.zonePart.length = 3))
    (hy : st.yearPart.length = 4) (hm : st.monthPart.length ≠ 2) :
    resolveScan st loc = .error (.fieldLengthMismatch .month) := by
  unfold resolveScan
  simp only [zoneMax, yearMax, monthMax]
  rw [if_neg (fun hc => hza hc.2), if_neg (by omega : ¬ st.yearPart.length ≠ 4), if_pos hm]

theorem resolveScan_badday (st : ScanState) (loc : Location)
    (hza : ¬ (st.zonePart.length = 1 ∨ st.zonePart.length = 3))
    (hy : st.yearPart.length = 4) (hm : st.monthPart.length = 2)
    (hd : st.dayPart.length ≠ 2) :
    resolveScan st loc = .error (.fieldLengthMismatch .day) := by
  unfold resolveScan
  simp only [zoneMax, yearMax, monthMax, dayMax]
  rw [if_neg (fun hc => hza hc.2), if_neg (by omega : ¬ st.yearPart.length ≠ 4),
    if_neg (by omega : ¬ st.monthPart.length ≠ 2), if_pos hd]

theorem resolveScan_default_eq (st : ScanState) (loc : Location)
    (h1 : st.hourPart = []) (h2 : st.minutePart = []) (h3 : st.secondPart = []) :
    resolveScan st loc =
      resolveScan { st with hourPart := [48, 48], minutePart := [48, 48],
                            secondPart := [48, 48] } loc := by
  simp only [resolveScan, h1, h2, h3]
  norm_num

theorem resolveScan_badhour (st : ScanState) (loc : Location)
    (hne : ¬ (st.hourPart = [] ∧ st.minutePart = [] ∧ st.secondPart = []))
    (hza : ¬ (st.zonePart.length = 1 ∨ st.zonePart.length = 3))
    (hy : st.yearPart.length = 4) (hm : st.monthPart.length = 2)
    (hd : st.dayPart.length = 2) (hh : st.hourPart.length ≠ 2) :
    resolveScan st loc = .error (.fieldLengthMismatch .hour) := by
  have hne0 : ¬ (st.hourPart.length = 0 ∧ st.minutePart.length = 0 ∧
      st.secondPart.length = 0) := by
    simpa [List.length_eq_zero] using hne
  have hzc : ¬ (st.zonePart.length < zoneMax ∧
      (st.zonePart.length = 1 ∨ st.zonePart.length = 3)) := fun hc => hza hc.2
  unfold resolveScan
  simp only [hy, hm, hd, yearMax, monthMax, dayMax, hourMax, minuteMax, secondMax]
  rw [if_neg hzc, if_neg hne0]
  norm_num
  exact fun h2 => absurd h2 hh

theorem resolveScan_badminute (st : ScanState) (loc : Location)
    (hne : ¬ (st.hourPart = [] ∧ st.minutePart = [] ∧ st.secondPart = []))
    (hza : ¬ (st.zonePart.length = 1 ∨ st.zonePart.length = 3))
    (hy : st.yearPart.length = 4) (hm : st.monthPart.length = 2)
    (hd : st.dayPart.length = 2) (hh : st.hourPart.length = 2)
    (hmn : st.minutePart.length ≠ 2) :
    resolveScan st loc = .error (.fieldLengthMismatch .minute) := by
  have hne0 : ¬ (st.hourPart.length = 0 ∧ st.minutePart.length = 0 ∧
      st.secondPart.length = 0) := by
    simpa [List.length_eq_zero] using hne
  have hzc : ¬ (st.zonePart.length < zoneMax ∧
      (st.zonePart.length = 1 ∨ st.zonePart.length = 3)) := fun hc => hza hc.2
  unfold resolveScan
  simp only [hy, hm, hd, yearMax, monthMax, dayMax, hourMax, minuteMax, secondMax]
  rw [if_neg hzc, if_neg hne0]
  norm_num
  rw [if_pos hh, if_neg hmn]

theorem resolveScan_badsecond (st : ScanState) (loc : Location)
    (hne : ¬ (st.hourPart = [] ∧ st.minutePart = [] ∧ st.secondPart = []))
    (hza : ¬ (st.zonePart.length = 1 ∨ st.zonePart.length = 3))
    (hy : st.yearPart.length = 4) (hm : st.monthPart.length = 2)
    (hd : st.dayPart.length = 2) (hh : st.hourPart.length = 2)
    (hmn : st.minutePart.length = 2) (hs : st.secondPart.length ≠ 2) :
    resolveScan st loc = .error (.fieldLengthMismatch .second) := by
  have hne0 : ¬ (st.hourPart.length = 0 ∧ st.minutePart.length = 0 ∧
      st.secondPart.length = 0) := by
    simpa [List.length_eq_zero] using hne
  have hzc : ¬ (st.zonePart.length < zoneMax ∧
      (st.zonePart.length = 1 ∨ st.zonePart.length = 3)) := fun hc => hza hc.2
  unfold resolveScan
  simp only [hy, hm, hd, yearMax, monthMax, dayMax, hourMax, minuteMax, secondMax]
  rw [if_neg hzc, if_neg hne0]
  norm_num
  rw [if_pos hh, if_pos hmn, if_neg hs]

theorem isZeroPart_split (l : List Nat) (h1 : isZeroPart (l.take 2) = true)
    (h2 : isZeroPart (l.drop 2) = true) : isZeroPart l = true := by
  rw [← List.take_append_drop 2 l, isZeroPart_append, h1, h2]
  rfl
theorem resolveScan_ok_zone_sign_core (st : ScanState) (loc : Location) (t : GoTime)
    (hne : ¬ (st.hourPart = [] ∧ st.minutePart = [] ∧ st.secondPart = []))
    (heq : resolveScan st loc = .ok t)
    (hnz : isZeroPart st.zonePart = false) :
    (t.loc.offset < 0 ↔ st.offsetPositive = false) := by
  have hza : ¬ (st.zonePart.length = 1 ∨ st.zonePart.length = 3) := by
    intro hc
    rw [resolveScan_ambig st loc hc] at heq
    exact Except.noConfusion heq
  have hy : st.yearPart.length = 4 := by
    by_contra hy
    rw [resolveScan_badyear st loc hza hy] at heq
    exact Except.noConfusion heq
  have hm : st.monthPart.length = 2 := by
    by_contra hm
    rw [resolveScan_badmonth st loc hza hy hm] at heq
    exact Except.noConfusion heq
  have hd : st.dayPart.length = 2 := by
    by_contra hd
    rw [resolveScan_badday st loc hza hy hm hd] at heq
    exact Except.noConfusion heq
  have hh : st.hourPart.length = 2 := by
    by_contra hh
    rw [resolveScan_badhour st loc hne hza hy hm hd hh] at heq
    exact Except.noConfusion heq
  have hmn : st.minutePart.length = 2 := by
    by_contra hmn
    rw [resolveScan_badminute st loc hne hza hy hm hd hh hmn] at heq
    exact Except.noConfusion heq
  have hs : st.secondPart.length = 2 := by
    by_contra hs
    rw [resolveScan_badsecond st loc hne hza hy hm hd hh hmn hs] at heq
    exact Except.noConfusion heq
  have hne0 : ¬ (st.hourPart.length = 0 ∧ st.minutePart.length = 0 ∧
      st.secondPart.length = 0) := by
    simpa [List.length_eq_zero] using hne
  have hzc4 : ¬ (st.zonePart.length < 4 ∧
      (st.zonePart.length = 1 ∨ st.zonePart.length = 3)) := fun hc => hza hc.2
  unfold resolveScan at heq
  simp only [hy, hm, hd, hh, hmn, hs, yearMax, monthMax, dayMax, hourMax, minuteMax,
    secondMax, zoneMax] at heq
  rw [if_neg hzc4] at heq
  norm_num at heq
  simp only [hh, hmn, hs, reduceIte] at heq
  cases hy2 : (if isZeroPart st.yearPart = true then pure 0 else atoi4 st.yearPart :
      Except Err Nat) with
  | error e => rw [hy2] at heq; exact absurd heq (by simp)
  | ok y =>
  rw [hy2] at heq
  simp only [] at heq
  cases hm2 : (if isZeroPart st.monthPart = true then pure 0 else atoi2 st.monthPart :
      Except Err Nat) with
  | error e => rw [hm2] at heq; exact absurd heq (by simp)
  | ok m =>
  rw [hm2] at heq
  simp only [] at heq
  cases hd2 : (if isZeroPart st.dayPart = true then pure 0 else atoi2 st.dayPart :
      Except Err Nat) with
  | error e => rw [hd2] at heq; exact absurd heq (by simp)
  | ok d =>
  rw [hd2] at heq
  simp only [] at heq
  cases hh2 : (if isZeroPart st.hourPart = true then pure 0 else atoi2 st.hourPart :
      Except Err Nat) with
  | error e => rw [hh2] at heq; exact absurd heq (by simp)
  | ok h =>
  rw [hh2] at heq
  simp only [] at heq
  cases hmn2 : (if isZeroPart st.minutePart = true then pure 0 else atoi2 st.minutePart :
      Except Err Nat) with
  | error e => rw [hmn2] at heq; exact absurd heq (by simp)
  | ok mn =>
  rw [hmn2] at heq
  simp only [] at heq
  cases hs2 : (if isZeroPart st.secondPart = true then pure 0 else atoi2 st.secondPart :
      Except Err Nat) with
  | error e => rw [hs2] at heq; exact absurd heq (by simp)
  | ok s =>
  rw [hs2] at heq
  simp only [] at heq
  cases hsub2 : (if 0 < st.subsecondPart.length ∧ isZeroPart st.subsecondPart = false then
      Except.map (fun v => if st.subsecondPart.length < subsecondMax then
        v * 10 ^ (subsecondMax - st.subsecondPart.length) else v) (atoiN st.subsecondPart)
      else pure 0 : Except Err Nat) with
  | error e => rw [hsub2] at heq; exact absurd heq (by simp)
  | ok sub =>
  rw [hsub2] at heq
  simp only [] at heq
  have hzne : ¬ (st.zonePart = []) := by
    intro hc
    rw [hc] at hnz
    simp [isZeroPart] at hnz
  rw [if_neg hzne] at heq
  rw [(by rw [if_neg hzne] :
    (if st.zonePart = [] then st.zonePart ++ [48, 48, 48, 48]
     else if st.zonePart.length = 2 then st.zonePart ++ [48, 48] else st.zonePart) =
    (if st.zonePart.length = 2 then st.zonePart ++ [48, 48] else st.zonePart))] at heq
  have hoz : isZeroPart (if st.zonePart.length = 2 then st.zonePart ++ [48, 48]
      else st.zonePart) = false := by
    by_cases h2 : st.zonePart.length = 2
    · rw [if_pos h2, isZeroPart_append, hnz]
      rfl
    · rw [if_neg h2]
      exact hnz
  rw [hoz] at heq
  simp only [Bool.false_eq_true, if_false] at heq
  cases hH : (if isZeroPart (List.take 2 (if st.zonePart.length = 2 then
        st.zonePart ++ [48, 48] else st.zonePart)) = true then pure 0
      else atoiN (List.take 2 (if st.zonePart.length = 2 then
        st.zonePart ++ [48, 48] else st.zonePart)) : Except Err Nat) with
  | error e => rw [hH] at heq; exact absurd heq (by simp)
  | ok offsetH =>
  rw [hH] at heq
  simp only [] at heq
  cases hM : (if isZeroPart (List.drop 2 (if st.zonePart.length = 2 then
        st.zonePart ++ [48, 48] else st.zonePart)) = true then pure 0
      else atoiN (List.drop 2 (if st.zonePart.length = 2 then
        st.zonePart ++ [48, 48] else st.zonePart)) : Except Err Nat) with
  | error e => rw [hM] at heq; exact absurd heq (by simp)
  | ok offsetM =>
  rw [hM] at heq
  simp only [] at heq
  by_cases hq : offsetM = 0 ∨ offsetM = 15 ∨ offsetM = 30 ∨ offsetM = 45
  case neg =>
    rw [if_neg hq] at heq
    exact absurd heq (by simp)
  case pos =>
  rw [if_pos hq] at heq
  have ht : timeDate (↑y) (↑m) (↑d) (↑h) (↑mn) (↑s) (↑sub)
      (FixedZone "FixedZone"
        (if st.offsetPositive = false then -(↑offsetM * 60) + -(↑offsetH * 60 * 60)
         else ↑offsetH * 60 * 60 + ↑offsetM * 60)) = t := by
    exact Except.ok.inj heq
  have hpos : 0 < offsetH ∨ 0 < offsetM := by
    by_cases hZ1 : isZeroPart (List.take 2 (if st.zonePart.length = 2 then
        st.zonePart ++ [48, 48] else st.zonePart)) = true
    · by_cases hZ2 : isZeroPart (List.drop 2 (if st.zonePart.length = 2 then
          st.zonePart ++ [48, 48] else st.zonePart)) = true
      · exact absurd (isZeroPart_split _ hZ1 hZ2) (by simp [hoz])
      · right
        rw [if_neg (by simp [hZ2])] at hM
        obtain ⟨hne2, hdig2, hval2⟩ := atoiN_ok_inv _ _ hM
        rw [hval2]
        exact digitVal_pos _ hdig2 (by simpa using hZ2)
    · left
      rw [if_neg (by simp [hZ1])] at hH
      obtain ⟨hne2, hdig2, hval2⟩ := atoiN_ok_inv _ _ hH
      rw [hval2]
      exact digitVal_pos _ hdig2 (by simpa using hZ1)
  have hbase : (0 : Int) < ↑offsetH * 60 * 60 + ↑offsetM * 60 := by
    rcases hpos with hp | hp <;> omega
  cases hop : st.offsetPositive
  · rw [← ht]
    simp only [timeDate, FixedZone, hop, eq_self_iff_true, if_true]
    constructor
    · intro hcc
      simp
    · intro hcc
      omega
  · rw [← ht]
    simp only [timeDate, FixedZone, hop, Bool.true_eq_false, if_false]
    constructor
    · intro hcc
      exact absurd hcc (by omega)
    · intro hcc
      simp at hcc

/-- Sign inversion also through the time-part defaulting. -/
theorem resolveScan_ok_zone_sign (st : ScanState) (loc : Location) (t : GoTime)
    (heq : resolveScan st loc = .ok t)
    (hnz : isZeroPart st.zonePart = false) :
    (t.loc.offset < 0 ↔ st.offsetPositive = false) := by
  by_cases hdef : st.hourPart = [] ∧ st.minutePart = [] ∧ st.secondPart = []
  · obtain ⟨h1, h2, h3⟩ := hdef
    rw [resolveScan_default_eq st loc h1 h2 h3] at heq
    have h4 := resolveScan_ok_zone_sign_core _ loc t (by simp) heq (by simpa using hnz)
    simpa using h4
  · exact resolveScan_ok_zone_sign_core st loc t hdef heq hnz

/-- Sign inversion at the `ParseISOTimestamp` level. -/
theorem parseISO_ok_sign (rs : List Nat) (loc : Location) (t : GoTime)
    (heq : parseISOTimestamp rs loc = .ok t)
    (hnz : isZeroPart (scanRunes initScanState rs 0).zonePart = false) :
    (t.loc.offset < 0 ↔ (scanRunes initScanState rs 0).offsetPositive = false) := by
  unfold parseISOTimestamp at heq
  by_cases hlen : rs.length > 35
  · rw [if_pos hlen] at heq
    exact absurd heq (by simp)
  · rw [if_neg hlen] at heq
    by_cases hu : (scanRunes initScanState rs 0).unparsed ≠ []
    · rw [if_pos hu] at heq
      exact absurd heq (by simp)
    · rw [if_neg hu] at heq
      exact resolveScan_ok_zone_sign _ loc t heq hnz
/-- C4: A '+'/'-' sets the zone sign and jumps to the zone section only from the
subsecond section; a positive resolved sign requires an observed '+'. But the
sign defaults to NEGATIVE: a successful parse with a non-zero zone buffer has a
negative offset exactly when no '+' was consumed in the subsecond section —
a '-' need never have been observed. -/
theorem C4_theorem :
    (∀ (st : ScanState) (r i : Nat), r = 45 ∨ r = 43 →
      scanStep st r i =
        if st.currentSection = subsecondSection then
          { st with offsetPositive := decide (r = 43), currentSection := zoneSection }
        else st) ∧
    (∀ (rs : List Nat) (st : ScanState) (i : Nat),
      (scanRunes st rs i).offsetPositive = true →
      st.offsetPositive = true ∨ 43 ∈ rs) ∧
    (∀ (rs : List Nat) (loc : Location) (t : GoTime),
      parseISOTimestamp rs loc = .ok t →
      isZeroPart (scanRunes initScanState rs 0).zonePart = false →
      (t.loc.offset < 0 ↔ (scanRunes initScanState rs 0).offsetPositive = false)) := by
  refine ⟨?_, ?_, ?_⟩
  · intro st r i hr
    rcases hr with h | h <;> subst h <;>
      (unfold scanStep; norm_num [isDigitR, toUpperR])
  · intro rs st i h
    exact scan_plus st rs i h
  · intro rs loc t heq hnz
    exact parseISO_ok_sign rs loc t heq hnz

/-- A pure-digit input with no sign character at all parses successfully with a
NEGATIVE offset of -1 hour 30 minutes: the offset can be negative although no
'-' was ever observed, refuting the claim's sign condition. -/
theorem C4_counterexample :
    parseISOTimestamp (runesOf "200601021504051234567890130") utc =
      .ok ⟨1136219645123456789, FixedZone "FixedZone" (-5400)⟩ ∧
    isZeroPart (scanRunes initScanState
      (runesOf "200601021504051234567890130") 0).zonePart = false ∧
    (FixedZone "FixedZone" (-5400)).offset < 0 ∧
    (45 : Nat) ∉ runesOf "200601021504051234567890130" := by
  refine ⟨by decide, by decide, by decide, by decide⟩

/-- Witness for C4 at concrete inputs. -/
theorem C4_witness :
    (scanStep { initScanState with currentSection := subsecondSection } 43 0 =
      { initScanState with currentSection := zoneSection, offsetPositive := true }) ∧
    (initScanState.offsetPositive = true ∨ 43 ∈ runesOf "20060102T150405+0130") ∧
    ((FixedZone "FixedZone" 5400).offset < 0 ↔
      (scanRunes initScanState (runesOf "20060102T150405+0130") 0).offsetPositive
        = false) := by
  refine ⟨?_, ?_, ?_⟩
  · have h := C4_theorem.1 { initScanState with currentSection := subsecondSection }
      43 0 (Or.inr rfl)
    simpa using h
  · exact C4_theorem.2.1 (runesOf "20060102T150405+0130") initScanState 0 (by decide)
  · have h := C4_theorem.2.2 (runesOf "20060102T150405+0130") utc
      ⟨1136208845000000000, FixedZone "FixedZone" 5400⟩ (by decide) (by decide)
    simpa using h

/-! ## Formatting round-trip (C8) -/

theorem decimalDigitsAux_small (fuel n : Nat) (h : n < 10) :
    decimalDigitsAux fuel n = [48 + n] := by
  cases fuel with
  | zero => simp [decimalDigitsAux, Nat.mod_eq_of_lt h]
  | succ f => simp [decimalDigitsAux, h]

theorem decimalDigitsAux_step (fuel n : Nat) (h : 10 ≤ n) :
    decimalDigitsAux (fuel + 1) n = decimalDigitsAux fuel (n / 10) ++ [48 + n % 10] := by
  rw [show decimalDigitsAux (fuel + 1) n =
      if n < 10 then [48 + n] else decimalDigitsAux fuel (n / 10) ++ [48 + n % 10] from rfl,
    if_neg (by omega)]

theorem decimalDigits2 (n : Nat) (h1 : 10 ≤ n) (h2 : n ≤ 99) :
    decimalDigits n = [48 + n / 10, 48 + n % 10] := by
  obtain ⟨f, rfl⟩ : ∃ f, n = f + 10 := ⟨n - 10, by omega⟩
  unfold decimalDigits
  rw [show f + 10 = (f + 9) + 1 from rfl, decimalDigitsAux_step (f + 9) (f + 10) (by omega),
    decimalDigitsAux_small (f + 9) ((f + 10) / 10) (by omega)]
  norm_num
  omega

theorem decimalDigits3 (n : Nat) (h1 : 100 ≤ n) (h2 : n ≤ 999) :
    decimalDigits n = [48 + n / 100, 48 + n / 10 % 10, 48 + n % 10] := by
  obtain ⟨f, rfl⟩ : ∃ f, n = f + 100 := ⟨n - 100, by omega⟩
  unfold decimalDigits
  rw [show f + 100 = (f + 99) + 1 from rfl,
    decimalDigitsAux_step (f + 99) (f + 100) (by omega),
    show f + 99 = (f + 98) + 1 from rfl,
    decimalDigitsAux_step (f + 98) ((f + 100) / 10) (by omega),
    decimalDigitsAux_small (f + 98) ((f + 100) / 10 / 10) (by omega)]
  simp only [Nat.div_div_eq_div_mul, List.append_assoc, List.cons_append, List.nil_append]

theorem decimalDigits4 (n : Nat) (h1 : 1000 ≤ n) (h2 : n ≤ 9999) :
    decimalDigits n = [48 + n / 1000, 48 + n / 100 % 10, 48 + n / 10 % 10, 48 + n % 10] := by
  obtain ⟨f, rfl⟩ : ∃ f, n = f + 1000 := ⟨n - 1000, by omega⟩
  unfold decimalDigits
  rw [show f + 1000 = (f + 999) + 1 from rfl,
    decimalDigitsAux_step (f + 999) (f + 1000) (by omega),
    show f + 999 = (f + 998) + 1 from rfl,
    decimalDigitsAux_step (f + 998) ((f + 1000) / 10) (by omega),
    show f + 998 = (f + 997) + 1 from rfl,
    decimalDigitsAux_step (f + 997) ((f + 1000) / 10 / 10) (by omega),
    decimalDigitsAux_small (f + 997) ((f + 1000) / 10 / 10 / 10) (by omega)]
  simp only [Nat.div_div_eq_div_mul, List.append_assoc, List.cons_append, List.nil_append]

theorem appendIntW2_nat (n : Nat) (h : n ≤ 99) :
    appendIntW 2 (n : Int) = [48 + n / 10, 48 + n % 10] := by
  unfold appendIntW
  rw [if_neg (by omega), Int.natAbs_ofNat]
  by_cases h10 : n < 10
  · simp only [decimalDigits]
    rw [decimalDigitsAux_small n n h10]
    simp only [List.length_cons, List.length_nil]
    norm_num [List.replicate]
    omega
  · rw [decimalDigits2 n (by omega) h]
    simp [List.replicate]

theorem appendIntW3_nat (n : Nat) (h : n ≤ 999) :
    appendIntW 3 (n : Int) = [48 + n / 100, 48 + n / 10 % 10, 48 + n % 10] := by
  unfold appendIntW
  rw [if_neg (by omega), Int.natAbs_ofNat]
  by_cases h10 : n < 10
  · simp only [decimalDigits]
    rw [decimalDigitsAux_small n n h10]
    simp only [List.length_cons, List.length_nil]
    norm_num [List.replicate]
    omega
  · by_cases h100 : n < 100
    · rw [decimalDigits2 n (by omega) (by omega)]
      simp only [List.length_cons, List.length_nil]
      norm_num [List.replicate]
      omega
    · rw [decimalDigits3 n (by omega) h]
      simp [List.replicate]

theorem appendIntW4_nat (n : Nat) (h1 : 1000 ≤ n) (h2 : n ≤ 9999) :
    appendIntW 4 (n : Int) = [48 + n / 1000, 48 + n / 100 % 10, 48 + n / 10 % 10, 48 + n % 10] := by
  unfold appendIntW
  rw [if_neg (by omega), Int.natAbs_ofNat, decimalDigits4 n h1 h2]
  simp [List.replicate]

theorem dateFieldsOf_timeDate (y m d h mn s : Nat) (ns : Int) (loc : Location)
    (hh : h ≤ 23) (hmn : mn ≤ 59) (hs : s ≤ 59) (hns0 : 0 ≤ ns) (hns : ns ≤ 999999999)
    (hnorm : civilFromDays (daysFromCivil (y : Int) (m : Int) (d : Int)) =
      ((y : Int), (m : Int), (d : Int))) :
    dateFieldsOf (timeDate y m d h mn s ns loc) = ⟨y, m, d, h, mn, s, ns⟩ := by
  have e1 : ∀ a : Int, a.fdiv 1000000000 = a / 1000000000 :=
    fun a => Int.fdiv_eq_ediv a (by norm_num)
  have e2 : ∀ a : Int, a.fmod 1000000000 = a % 1000000000 :=
    fun a => Int.fmod_eq_emod a (by norm_num)
  have e3 : ∀ a : Int, a.fdiv 86400 = a / 86400 :=
    fun a => Int.fdiv_eq_ediv a (by norm_num)
  have e4 : ∀ a : Int, a.fmod 86400 = a % 86400 :=
    fun a => Int.fmod_eq_emod a (by norm_num)
  unfold dateFieldsOf timeDate
  simp only [e1, e2, e3, e4]
  have hdays : (((daysFromCivil (y : Int) (m : Int) (d : Int) * 86400 + (h : Int) * 3600 +
      (mn : Int) * 60 + (s : Int) - loc.offset) * 1000000000 + (ns : Int)) / 1000000000 +
      loc.offset) / 86400 = daysFromCivil (y : Int) (m : Int) (d : Int) := by omega
  have hsod : (((daysFromCivil (y : Int) (m : Int) (d : Int) * 86400 + (h : Int) * 3600 +
      (mn : Int) * 60 + (s : Int) - loc.offset) * 1000000000 + (ns : Int)) / 1000000000 +
      loc.offset) % 86400 = (h : Int) * 3600 + (mn : Int) * 60 + (s : Int) := by omega
  have hnsv : ((daysFromCivil (y : Int) (m : Int) (d : Int) * 86400 + (h : Int) * 3600 +
      (mn : Int) * 60 + (s : Int) - loc.offset) * 1000000000 + (ns : Int)) % 1000000000 =
      (ns : Int) := by omega
  rw [hdays, hsod, hnsv, hnorm]
  simp only [DateFields.mk.injEq]
  norm_num
  omega

theorem formatZoneHM_eq (colon : Bool) (off : Int) (oh om : Nat)
    (habs : off.natAbs = oh * 3600 + om * 60) (hoh : oh ≤ 99) (hom : om ≤ 59) :
    formatZoneHM colon off =
      (if off < 0 then 45 else 43) :: ([48 + oh / 10, 48 + oh % 10] ++
        (if colon then [58] else []) ++ [48 + om / 10, 48 + om % 10]) := by
  unfold formatZoneHM
  have h1 : off.natAbs / 60 / 60 = oh := by omega
  have h2 : off.natAbs / 60 % 60 = om := by omega
  simp only [h1, h2]
  rw [appendIntW2_nat oh hoh, appendIntW2_nat om (by omega)]

theorem isDigitR_48add (k : Nat) (hk : k ≤ 9) : isDigitR (48 + k) = true := by
  simp only [isDigitR, Bool.and_eq_true, decide_eq_true_eq]
  omega

theorem scanRunes_compactL (a1 a2 a3 a4 b1 b2 c1 c2 e1 e2 f1 f2 g1 g2 p1 p2 q1 q2 sg : Nat)
    (ha1 : a1 ≤ 9) (ha2 : a2 ≤ 9) (ha3 : a3 ≤ 9) (ha4 : a4 ≤ 9) (hb1 : b1 ≤ 9) (hb2 : b2 ≤ 9) (hc1 : c1 ≤ 9) (hc2 : c2 ≤ 9) (he1 : e1 ≤ 9) (he2 : e2 ≤ 9) (hf1 : f1 ≤ 9) (hf2 : f2 ≤ 9) (hg1 : g1 ≤ 9) (hg2 : g2 ≤ 9) (hp1 : p1 ≤ 9) (hp2 : p2 ≤ 9) (hq1 : q1 ≤ 9) (hq2 : q2 ≤ 9)
    (hsg : sg = 43 ∨ sg = 45) :
    scanRunes initScanState [48 + a1, 48 + a2, 48 + a3, 48 + a4, 48 + b1, 48 + b2, 48 + c1, 48 + c2, 84, 48 + e1, 48 + e2, 48 + f1, 48 + f2, 48 + g1, 48 + g2, sg, 48 + p1, 48 + p2, 48 + q1, 48 + q2] 0 = (⟨afterSection, [48 + a1, 48 + a2, 48 + a3, 48 + a4], [48 + b1, 48 + b2], [48 + c1, 48 + c2], [48 + e1, 48 + e2], [48 + f1, 48 + f2], [48 + g1, 48 + g2], [], [48 + p1, 48 + p2, 48 + q1, 48 + q2], decide (sg = 43), [], false⟩ : ScanState) := by
  have dga1 := isDigitR_48add a1 ha1
  have dga2 := isDigitR_48add a2 ha2
  have dga3 := isDigitR_48add a3 ha3
  have dga4 := isDigitR_48add a4 ha4
  have dgb1 := isDigitR_48add b1 hb1
  have dgb2 := isDigitR_48add b2 hb2
  have dgc1 := isDigitR_48add c1 hc1
  have dgc2 := isDigitR_48add c2 hc2
  have dge1 := isDigitR_48add e1 he1
  have dge2 := isDigitR_48add e2 he2
  have dgf1 := isDigitR_48add f1 hf1
  have dgf2 := isDigitR_48add f2 hf2
  have dgg1 := isDigitR_48add g1 hg1
  have dgg2 := isDigitR_48add g2 hg2
  have dgp1 := isDigitR_48add p1 hp1
  have dgp2 := isDigitR_48add p2 hp2
  have dgq1 := isDigitR_48add q1 hq1
  have dgq2 := isDigitR_48add q2 hq2
  have hnil : ∀ (st : ScanState) (i : Nat), scanRunes st [] i = st := fun _ _ => rfl
  have s1 : ∀ i : Nat, scanStep initScanState (48 + a1) i = (⟨yearSection, [48 + a1], [], [], [], [], [], [], [], false, [], false⟩ : ScanState) := by
    intro i; simp [scanStep, addIf, initScanState, dga1, emptySection, yearSection, monthSection, daySection, hourSection, minuteSection, secondSection, subsecondSection, zoneSection, afterSection, yearMax, monthMax, dayMax, hourMax, minuteMax, secondMax, subsecondMax, zoneMax]
  have s2 : ∀ i : Nat, scanStep (⟨yearSection, [48 + a1], [], [], [], [], [], [], [], false, [], false⟩ : ScanState) (48 + a2) i = (⟨yearSection, [48 + a1, 48 + a2], [], [], [], [], [], [], [], false, [], false⟩ : ScanState) := by
    intro i; simp [scanStep, addIf, initScanState, dga2, emptySection, yearSection, monthSection, daySection, hourSection, minuteSection, secondSection, subsecondSection, zoneSection, afterSection, yearMax, monthMax, dayMax, hourMax, minuteMax, secondMax, subsecondMax, zoneMax]
  have s3 : ∀ i : Nat, scanStep (⟨yearSection, [48 + a1, 48 + a2], [], [], [], [], [], [], [], false, [], false⟩ : ScanState) (48 + a3) i = (⟨yearSection, [48 + a1, 48 + a2, 48 + a3], [], [], [], [], [], [], [], false, [], false⟩ : ScanState) := by
    intro i; simp [scanStep, addIf, initScanState, dga3, emptySection, yearSection, monthSection, daySection, hourSection, minuteSection, secondSection, subsecondSection, zoneSection, afterSection, yearMax, monthMax, dayMax, hourMax, minuteMax, secondMax, subsecondMax, zoneMax]
  have s4 : ∀ i : Nat, scanStep (⟨yearSection, [48 + a1, 48 + a2, 48 + a3], [], [], [], [], [], [], [], false, [], false⟩ : ScanState) (48 + a4) i = (⟨monthSection, [48 + a1, 48 + a2, 48 + a3, 48 + a4], [], [], [], [], [], [], [], false, [], false⟩ : ScanState) := by
    intro i; simp [scanStep, addIf, initScanState, dga4, emptySection, yearSection, monthSection, daySection, hourSection, minuteSection, secondSection, subsecondSection, zoneSection, afterSection, yearMax, monthMax, dayMax, hourMax, minuteMax, secondMax, subsecondMax, zoneMax]
  have s5 : ∀ i : Nat, scanStep (⟨monthSection, [48 + a1, 48 + a2, 48 + a3, 48 + a4], [], [], [], [], [], [], [], false, [], false⟩ : ScanState) (48 + b1) i = (⟨monthSection, [48 + a1, 48 + a2, 48 + a3, 48 + a4], [48 + b1], [], [], [], [], [], [], false, [], false⟩ : ScanState) := by
    intro i; simp [scanStep, addIf, initScanState, dgb1, emptySection, yearSection, monthSection, daySection, hourSection, minuteSection, secondSection, subsecondSection, zoneSection, afterSection, yearMax, monthMax, dayMax, hourMax, minuteMax, secondMax, subsecondMax, zoneMax]
  have s6 : ∀ i : Nat, scanStep (⟨monthSection, [48 + a1, 48 + a2, 48 + a3, 48 + a4], [48 + b1], [], [], [], [], [], [], false, [], false⟩ : ScanState) (48 + b2) i = (⟨daySection, [48 + a1, 48 + a2, 48 + a3, 48 + a4], [48 + b1, 48 + b2], [], [], [], [], [], [], false, [], false⟩ : ScanState) := by
    intro i; simp [scanStep, addIf, initScanState, dgb2, emptySection, yearSection, monthSection, daySection, hourSection, minuteSection, secondSection, subsecondSection, zoneSection, afterSection, yearMax, monthMax, dayMax, hourMax, minuteMax, secondMax, subsecondMax, zoneMax]
  have s7 : ∀ i : Nat, scanStep (⟨daySection, [48 + a1, 48 + a2, 48 + a3, 48 + a4], [48 + b1, 48 + b2], [], [], [], [], [], [], false, [], false⟩ : ScanState) (48 + c1) i = (⟨daySection, [48 + a1, 48 + a2, 48 + a3, 48 + a4], [48 + b1, 48 + b2], [48 + c1], [], [], [], [], [], false, [], false⟩ : ScanState) := by
    intro i; simp [scanStep, addIf, initScanState, dgc1, emptySection, yearSection, monthSection, daySection, hourSection, minuteSection, secondSection, subsecondSection, zoneSection, afterSection, yearMax, monthMax, dayMax, hourMax, minuteMax, secondMax, subsecondMax, zoneMax]
  have s8 : ∀ i : Nat, scanStep (⟨daySection, [48 + a1, 48 + a2, 48 + a3, 48 + a4], [48 + b1, 48 + b2], [48 + c1], [], [], [], [], [], false, [], false⟩ : ScanState) (48 + c2) i = (⟨hourSection, [48 + a1, 48 + a2, 48 + a3, 48 + a4], [48 + b1, 48 + b2], [48 + c1, 48 + c2], [], [], [], [], [], false, [], false⟩ : ScanState) := by
    intro i; simp [scanStep, addIf, initScanState, dgc2, emptySection, yearSection, monthSection, daySection, hourSection, minuteSection, secondSection, subsecondSection, zoneSection, afterSection, yearMax, monthMax, dayMax, hourMax, minuteMax, secondMax, subsecondMax, zoneMax]
  have s9 : ∀ i : Nat, scanStep (⟨hourSection, [48 + a1, 48 + a2, 48 + a3, 48 + a4], [48 + b1, 48 + b2], [48 + c1, 48 + c2], [], [], [], [], [], false, [], false⟩ : ScanState) (84) i = (⟨hourSection, [48 + a1, 48 + a2, 48 + a3, 48 + a4], [48 + b1, 48 + b2], [48 + c1, 48 + c2], [], [], [], [], [], false, [], false⟩ : ScanState) := by
    intro i; simp [scanStep, addIf, initScanState, toUpperR, isSpaceR, isDigitR, emptySection, yearSection, monthSection, daySection, hourSection, minuteSection, secondSection, subsecondSection, zoneSection, afterSection, yearMax, monthMax, dayMax, hourMax, minuteMax, secondMax, subsecondMax, zoneMax]
  have s10 : ∀ i : Nat, scanStep (⟨hourSection, [48 + a1, 48 + a2, 48 + a3, 48 + a4], [48 + b1, 48 + b2], [48 + c1, 48 + c2], [], [], [], [], [], false, [], false⟩ : ScanState) (48 + e1) i = (⟨hourSection, [48 + a1, 48 + a2, 48 + a3, 48 + a4], [48 + b1, 48 + b2], [48 + c1, 48 + c2], [48 + e1], [], [], [], [], false, [], false⟩ : ScanState) := by
    intro i; simp [scanStep, addIf, initScanState, dge1, emptySection, yearSection, monthSection, daySection, hourSection, minuteSection, secondSection, subsecondSection, zoneSection, afterSection, yearMax, monthMax, dayMax, hourMax, minuteMax, secondMax, subsecondMax, zoneMax]
  have s11 : ∀ i : Nat, scanStep (⟨hourSection, [48 + a1, 48 + a2, 48 + a3, 48 + a4], [48 + b1, 48 + b2], [48 + c1, 48 + c2], [48 + e1], [], [], [], [], false, [], false⟩ : ScanState) (48 + e2) i = (⟨minuteSection, [48 + a1, 48 + a2, 48 + a3, 48 + a4], [48 + b1, 48 + b2], [48 + c1, 48 + c2], [48 + e1, 48 + e2], [], [], [], [], false, [], false⟩ : ScanState) := by
    intro i; simp [scanStep, addIf, initScanState, dge2, emptySection, yearSection, monthSection, daySection, hourSection, minuteSection, secondSection, subsecondSection, zoneSection, afterSection, yearMax, monthMax, dayMax, hourMax, minuteMax, secondMax, subsecondMax, zoneMax]
  have s12 : ∀ i : Nat, scanStep (⟨minuteSection, [48 + a1, 48 + a2, 48 + a3, 48 + a4], [48 + b1, 48 + b2], [48 + c1, 48 + c2], [48 + e1, 48 + e2], [], [], [], [], false, [], false⟩ : ScanState) (48 + f1) i = (⟨minuteSection, [48 + a1, 48 + a2, 48 + a3, 48 + a4], [48 + b1, 48 + b2], [48 + c1, 48 + c2], [48 + e1, 48 + e2], [48 + f1], [], [], [], false, [], false⟩ : ScanState) := by
    intro i; simp [scanStep, addIf, initScanState, dgf1, emptySection, yearSection, monthSection, daySection, hourSection, minuteSection, secondSection, subsecondSection, zoneSection, afterSection, yearMax, monthMax, dayMax, hourMax, minuteMax, secondMax, subsecondMax, zoneMax]
  have s13 : ∀ i : Nat, scanStep (⟨minuteSection, [48 + a1, 48 + a2, 48 + a3, 48 + a4], [48 + b1, 48 + b2], [48 + c1, 48 + c2], [48 + e1, 48 + e2], [48 + f1], [], [], [], false, [], false⟩ : ScanState) (48 + f2) i = (⟨secondSection, [48 + a1, 48 + a2, 48 + a3, 48 + a4], [48 + b1, 48 + b2], [48 + c1, 48 + c2], [48 + e1, 48 + e2], [48 + f1, 48 + f2], [], [], [], false, [], false⟩ : ScanState) := by
    intro i; simp [scanStep, addIf, initScanState, dgf2, emptySection, yearSection, monthSection, daySection, hourSection, minuteSection, secondSection, subsecondSection, zoneSection, afterSection, yearMax, monthMax, dayMax, hourMax, minuteMax, secondMax, subsecondMax, zoneMax]
  have s14 : ∀ i : Nat, scanStep (⟨secondSection, [48 + a1, 48 + a2, 48 + a3, 48 + a4], [48 + b1, 48 + b2], [48 + c1, 48 + c2], [48 + e1, 48 + e2], [48 + f1, 48 + f2], [], [], [], false, [], false⟩ : ScanState) (48 + g1) i = (⟨secondSection, [48 + a1, 48 + a2, 48 + a3, 48 + a4], [48 + b1, 48 + b2], [48 + c1, 48 + c2], [48 + e1, 48 + e2], [48 + f1, 48 + f2], [48 + g1], [], [], false, [], false⟩ : ScanState) := by
    intro i; simp [scanStep, addIf, initScanState, dgg1, emptySection, yearSection, monthSection, daySection, hourSection, minuteSection, secondSection, subsecondSection, zoneSection, afterSection, yearMax, monthMax, dayMax, hourMax, minuteMax, secondMax, subsecondMax, zoneMax]
  have s15 : ∀ i : Nat, scanStep (⟨secondSection, [48 + a1, 48 + a2, 48 + a3, 48 + a4], [48 + b1, 48 + b2], [48 + c1, 48 + c2], [48 + e1, 48 + e2], [48 + f1, 48 + f2], [48 + g1], [], [], false, [], false⟩ : ScanState) (48 + g2) i = (⟨subsecondSection, [48 + a1, 48 + a2, 48 + a3, 48 + a4], [48 + b1, 48 + b2], [48 + c1, 48 + c2], [48 + e1, 48 + e2], [48 + f1, 48 + f2], [48 + g1, 48 + g2], [], [], false, [], false⟩ : ScanState) := by
    intro i; simp [scanStep, addIf, initScanState, dgg2, emptySection, yearSection, monthSection, daySection, hourSection, minuteSection, secondSection, subsecondSection, zoneSection, afterSection, yearMax, monthMax, dayMax, hourMax, minuteMax, secondMax, subsecondMax, zoneMax]
  have s16 : ∀ i : Nat, scanStep (⟨subsecondSection, [48 + a1, 48 + a2, 48 + a3, 48 + a4], [48 + b1, 48 + b2], [48 + c1, 48 + c2], [48 + e1, 48 + e2], [48 + f1, 48 + f2], [48 + g1, 48 + g2], [], [], false, [], false⟩ : ScanState) sg i = (⟨zoneSection, [48 + a1, 48 + a2, 48 + a3, 48 + a4], [48 + b1, 48 + b2], [48 + c1, 48 + c2], [48 + e1, 48 + e2], [48 + f1, 48 + f2], [48 + g1, 48 + g2], [], [], decide (sg = 43), [], false⟩ : ScanState) := by
    intro i; rcases hsg with rfl | rfl <;>
      simp [scanStep, addIf, initScanState, toUpperR, isSpaceR, isDigitR, emptySection, yearSection, monthSection, daySection, hourSection, minuteSection, secondSection, subsecondSection, zoneSection, afterSection, yearMax, monthMax, dayMax, hourMax, minuteMax, secondMax, subsecondMax, zoneMax]
  have s17 : ∀ i : Nat, scanStep (⟨zoneSection, [48 + a1, 48 + a2, 48 + a3, 48 + a4], [48 + b1, 48 + b2], [48 + c1, 48 + c2], [48 + e1, 48 + e2], [48 + f1, 48 + f2], [48 + g1, 48 + g2], [], [], decide (sg = 43), [], false⟩ : ScanState) (48 + p1) i = (⟨zoneSection, [48 + a1, 48 + a2, 48 + a3, 48 + a4], [48 + b1, 48 + b2], [48 + c1, 48 + c2], [48 + e1, 48 + e2], [48 + f1, 48 + f2], [48 + g1, 48 + g2], [], [48 + p1], decide (sg = 43), [], false⟩ : ScanState) := by
    intro i; simp [scanStep, addIf, initScanState, dgp1, emptySection, yearSection, monthSection, daySection, hourSection, minuteSection, secondSection, subsecondSection, zoneSection, afterSection, yearMax, monthMax, dayMax, hourMax, minuteMax, secondMax, subsecondMax, zoneMax]
  have s18 : ∀ i : Nat, scanStep (⟨zoneSection, [48 + a1, 48 + a2, 48 + a3, 48 + a4], [48 + b1, 48 + b2], [48 + c1, 48 + c2], [48 + e1, 48 + e2], [48 + f1, 48 + f2], [48 + g1, 48 + g2], [], [48 + p1], decide (sg = 43), [], false⟩ : ScanState) (48 + p2) i = (⟨zoneSection, [48 + a1, 48 + a2, 48 + a3, 48 + a4], [48 + b1, 48 + b2], [48 + c1, 48 + c2], [48 + e1, 48 + e2], [48 + f1, 48 + f2], [48 + g1, 48 + g2], [], [48 + p1, 48 + p2], decide (sg = 43), [], false⟩ : ScanState) := by
    intro i; simp [scanStep, addIf, initScanState, dgp2, emptySection, yearSection, monthSection, daySection, hourSection, minuteSection, secondSection, subsecondSection, zoneSection, afterSection, yearMax, monthMax, dayMax, hourMax, minuteMax, secondMax, subsecondMax, zoneMax]
  have s19 : ∀ i : Nat, scanStep (⟨zoneSection, [48 + a1, 48 + a2, 48 + a3, 48 + a4], [48 + b1, 48 + b2], [48 + c1, 48 + c2], [48 + e1, 48 + e2], [48 + f1, 48 + f2], [48 + g1, 48 + g2], [], [48 + p1, 48 + p2], decide (sg = 43), [], false⟩ : ScanState) (48 + q1) i = (⟨zoneSection, [48 + a1, 48 + a2, 48 + a3, 48 + a4], [48 + b1, 48 + b2], [48 + c1, 48 + c2], [48 + e1, 48 + e2], [48 + f1, 48 + f2], [48 + g1, 48 + g2], [], [48 + p1, 48 + p2, 48 + q1], decide (sg = 43), [], false⟩ : ScanState) := by
    intro i; simp [scanStep, addIf, initScanState, dgq1, emptySection, yearSection, monthSection, daySection, hourSection, minuteSection, secondSection, subsecondSection, zoneSection, afterSection, yearMax, monthMax, dayMax, hourMax, minuteMax, secondMax, subsecondMax, zoneMax]
  have s20 : ∀ i : Nat, scanStep (⟨zoneSection, [48 + a1, 48 + a2, 48 + a3, 48 + a4], [48 + b1, 48 + b2], [48 + c1, 48 + c2], [48 + e1, 48 + e2], [48 + f1, 48 + f2], [48 + g1, 48 + g2], [], [48 + p1, 48 + p2, 48 + q1], decide (sg = 43), [], false⟩ : ScanState) (48 + q2) i = (⟨afterSection, [48 + a1, 48 + a2, 48 + a3, 48 + a4], [48 + b1, 48 + b2], [48 + c1, 48 + c2], [48 + e1, 48 + e2], [48 + f1, 48 + f2], [48 + g1, 48 + g2], [], [48 + p1, 48 + p2, 48 + q1, 48 + q2], decide (sg = 43), [], false⟩ : ScanState) := by
    intro i; simp [scanStep, addIf, initScanState, dgq2, emptySection, yearSection, monthSection, daySection, hourSection, minuteSection, secondSection, subsecondSection, zoneSection, afterSection, yearMax, monthMax, dayMax, hourMax, minuteMax, secondMax, subsecondMax, zoneMax]
  simp only [scanRunes_cons, s1, s2, s3, s4, s5, s6, s7, s8, s9, s10, s11, s12, s13, s14, s15, s16, s17, s18, s19, s20, Bool.false_eq_true, if_false, hnil]

theorem scanRunes_compactMsecL (a1 a2 a3 a4 b1 b2 c1 c2 e1 e2 f1 f2 g1 g2 u1 u2 u3 p1 p2 q1 q2 sg : Nat)
    (ha1 : a1 ≤ 9) (ha2 : a2 ≤ 9) (ha3 : a3 ≤ 9) (ha4 : a4 ≤ 9) (hb1 : b1 ≤ 9) (hb2 : b2 ≤ 9) (hc1 : c1 ≤ 9) (hc2 : c2 ≤ 9) (he1 : e1 ≤ 9) (he2 : e2 ≤ 9) (hf1 : f1 ≤ 9) (hf2 : f2 ≤ 9) (hg1 : g1 ≤ 9) (hg2 : g2 ≤ 9) (hu1 : u1 ≤ 9) (hu2 : u2 ≤ 9) (hu3 : u3 ≤ 9) (hp1 : p1 ≤ 9) (hp2 : p2 ≤ 9) (hq1 : q1 ≤ 9) (hq2 : q2 ≤ 9)
    (hsg : sg = 43 ∨ sg = 45) :
    scanRunes initScanState [48 + a1, 48 + a2, 48 + a3, 48 + a4, 48 + b1, 48 + b2, 48 + c1, 48 + c2, 84, 48 + e1, 48 + e2, 48 + f1, 48 + f2, 48 + g1, 48 + g2, 46, 48 + u1, 48 + u2, 48 + u3, sg, 48 + p1, 48 + p2, 48 + q1, 48 + q2] 0 = (⟨afterSection, [48 + a1, 48 + a2, 48 + a3, 48 + a4], [48 + b1, 48 + b2], [48 + c1, 48 + c2], [48 + e1, 48 + e2], [48 + f1, 48 + f2], [48 + g1, 48 + g2], [48 + u1, 48 + u2, 48 + u3], [48 + p1, 48 + p2, 48 + q1, 48 + q2], decide (sg = 43), [], false⟩ : ScanState) := by
  have dga1 := isDigitR_48add a1 ha1
  have dga2 := isDigitR_48add a2 ha2
  have dga3 := isDigitR_48add a3 ha3
  have dga4 := isDigitR_48add a4 ha4
  have dgb1 := isDigitR_48add b1 hb1
  have dgb2 := isDigitR_48add b2 hb2
  have dgc1 := isDigitR_48add c1 hc1
  have dgc2 := isDigitR_48add c2 hc2
  have dge1 := isDigitR_48add e1 he1
  have dge2 := isDigitR_48add e2 he2
  have dgf1 := isDigitR_48add f1 hf1
  have dgf2 := isDigitR_48add f2 hf2
  have dgg1 := isDigitR_48add g1 hg1
  have dgg2 := isDigitR_48add g2 hg2
  have dgu1 := isDigitR_48add u1 hu1
  have dgu2 := isDigitR_48add u2 hu2
  have dgu3 := isDigitR_48add u3 hu3
  have dgp1 := isDigitR_48add p1 hp1
  have dgp2 := isDigitR_48add p2 hp2
  have dgq1 := isDigitR_48add q1 hq1
  have dgq2 := isDigitR_48add q2 hq2
  have hnil : ∀ (st : ScanState) (i : Nat), scanRunes st [] i = st := fun _ _ => rfl
  have s1 : ∀ i : Nat, scanStep initScanState (48 + a1) i = (⟨yearSection, [48 + a1], [], [], [], [], [], [], [], false, [], false⟩ : ScanState) := by
    intro i; simp [scanStep, addIf, initScanState, dga1, emptySection, yearSection, monthSection, daySection, hourSection, minuteSection, secondSection, subsecondSection, zoneSection, afterSection, yearMax, monthMax, dayMax, hourMax, minuteMax, secondMax, subsecondMax, zoneMax]
  have s2 : ∀ i : Nat, scanStep (⟨yearSection, [48 + a1], [], [], [], [], [], [], [], false, [], false⟩ : ScanState) (48 + a2) i = (⟨yearSection, [48 + a1, 48 + a2], [], [], [], [], [], [], [], false, [], false⟩ : ScanState) := by
    intro i; simp [scanStep, addIf, initScanState, dga2, emptySection, yearSection, monthSection, daySection, hourSection, minuteSection, secondSection, subsecondSection, zoneSection, afterSection, yearMax, monthMax, dayMax, hourMax, minuteMax, secondMax, subsecondMax, zoneMax]
  have s3 : ∀ i : Nat, scanStep (⟨yearSection, [48 + a1, 48 + a2], [], [], [], [], [], [], [], false, [], false⟩ : ScanState) (48 + a3) i = (⟨yearSection, [48 + a1, 48 + a2, 48 + a3], [], [], [], [], [], [], [], false, [], false⟩ : ScanState) := by
    intro i; simp [scanStep, addIf, initScanState, dga3, emptySection, yearSection, monthSection, daySection, hourSection, minuteSection, secondSection, subsecondSection, zoneSection, afterSection, yearMax, monthMax, dayMax, hourMax, minuteMax, secondMax, subsecondMax, zoneMax]
  have s4 : ∀ i : Nat, scanStep (⟨yearSection, [48 + a1, 48 + a2, 48 + a3], [], [], [], [], [], [], [], false, [], false⟩ : ScanState) (48 + a4) i = (⟨monthSection, [48 + a1, 48 + a2, 48 + a3, 48 + a4], [], [], [], [], [], [], [], false, [], false⟩ : ScanState) := by
    intro i; simp [scanStep, addIf, initScanState, dga4, emptySection, yearSection, monthSection, daySection, hourSection, minuteSection, secondSection, subsecondSection, zoneSection, afterSection, yearMax, monthMax, dayMax, hourMax, minuteMax, secondMax, subsecondMax, zoneMax]
  have s5 : ∀ i : Nat, scanStep (⟨monthSection, [48 + a1, 48 + a2, 48 + a3, 48 + a4], [], [], [], [], [], [], [], false, [], false⟩ : ScanState) (48 + b1) i = (⟨monthSection, [48 + a1, 48 + a2, 48 + a3, 48 + a4], [48 + b1], [], [], [], [], [], [], false, [], false⟩ : ScanState) := by
    intro i; simp [scanStep, addIf, initScanState, dgb1, emptySection, yearSection, monthSection, daySection, hourSection, minuteSection, secondSection, subsecondSection, zoneSection, afterSection, yearMax, monthMax, dayMax, hourMax, minuteMax, secondMax, subsecondMax, zoneMax]
  have s6 : ∀ i : Nat, scanStep (⟨monthSection, [48 + a1, 48 + a2, 48 + a3, 48 + a4], [48 + b1], [], [], [], [], [], [], false, [], false⟩ : ScanState) (48 + b2) i = (⟨daySection, [48 + a1, 48 + a2, 48 + a3, 48 + a4], [48 + b1, 48 + b2], [], [], [], [], [], [], false, [], false⟩ : ScanState) := by
    intro i; simp [scanStep, addIf, initScanState, dgb2, emptySection, yearSection, monthSection, daySection, hourSection, minuteSection, secondSection, subsecondSection, zoneSection, afterSection, yearMax, monthMax, dayMax, hourMax, minuteMax, secondMax, subsecondMax, zoneMax]
  have s7 : ∀ i : Nat, scanStep (⟨daySection, [48 + a1, 48 + a2, 48 + a3, 48 + a4], [48 + b1, 48 + b2], [], [], [], [], [], [], false, [], false⟩ : ScanState) (48 + c1) i = (⟨daySection, [48 + a1, 48 + a2, 48 + a3, 48 + a4], [48 + b1, 48 + b2], [48 + c1], [], [], [], [], [], false, [], false⟩ : ScanState) := by
    intro i; simp [scanStep, addIf, initScanState, dgc1, emptySection, yearSection, monthSection, daySection, hourSection, minuteSection, secondSection, subsecondSection, zoneSection, afterSection, yearMax, monthMax, dayMax, hourMax, minuteMax, secondMax, subsecondMax, zoneMax]
  have s8 : ∀ i : Nat, scanStep (⟨daySection, [48 + a1, 48 + a2, 48 + a3, 48 + a4], [48 + b1, 48 + b2], [48 + c1], [], [], [], [], [], false, [], false⟩ : ScanState) (48 + c2) i = (⟨hourSection, [48 + a1, 48 + a2, 48 + a3, 48 + a4], [48 + b1, 48 + b2], [48 + c1, 48 + c2], [], [], [], [], [], false, [], false⟩ : ScanState) := by
    intro i; simp [scanStep, addIf, initScanState, dgc2, emptySection, yearSection, monthSection, daySection, hourSection, minuteSection, secondSection, subsecondSection, zoneSection, afterSection, yearMax, monthMax, dayMax, hourMax, minuteMax, secondMax, subsecondMax, zoneMax]
  have s9 : ∀ i : Nat, scanStep (⟨hourSection, [48 + a1, 48 + a2, 48 + a3, 48 + a4], [48 + b1, 48 + b2], [48 + c1, 48 + c2], [], [], [], [], [], false, [], false⟩ : ScanState) (84) i = (⟨hourSection, [48 + a1, 48 + a2, 48 + a3, 48 + a4], [48 + b1, 48 + b2], [48 + c1, 48 + c2], [], [], [], [], [], false, [], false⟩ : ScanState) := by
    intro i; simp [scanStep, addIf, initScanState, toUpperR, isSpaceR, isDigitR, emptySection, yearSection, monthSection, daySection, hourSection, minuteSection, secondSection, subsecondSection, zoneSection, afterSection, yearMax, monthMax, dayMax, hourMax, minuteMax, secondMax, subsecondMax, zoneMax]
  have s10 : ∀ i : Nat, scanStep (⟨hourSection, [48 + a1, 48 + a2, 48 + a3, 48 + a4], [48 + b1, 48 + b2], [48 + c1, 48 + c2], [], [], [], [], [], false, [], false⟩ : ScanState) (48 + e1) i = (⟨hourSection, [48 + a1, 48 + a2, 48 + a3, 48 + a4], [48 + b1, 48 + b2], [48 + c1, 48 + c2], [48 + e1], [], [], [], [], false, [], false⟩ : ScanState) := by
    intro i; simp [scanStep, addIf, initScanState, dge1, emptySection, yearSection, monthSection, daySection, hourSection, minuteSection, secondSection, subsecondSection, zoneSection, afterSection, yearMax, monthMax, dayMax, hourMax, minuteMax, secondMax, subsecondMax, zoneMax]
  have s11 : ∀ i : Nat, scanStep (⟨hourSection, [48 + a1, 48 + a2, 48 + a3, 48 + a4], [48 + b1, 48 + b2], [48 + c1, 48 + c2], [48 + e1], [], [], [], [], false, [], false⟩ : ScanState) (48 + e2) i = (⟨minuteSection, [48 + a1, 48 + a2, 48 + a3, 48 + a4], [48 + b1, 48 + b2], [48 + c1, 48 + c2], [48 + e1, 48 + e2], [], [], [], [], false, [], false⟩ : ScanState) := by
    intro i; simp [scanStep, addIf, initScanState, dge2, emptySection, yearSection, monthSection, daySection, hourSection, minuteSection, secondSection, subsecondSection, zoneSection, afterSection, yearMax, monthMax, dayMax, hourMax, minuteMax, secondMax, subsecondMax, zoneMax]
  have s12 : ∀ i : Nat, scanStep (⟨minuteSection, [48 + a1, 48 + a2, 48 + a3, 48 + a4], [48 + b1, 48 + b2], [48 + c1, 48 + c2], [48 + e1, 48 + e2], [], [], [], [], false, [], false⟩ : ScanState) (48 + f1) i = (⟨minuteSection, [48 + a1, 48 + a2, 48 + a3, 48 + a4], [48 + b1, 48 + b2], [48 + c1, 48 + c2], [48 + e1, 48 + e2], [48 + f1], [], [], [], false, [], false⟩ : ScanState) := by
    intro i; simp [scanStep, addIf, initScanState, dgf1, emptySection, yearSection, monthSection, daySection, hourSection, minuteSection, secondSection, subsecondSection, zoneSection, afterSection, yearMax, monthMax, dayMax, hourMax, minuteMax, secondMax, subsecondMax, zoneMax]
  have s13 : ∀ i : Nat, scanStep (⟨minuteSection, [48 + a1, 48 + a2, 48 + a3, 48 + a4], [48 + b1, 48 + b2], [48 + c1, 48 + c2], [48 + e1, 48 + e2], [48 + f1], [], [], [], false, [], false⟩ : ScanState) (48 + f2) i = (⟨secondSection, [48 + a1, 48 + a2, 48 + a3, 48 + a4], [48 + b1, 48 + b2], [48 + c1, 48 + c2], [48 + e1, 48 + e2], [48 + f1, 48 + f2], [], [], [], false, [], false⟩ : ScanState) := by
    intro i; simp [scanStep, addIf, initScanState, dgf2, emptySection, yearSection, monthSection, daySection, hourSection, minuteSection, secondSection, subsecondSection, zoneSection, afterSection, yearMax, monthMax, dayMax, hourMax, minuteMax, secondMax, subsecondMax, zoneMax]
  have s14 : ∀ i : Nat, scanStep (⟨secondSection, [48 + a1, 48 + a2, 48 + a3, 48 + a4], [48 + b1, 48 + b2], [48 + c1, 48 + c2], [48 + e1, 48 + e2], [48 + f1, 48 + f2], [], [], [], false, [], false⟩ : ScanState) (48 + g1) i = (⟨secondSection, [48 + a1, 48 + a2, 48 + a3, 48 + a4], [48 + b1, 48 + b2], [48 + c1, 48 + c2], [48 + e1, 48 + e2], [48 + f1, 48 + f2], [48 + g1], [], [], false, [], false⟩ : ScanState) := by
    intro i; simp [scanStep, addIf, initScanState, dgg1, emptySection, yearSection, monthSection, daySection, hourSection, minuteSection, secondSection, subsecondSection, zoneSection, afterSection, yearMax, monthMax, dayMax, hourMax, minuteMax, secondMax, subsecondMax, zoneMax]
  have s15 : ∀ i : Nat, scanStep (⟨secondSection, [48 + a1, 48 + a2, 48 + a3, 48 + a4], [48 + b1, 48 + b2], [48 + c1, 48 + c2], [48 + e1, 48 + e2], [48 + f1, 48 + f2], [48 + g1], [], [], false, [], false⟩ : ScanState) (48 + g2) i = (⟨subsecondSection, [48 + a1, 48 + a2, 48 + a3, 48 + a4], [48 + b1, 48 + b2], [48 + c1, 48 + c2], [48 + e1, 48 + e2], [48 + f1, 48 + f2], [48 + g1, 48 + g2], [], [], false, [], false⟩ : ScanState) := by
    intro i; simp [scanStep, addIf, initScanState, dgg2, emptySection, yearSection, monthSection, daySection, hourSection, minuteSection, secondSection, subsecondSection, zoneSection, afterSection, yearMax, monthMax, dayMax, hourMax, minuteMax, secondMax, subsecondMax, zoneMax]
  have s16 : ∀ i : Nat, scanStep (⟨subsecondSection, [48 + a1, 48 + a2, 48 + a3, 48 + a4], [48 + b1, 48 + b2], [48 + c1, 48 + c2], [48 + e1, 48 + e2], [48 + f1, 48 + f2], [48 + g1, 48 + g2], [], [], false, [], false⟩ : ScanState) (46) i = (⟨subsecondSection, [48 + a1, 48 + a2, 48 + a3, 48 + a4], [48 + b1, 48 + b2], [48 + c1, 48 + c2], [48 + e1, 48 + e2], [48 + f1, 48 + f2], [48 + g1, 48 + g2], [], [], false, [], false⟩ : ScanState) := by
    intro i; simp [scanStep, addIf, initScanState, toUpperR, isSpaceR, isDigitR, emptySection, yearSection, monthSection, daySection, hourSection, minuteSection, secondSection, subsecondSection, zoneSection, afterSection, yearMax, monthMax, dayMax, hourMax, minuteMax, secondMax, subsecondMax, zoneMax]
  have s17 : ∀ i : Nat, scanStep (⟨subsecondSection, [48 + a1, 48 + a2, 48 + a3, 48 + a4], [48 + b1, 48 + b2], [48 + c1, 48 + c2], [48 + e1, 48 + e2], [48 + f1, 48 + f2], [48 + g1, 48 + g2], [], [], false, [], false⟩ : ScanState) (48 + u1) i = (⟨subsecondSection, [48 + a1, 48 + a2, 48 + a3, 48 + a4], [48 + b1, 48 + b2], [48 + c1, 48 + c2], [48 + e1, 48 + e2], [48 + f1, 48 + f2], [48 + g1, 48 + g2], [48 + u1], [], false, [], false⟩ : ScanState) := by
    intro i; simp [scanStep, addIf, initScanState, dgu1, emptySection, yearSection, monthSection, daySection, hourSection, minuteSection, secondSection, subsecondSection, zoneSection, afterSection, yearMax, monthMax, dayMax, hourMax, minuteMax, secondMax, subsecondMax, zoneMax]
  have s18 : ∀ i : Nat, scanStep (⟨subsecondSection, [48 + a1, 48 + a2, 48 + a3, 48 + a4], [48 + b1, 48 + b2], [48 + c1, 48 + c2], [48 + e1, 48 + e2], [48 + f1, 48 + f2], [48 + g1, 48 + g2], [48 + u1], [], false, [], false⟩ : ScanState) (48 + u2) i = (⟨subsecondSection, [48 + a1, 48 + a2, 48 + a3, 48 + a4], [48 + b1, 48 + b2], [48 + c1, 48 + c2], [48 + e1, 48 + e2], [48 + f1, 48 + f2], [48 + g1, 48 + g2], [48 + u1, 48 + u2], [], false, [], false⟩ : ScanState) := by
    intro i; simp [scanStep, addIf, initScanState, dgu2, emptySection, yearSection, monthSection, daySection, hourSection, minuteSection, secondSection, subsecondSection, zoneSection, afterSection, yearMax, monthMax, dayMax, hourMax, minuteMax, secondMax, subsecondMax, zoneMax]
  have s19 : ∀ i : Nat, scanStep (⟨subsecondSection, [48 + a1, 48 + a2, 48 + a3, 48 + a4], [48 + b1, 48 + b2], [48 + c1, 48 + c2], [48 + e1, 48 + e2], [48 + f1, 48 + f2], [48 + g1, 48 + g2], [48 + u1, 48 + u2], [], false, [], false⟩ : ScanState) (48 + u3) i = (⟨subsecondSection, [48 + a1, 48 + a2, 48 + a3, 48 + a4], [48 + b1, 48 + b2], [48 + c1, 48 + c2], [48 + e1, 48 + e2], [48 + f1, 48 + f2], [48 + g1, 48 + g2], [48 + u1, 48 + u2, 48 + u3], [], false, [], false⟩ : ScanState) := by
    intro i; simp [scanStep, addIf, initScanState, dgu3, emptySection, yearSection, monthSection, daySection, hourSection, minuteSection, secondSection, subsecondSection, zoneSection, afterSection, yearMax, monthMax, dayMax, hourMax, minuteMax, secondMax, subsecondMax, zoneMax]
  have s20 : ∀ i : Nat, scanStep (⟨subsecondSection, [48 + a1, 48 + a2, 48 + a3, 48 + a4], [48 + b1, 48 + b2], [48 + c1, 48 + c2], [48 + e1, 48 + e2], [48 + f1, 48 + f2], [48 + g1, 48 + g2], [48 + u1, 48 + u2, 48 + u3], [], false, [], false⟩ : ScanState) sg i = (⟨zoneSection, [48 + a1, 48 + a2, 48 + a3, 48 + a4], [48 + b1, 48 + b2], [48 + c1, 48 + c2], [48 + e1, 48 + e2], [48 + f1, 48 + f2], [48 + g1, 48 + g2], [48 + u1, 48 + u2, 48 + u3], [], decide (sg = 43), [], false⟩ : ScanState) := by
    intro i; rcases hsg with rfl | rfl <;>
      simp [scanStep, addIf, initScanState, toUpperR, isSpaceR, isDigitR, emptySection, yearSection, monthSection, daySection, hourSection, minuteSection, secondSection, subsecondSection, zoneSection, afterSection, yearMax, monthMax, dayMax, hourMax, minuteMax, secondMax, subsecondMax, zoneMax]
  have s21 : ∀ i : Nat, scanStep (⟨zoneSection, [48 + a1, 48 + a2, 48 + a3, 48 + a4], [48 + b1, 48 + b2], [48 + c1, 48 + c2], [48 + e1, 48 + e2], [48 + f1, 48 + f2], [48 + g1, 48 + g2], [48 + u1, 48 + u2, 48 + u3], [], decide (sg = 43), [], false⟩ : ScanState) (48 + p1) i = (⟨zoneSection, [48 + a1, 48 + a2, 48 + a3, 48 + a4], [48 + b1, 48 + b2], [48 + c1, 48 + c2], [48 + e1, 48 + e2], [48 + f1, 48 + f2], [48 + g1, 48 + g2], [48 + u1, 48 + u2, 48 + u3], [48 + p1], decide (sg = 43), [], false⟩ : ScanState) := by
    intro i; simp [scanStep, addIf, initScanState, dgp1, emptySection, yearSection, monthSection, daySection, hourSection, minuteSection, secondSection, subsecondSection, zoneSection, afterSection, yearMax, monthMax, dayMax, hourMax, minuteMax, secondMax, subsecondMax, zoneMax]
  have s22 : ∀ i : Nat, scanStep (⟨zoneSection, [48 + a1, 48 + a2, 48 + a3, 48 + a4], [48 + b1, 48 + b2], [48 + c1, 48 + c2], [48 + e1, 48 + e2], [48 + f1, 48 + f2], [48 + g1, 48 + g2], [48 + u1, 48 + u2, 48 + u3], [48 + p1], decide (sg = 43), [], false⟩ : ScanState) (48 + p2) i = (⟨zoneSection, [48 + a1, 48 + a2, 48 + a3, 48 + a4], [48 + b1, 48 + b2], [48 + c1, 48 + c2], [48 + e1, 48 + e2], [48 + f1, 48 + f2], [48 + g1, 48 + g2], [48 + u1, 48 + u2, 48 + u3], [48 + p1, 48 + p2], decide (sg = 43), [], false⟩ : ScanState) := by
    intro i; simp [scanStep, addIf, initScanState, dgp2, emptySection, yearSection, monthSection, daySection, hourSection, minuteSection, secondSection, subsecondSection, zoneSection, afterSection, yearMax, monthMax, dayMax, hourMax, minuteMax, secondMax, subsecondMax, zoneMax]
  have s23 : ∀ i : Nat, scanStep (⟨zoneSection, [48 + a1, 48 + a2, 48 + a3, 48 + a4], [48 + b1, 48 + b2], [48 + c1, 48 + c2], [48 + e1, 48 + e2], [48 + f1, 48 + f2], [48 + g1, 48 + g2], [48 + u1, 48 + u2, 48 + u3], [48 + p1, 48 + p2], decide (sg = 43), [], false⟩ : ScanState) (48 + q1) i = (⟨zoneSection, [48 + a1, 48 + a2, 48 + a3, 48 + a4], [48 + b1, 48 + b2], [48 + c1, 48 + c2], [48 + e1, 48 + e2], [48 + f1, 48 + f2], [48 + g1, 48 + g2], [48 + u1, 48 + u2, 48 + u3], [48 + p1, 48 + p2, 48 + q1], decide (sg = 43), [], false⟩ : ScanState) := by
    intro i; simp [scanStep, addIf, initScanState, dgq1, emptySection, yearSection, monthSection, daySection, hourSection, minuteSection, secondSection, subsecondSection, zoneSection, afterSection, yearMax, monthMax, dayMax, hourMax, minuteMax, secondMax, subsecondMax, zoneMax]
  have s24 : ∀ i : Nat, scanStep (⟨zoneSection, [48 + a1, 48 + a2, 48 + a3, 48 + a4], [48 + b1, 48 + b2], [48 + c1, 48 + c2], [48 + e1, 48 + e2], [48 + f1, 48 + f2], [48 + g1, 48 + g2], [48 + u1, 48 + u2, 48 + u3], [48 + p1, 48 + p2, 48 + q1], decide (sg = 43), [], false⟩ : ScanState) (48 + q2) i = (⟨afterSection, [48 + a1, 48 + a2, 48 + a3, 48 + a4], [48 + b1, 48 + b2], [48 + c1, 48 + c2], [48 + e1, 48 + e2], [48 + f1, 48 + f2], [48 + g1, 48 + g2], [48 + u1, 48 + u2, 48 + u3], [48 + p1, 48 + p2, 48 + q1, 48 + q2], decide (sg = 43), [], false⟩ : ScanState) := by
    intro i; simp [scanStep, addIf, initScanState, dgq2, emptySection, yearSection, monthSection, daySection, hourSection, minuteSection, secondSection, subsecondSection, zoneSection, afterSection, yearMax, monthMax, dayMax, hourMax, minuteMax, secondMax, subsecondMax, zoneMax]
  simp only [scanRunes_cons, s1, s2, s3, s4, s5, s6, s7, s8, s9, s10, s11, s12, s13, s14, s15, s16, s17, s18, s19, s20, s21, s22, s23, s24, Bool.false_eq_true, if_false, hnil]

theorem scanRunes_extL (a1 a2 a3 a4 b1 b2 c1 c2 e1 e2 f1 f2 g1 g2 p1 p2 q1 q2 sg : Nat)
    (ha1 : a1 ≤ 9) (ha2 : a2 ≤ 9) (ha3 : a3 ≤ 9) (ha4 : a4 ≤ 9) (hb1 : b1 ≤ 9) (hb2 : b2 ≤ 9) (hc1 : c1 ≤ 9) (hc2 : c2 ≤ 9) (he1 : e1 ≤ 9) (he2 : e2 ≤ 9) (hf1 : f1 ≤ 9) (hf2 : f2 ≤ 9) (hg1 : g1 ≤ 9) (hg2 : g2 ≤ 9) (hp1 : p1 ≤ 9) (hp2 : p2 ≤ 9) (hq1 : q1 ≤ 9) (hq2 : q2 ≤ 9)
    (hsg : sg = 43 ∨ sg = 45) :
    scanRunes initScanState [48 + a1, 48 + a2, 48 + a3, 48 + a4, 45, 48 + b1, 48 + b2, 45, 48 + c1, 48 + c2, 84, 48 + e1, 48 + e2, 58, 48 + f1, 48 + f2, 58, 48 + g1, 48 + g2, sg, 48 + p1, 48 + p2, 58, 48 + q1, 48 + q2] 0 = (⟨afterSection, [48 + a1, 48 + a2, 48 + a3, 48 + a4], [48 + b1, 48 + b2], [48 + c1, 48 + c2], [48 + e1, 48 + e2], [48 + f1, 48 + f2], [48 + g1, 48 + g2], [], [48 + p1, 48 + p2, 48 + q1, 48 + q2], decide (sg = 43), [], false⟩ : ScanState) := by
  have dga1 := isDigitR_48add a1 ha1
  have dga2 := isDigitR_48add a2 ha2
  have dga3 := isDigitR_48add a3 ha3
  have dga4 := isDigitR_48add a4 ha4
  have dgb1 := isDigitR_48add b1 hb1
  have dgb2 := isDigitR_48add b2 hb2
  have dgc1 := isDigitR_48add c1 hc1
  have dgc2 := isDigitR_48add c2 hc2
  have dge1 := isDigitR_48add e1 he1
  have dge2 := isDigitR_48add e2 he2
  have dgf1 := isDigitR_48add f1 hf1
  have dgf2 := isDigitR_48add f2 hf2
  have dgg1 := isDigitR_48add g1 hg1
  have dgg2 := isDigitR_48add g2 hg2
  have dgp1 := isDigitR_48add p1 hp1
  have dgp2 := isDigitR_48add p2 hp2
  have dgq1 := isDigitR_48add q1 hq1
  have dgq2 := isDigitR_48add q2 hq2
  have hnil : ∀ (st : ScanState) (i : Nat), scanRunes st [] i = st := fun _ _ => rfl
  have s1 : ∀ i : Nat, scanStep initScanState (48 + a1) i = (⟨yearSection, [48 + a1], [], [], [], [], [], [], [], false, [], false⟩ : ScanState) := by
    intro i; simp [scanStep, addIf, initScanState, dga1, emptySection, yearSection, monthSection, daySection, hourSection, minuteSection, secondSection, subsecondSection, zoneSection, afterSection, yearMax, monthMax, dayMax, hourMax, minuteMax, secondMax, subsecondMax, zoneMax]
  have s2 : ∀ i : Nat, scanStep (⟨yearSection, [48 + a1], [], [], [], [], [], [], [], false, [], false⟩ : ScanState) (48 + a2) i = (⟨yearSection, [48 + a1, 48 + a2], [], [], [], [], [], [], [], false, [], false⟩ : ScanState) := by
    intro i; simp [scanStep, addIf, initScanState, dga2, emptySection, yearSection, monthSection, daySection, hourSection, minuteSection, secondSection, subsecondSection, zoneSection, afterSection, yearMax, monthMax, dayMax, hourMax, minuteMax, secondMax, subsecondMax, zoneMax]
  have s3 : ∀ i : Nat, scanStep (⟨yearSection, [48 + a1, 48 + a2], [], [], [], [], [], [], [], false, [], false⟩ : ScanState) (48 + a3) i = (⟨yearSection, [48 + a1, 48 + a2, 48 + a3], [], [], [], [], [], [], [], false, [], false⟩ : ScanState) := by
    intro i; simp [scanStep, addIf, initScanState, dga3, emptySection, yearSection, monthSection, daySection, hourSection, minuteSection, secondSection, subsecondSection, zoneSection, afterSection, yearMax, monthMax, dayMax, hourMax, minuteMax, secondMax, subsecondMax, zoneMax]
  have s4 : ∀ i : Nat, scanStep (⟨yearSection, [48 + a1, 48 + a2, 48 + a3], [], [], [], [], [], [], [], false, [], false⟩ : ScanState) (48 + a4) i = (⟨monthSection, [48 + a1, 48 + a2, 48 + a3, 48 + a4], [], [], [], [], [], [], [], false, [], false⟩ : ScanState) := by
    intro i; simp [scanStep, addIf, initScanState, dga4, emptySection, yearSection, monthSection, daySection, hourSection, minuteSection, secondSection, subsecondSection, zoneSection, afterSection, yearMax, monthMax, dayMax, hourMax, minuteMax, secondMax, subsecondMax, zoneMax]
  have s5 : ∀ i : Nat, scanStep (⟨monthSection, [48 + a1, 48 + a2, 48 + a3, 48 + a4], [], [], [], [], [], [], [], false, [], false⟩ : ScanState) (45) i = (⟨monthSection, [48 + a1, 48 + a2, 48 + a3, 48 + a4], [], [], [], [], [], [], [], false, [], false⟩ : ScanState) := by
    intro i; simp [scanStep, addIf, initScanState, toUpperR, isSpaceR, isDigitR, emptySection, yearSection, monthSection, daySection, hourSection, minuteSection, secondSection, subsecondSection, zoneSection, afterSection, yearMax, monthMax, dayMax, hourMax, minuteMax, secondMax, subsecondMax, zoneMax]
  have s6 : ∀ i : Nat, scanStep (⟨monthSection, [48 + a1, 48 + a2, 48 + a3, 48 + a4], [], [], [], [], [], [], [], false, [], false⟩ : ScanState) (48 + b1) i = (⟨monthSection, [48 + a1, 48 + a2, 48 + a3, 48 + a4], [48 + b1], [], [], [], [], [], [], false, [], false⟩ : ScanState) := by
    intro i; simp [scanStep, addIf, initScanState, dgb1, emptySection, yearSection, monthSection, daySection, hourSection, minuteSection, secondSection, subsecondSection, zoneSection, afterSection, yearMax, monthMax, dayMax, hourMax, minuteMax, secondMax, subsecondMax, zoneMax]
  have s7 : ∀ i : Nat, scanStep (⟨monthSection, [48 + a1, 48 + a2, 48 + a3, 48 + a4], [48 + b1], [], [], [], [], [], [], false, [], false⟩ : ScanState) (48 + b2) i = (⟨daySection, [48 + a1, 48 + a2, 48 + a3, 48 + a4], [48 + b1, 48 + b2], [], [], [], [], [], [], false, [], false⟩ : ScanState) := by
    intro i; simp [scanStep, addIf, initScanState, dgb2, emptySection, yearSection, monthSection, daySection, hourSection, minuteSection, secondSection, subsecondSection, zoneSection, afterSection, yearMax, monthMax, dayMax, hourMax, minuteMax, secondMax, subsecondMax, zoneMax]
  have s8 : ∀ i : Nat, scanStep (⟨daySection, [48 + a1, 48 + a2, 48 + a3, 48 + a4], [48 + b1, 48 + b2], [], [], [], [], [], [], false, [], false⟩ : ScanState) (45) i = (⟨daySection, [48 + a1, 48 + a2, 48 + a3, 48 + a4], [48 + b1, 48 + b2], [], [], [], [], [], [], false, [], false⟩ : ScanState) := by
    intro i; simp [scanStep, addIf, initScanState, toUpperR, isSpaceR, isDigitR, emptySection, yearSection, monthSection, daySection, hourSection, minuteSection, secondSection, subsecondSection, zoneSection, afterSection, yearMax, monthMax, dayMax, hourMax, minuteMax, secondMax, subsecondMax, zoneMax]
  have s9 : ∀ i : Nat, scanStep (⟨daySection, [48 + a1, 48 + a2, 48 + a3, 48 + a4], [48 + b1, 48 + b2], [], [], [], [], [], [], false, [], false⟩ : ScanState) (48 + c1) i = (⟨daySection, [48 + a1, 48 + a2, 48 + a3, 48 + a4], [48 + b1, 48 + b2], [48 + c1], [], [], [], [], [], false, [], false⟩ : ScanState) := by
    intro i; simp [scanStep, addIf, initScanState, dgc1, emptySection, yearSection, monthSection, daySection, hourSection, minuteSection, secondSection, subsecondSection, zoneSection, afterSection, yearMax, monthMax, dayMax, hourMax, minuteMax, secondMax, subsecondMax, zoneMax]
  have s10 : ∀ i : Nat, scanStep (⟨daySection, [48 + a1, 48 + a2, 48 + a3, 48 + a4], [48 + b1, 48 + b2], [48 + c1], [], [], [], [], [], false, [], false⟩ : ScanState) (48 + c2) i = (⟨hourSection, [48 + a1, 48 + a2, 48 + a3, 48 + a4], [48 + b1, 48 + b2], [48 + c1, 48 + c2], [], [], [], [], [], false, [], false⟩ : ScanState) := by
    intro i; simp [scanStep, addIf, initScanState, dgc2, emptySection, yearSection, monthSection, daySection, hourSection, minuteSection, secondSection, subsecondSection, zoneSection, afterSection, yearMax, monthMax, dayMax, hourMax, minuteMax, secondMax, subsecondMax, zoneMax]
  have s11 : ∀ i : Nat, scanStep (⟨hourSection, [48 + a1, 48 + a2, 48 + a3, 48 + a4], [48 + b1, 48 + b2], [48 + c1, 48 + c2], [], [], [], [], [], false, [], false⟩ : ScanState) (84) i = (⟨hourSection, [48 + a1, 48 + a2, 48 + a3, 48 + a4], [48 + b1, 48 + b2], [48 + c1, 48 + c2], [], [], [], [], [], false, [], false⟩ : ScanState) := by
    intro i; simp [scanStep, addIf, initScanState, toUpperR, isSpaceR, isDigitR, emptySection, yearSection, monthSection, daySection, hourSection, minuteSection, secondSection, subsecondSection, zoneSection, afterSection, yearMax, monthMax, dayMax, hourMax, minuteMax, secondMax, subsecondMax, zoneMax]
  have s12 : ∀ i : Nat, scanStep (⟨hourSection, [48 + a1, 48 + a2, 48 + a3, 48 + a4], [48 + b1, 48 + b2], [48 + c1, 48 + c2], [], [], [], [], [], false, [], false⟩ : ScanState) (48 + e1) i = (⟨hourSection, [48 + a1, 48 + a2, 48 + a3, 48 + a4], [48 + b1, 48 + b2], [48 + c1, 48 + c2], [48 + e1], [], [], [], [], false, [], false⟩ : ScanState) := by
    intro i; simp [scanStep, addIf, initScanState, dge1, emptySection, yearSection, monthSection, daySection, hourSection, minuteSection, secondSection, subsecondSection, zoneSection, afterSection, yearMax, monthMax, dayMax, hourMax, minuteMax, secondMax, subsecondMax, zoneMax]
  have s13 : ∀ i : Nat, scanStep (⟨hourSection, [48 + a1, 48 + a2, 48 + a3, 48 + a4], [48 + b1, 48 + b2], [48 + c1, 48 + c2], [48 + e1], [], [], [], [], false, [], false⟩ : ScanState) (48 + e2) i = (⟨minuteSection, [48 + a1, 48 + a2, 48 + a3, 48 + a4], [48 + b1, 48 + b2], [48 + c1, 48 + c2], [48 + e1, 48 + e2], [], [], [], [], false, [], false⟩ : ScanState) := by
    intro i; simp [scanStep, addIf, initScanState, dge2, emptySection, yearSection, monthSection, daySection, hourSection, minuteSection, secondSection, subsecondSection, zoneSection, afterSection, yearMax, monthMax, dayMax, hourMax, minuteMax, secondMax, subsecondMax, zoneMax]
  have s14 : ∀ i : Nat, scanStep (⟨minuteSection, [48 + a1, 48 + a2, 48 + a3, 48 + a4], [48 + b1, 48 + b2], [48 + c1, 48 + c2], [48 + e1, 48 + e2], [], [], [], [], false, [], false⟩ : ScanState) (58) i = (⟨minuteSection, [48 + a1, 48 + a2, 48 + a3, 48 + a4], [48 + b1, 48 + b2], [48 + c1, 48 + c2], [48 + e1, 48 + e2], [], [], [], [], false, [], false⟩ : ScanState) := by
    intro i; simp [scanStep, addIf, initScanState, toUpperR, isSpaceR, isDigitR, emptySection, yearSection, monthSection, daySection, hourSection, minuteSection, secondSection, subsecondSection, zoneSection, afterSection, yearMax, monthMax, dayMax, hourMax, minuteMax, secondMax, subsecondMax, zoneMax]
  have s15 : ∀ i : Nat, scanStep (⟨minuteSection, [48 + a1, 48 + a2, 48 + a3, 48 + a4], [48 + b1, 48 + b2], [48 + c1, 48 + c2], [48 + e1, 48 + e2], [], [], [], [], false, [], false⟩ : ScanState) (48 + f1) i = (⟨minuteSection, [48 + a1, 48 + a2, 48 + a3, 48 + a4], [48 + b1, 48 + b2], [48 + c1, 48 + c2], [48 + e1, 48 + e2], [48 + f1], [], [], [], false, [], false⟩ : ScanState) := by
    intro i; simp [scanStep, addIf, initScanState, dgf1, emptySection, yearSection, monthSection, daySection, hourSection, minuteSection, secondSection, subsecondSection, zoneSection, afterSection, yearMax, monthMax, dayMax, hourMax, minuteMax, secondMax, subsecondMax, zoneMax]
  have s16 : ∀ i : Nat, scanStep (⟨minuteSection, [48 + a1, 48 + a2, 48 + a3, 48 + a4], [48 + b1, 48 + b2], [48 + c1, 48 + c2], [48 + e1, 48 + e2], [48 + f1], [], [], [], false, [], false⟩ : ScanState) (48 + f2) i = (⟨secondSection, [48 + a1, 48 + a2, 48 + a3, 48 + a4], [48 + b1, 48 + b2], [48 + c1, 48 + c2], [48 + e1, 48 + e2], [48 + f1, 48 + f2], [], [], [], false, [], false⟩ : ScanState) := by
    intro i; simp [scanStep, addIf, initScanState, dgf2, emptySection, yearSection, monthSection, daySection, hourSection, minuteSection, secondSection, subsecondSection, zoneSection, afterSection, yearMax, monthMax, dayMax, hourMax, minuteMax, secondMax, subsecondMax, zoneMax]
  have s17 : ∀ i : Nat, scanStep (⟨secondSection, [48 + a1, 48 + a2, 48 + a3, 48 + a4], [48 + b1, 48 + b2], [48 + c1, 48 + c2], [48 + e1, 48 + e2], [48 + f1, 48 + f2], [], [], [], false, [], false⟩ : ScanState) (58) i = (⟨secondSection, [48 + a1, 48 + a2, 48 + a3, 48 + a4], [48 + b1, 48 + b2], [48 + c1, 48 + c2], [48 + e1, 48 + e2], [48 + f1, 48 + f2], [], [], [], false, [], false⟩ : ScanState) := by
    intro i; simp [scanStep, addIf, initScanState, toUpperR, isSpaceR, isDigitR, emptySection, yearSection, monthSection, daySection, hourSection, minuteSection, secondSection, subsecondSection, zoneSection, afterSection, yearMax, monthMax, dayMax, hourMax, minuteMax, secondMax, subsecondMax, zoneMax]
  have s18 : ∀ i : Nat, scanStep (⟨secondSection, [48 + a1, 48 + a2, 48 + a3, 48 + a4], [48 + b1, 48 + b2], [48 + c1, 48 + c2], [48 + e1, 48 + e2], [48 + f1, 48 + f2], [], [], [], false, [], false⟩ : ScanState) (48 + g1) i = (⟨secondSection, [48 + a1, 48 + a2, 48 + a3, 48 + a4], [48 + b1, 48 + b2], [48 + c1, 48 + c2], [48 + e1, 48 + e2], [48 + f1, 48 + f2], [48 + g1], [], [], false, [], false⟩ : ScanState) := by
    intro i; simp [scanStep, addIf, initScanState, dgg1, emptySection, yearSection, monthSection, daySection, hourSection, minuteSection, secondSection, subsecondSection, zoneSection, afterSection, yearMax, monthMax, dayMax, hourMax, minuteMax, secondMax, subsecondMax, zoneMax]
  have s19 : ∀ i : Nat, scanStep (⟨secondSection, [48 + a1, 48 + a2, 48 + a3, 48 + a4], [48 + b1, 48 + b2], [48 + c1, 48 + c2], [48 + e1, 48 + e2], [48 + f1, 48 + f2], [48 + g1], [], [], false, [], false⟩ : ScanState) (48 + g2) i = (⟨subsecondSection, [48 + a1, 48 + a2, 48 + a3, 48 + a4], [48 + b1, 48 + b2], [48 + c1, 48 + c2], [48 + e1, 48 + e2], [48 + f1, 48 + f2], [48 + g1, 48 + g2], [], [], false, [], false⟩ : ScanState) := by
    intro i; simp [scanStep, addIf, initScanState, dgg2, emptySection, yearSection, monthSection, daySection, hourSection, minuteSection, secondSection, subsecondSection, zoneSection, afterSection, yearMax, monthMax, dayMax, hourMax, minuteMax, secondMax, subsecondMax, zoneMax]
  have s20 : ∀ i : Nat, scanStep (⟨subsecondSection, [48 + a1, 48 + a2, 48 + a3, 48 + a4], [48 + b1, 48 + b2], [48 + c1, 48 + c2], [48 + e1, 48 + e2], [48 + f1, 48 + f2], [48 + g1, 48 + g2], [], [], false, [], false⟩ : ScanState) sg i = (⟨zoneSection, [48 + a1, 48 + a2, 48 + a3, 48 + a4], [48 + b1, 48 + b2], [48 + c1, 48 + c2], [48 + e1, 48 + e2], [48 + f1, 48 + f2], [48 + g1, 48 + g2], [], [], decide (sg = 43), [], false⟩ : ScanState) := by
    intro i; rcases hsg with rfl | rfl <;>
      simp [scanStep, addIf, initScanState, toUpperR, isSpaceR, isDigitR, emptySection, yearSection, monthSection, daySection, hourSection, minuteSection, secondSection, subsecondSection, zoneSection, afterSection, yearMax, monthMax, dayMax, hourMax, minuteMax, secondMax, subsecondMax, zoneMax]
  have s21 : ∀ i : Nat, scanStep (⟨zoneSection, [48 + a1, 48 + a2, 48 + a3, 48 + a4], [48 + b1, 48 + b2], [48 + c1, 48 + c2], [48 + e1, 48 + e2], [48 + f1, 48 + f2], [48 + g1, 48 + g2], [], [], decide (sg = 43), [], false⟩ : ScanState) (48 + p1) i = (⟨zoneSection, [48 + a1, 48 + a2, 48 + a3, 48 + a4], [48 + b1, 48 + b2], [48 + c1, 48 + c2], [48 + e1, 48 + e2], [48 + f1, 48 + f2], [48 + g1, 48 + g2], [], [48 + p1], decide (sg = 43), [], false⟩ : ScanState) := by
    intro i; simp [scanStep, addIf, initScanState, dgp1, emptySection, yearSection, monthSection, daySection, hourSection, minuteSection, secondSection, subsecondSection, zoneSection, afterSection, yearMax, monthMax, dayMax, hourMax, minuteMax, secondMax, subsecondMax, zoneMax]
  have s22 : ∀ i : Nat, scanStep (⟨zoneSection, [48 + a1, 48 + a2, 48 + a3, 48 + a4], [48 + b1, 48 + b2], [48 + c1, 48 + c2], [48 + e1, 48 + e2], [48 + f1, 48 + f2], [48 + g1, 48 + g2], [], [48 + p1], decide (sg = 43), [], false⟩ : ScanState) (48 + p2) i = (⟨zoneSection, [48 + a1, 48 + a2, 48 + a3, 48 + a4], [48 + b1, 48 + b2], [48 + c1, 48 + c2], [48 + e1, 48 + e2], [48 + f1, 48 + f2], [48 + g1, 48 + g2], [], [48 + p1, 48 + p2], decide (sg = 43), [], false⟩ : ScanState) := by
    intro i; simp [scanStep, addIf, initScanState, dgp2, emptySection, yearSection, monthSection, daySection, hourSection, minuteSection, secondSection, subsecondSection, zoneSection, afterSection, yearMax, monthMax, dayMax, hourMax, minuteMax, secondMax, subsecondMax, zoneMax]
  have s23 : ∀ i : Nat, scanStep (⟨zoneSection, [48 + a1, 48 + a2, 48 + a3, 48 + a4], [48 + b1, 48 + b2], [48 + c1, 48 + c2], [48 + e1, 48 + e2], [48 + f1, 48 + f2], [48 + g1, 48 + g2], [], [48 + p1, 48 + p2], decide (sg = 43), [], false⟩ : ScanState) (58) i = (⟨zoneSection, [48 + a1, 48 + a2, 48 + a3, 48 + a4], [48 + b1, 48 + b2], [48 + c1, 48 + c2], [48 + e1, 48 + e2], [48 + f1, 48 + f2], [48 + g1, 48 + g2], [], [48 + p1, 48 + p2], decide (sg = 43), [], false⟩ : ScanState) := by
    intro i; simp [scanStep, addIf, initScanState, toUpperR, isSpaceR, isDigitR, emptySection, yearSection, monthSection, daySection, hourSection, minuteSection, secondSection, subsecondSection, zoneSection, afterSection, yearMax, monthMax, dayMax, hourMax, minuteMax, secondMax, subsecondMax, zoneMax]
  have s24 : ∀ i : Nat, scanStep (⟨zoneSection, [48 + a1, 48 + a2, 48 + a3, 48 + a4], [48 + b1, 48 + b2], [48 + c1, 48 + c2], [48 + e1, 48 + e2], [48 + f1, 48 + f2], [48 + g1, 48 + g2], [], [48 + p1, 48 + p2], decide (sg = 43), [], false⟩ : ScanState) (48 + q1) i = (⟨zoneSection, [48 + a1, 48 + a2, 48 + a3, 48 + a4], [48 + b1, 48 + b2], [48 + c1, 48 + c2], [48 + e1, 48 + e2], [48 + f1, 48 + f2], [48 + g1, 48 + g2], [], [48 + p1, 48 + p2, 48 + q1], decide (sg = 43), [], false⟩ : ScanState) := by
    intro i; simp [scanStep, addIf, initScanState, dgq1, emptySection, yearSection, monthSection, daySection, hourSection, minuteSection, secondSection, subsecondSection, zoneSection, afterSection, yearMax, monthMax, dayMax, hourMax, minuteMax, secondMax, subsecondMax, zoneMax]
  have s25 : ∀ i : Nat, scanStep (⟨zoneSection, [48 + a1, 48 + a2, 48 + a3, 48 + a4], [48 + b1, 48 + b2], [48 + c1, 48 + c2], [48 + e1, 48 + e2], [48 + f1, 48 + f2], [48 + g1, 48 + g2], [], [48 + p1, 48 + p2, 48 + q1], decide (sg = 43), [], false⟩ : ScanState) (48 + q2) i = (⟨afterSection, [48 + a1, 48 + a2, 48 + a3, 48 + a4], [48 + b1, 48 + b2], [48 + c1, 48 + c2], [48 + e1, 48 + e2], [48 + f1, 48 + f2], [48 + g1, 48 + g2], [], [48 + p1, 48 + p2, 48 + q1, 48 + q2], decide (sg = 43), [], false⟩ : ScanState) := by
    intro i; simp [scanStep, addIf, initScanState, dgq2, emptySection, yearSection, monthSection, daySection, hourSection, minuteSection, secondSection, subsecondSection, zoneSection, afterSection, yearMax, monthMax, dayMax, hourMax, minuteMax, secondMax, subsecondMax, zoneMax]
  simp only [scanRunes_cons, s1, s2, s3, s4, s5, s6, s7, s8, s9, s10, s11, s12, s13, s14, s15, s16, s17, s18, s19, s20, s21, s22, s23, s24, s25, Bool.false_eq_true, if_false, hnil]

theorem scanRunes_extMsecL (a1 a2 a3 a4 b1 b2 c1 c2 e1 e2 f1 f2 g1 g2 u1 u2 u3 p1 p2 q1 q2 sg : Nat)
    (ha1 : a1 ≤ 9) (ha2 : a2 ≤ 9) (ha3 : a3 ≤ 9) (ha4 : a4 ≤ 9) (hb1 : b1 ≤ 9) (hb2 : b2 ≤ 9) (hc1 : c1 ≤ 9) (hc2 : c2 ≤ 9) (he1 : e1 ≤ 9) (he2 : e2 ≤ 9) (hf1 : f1 ≤ 9) (hf2 : f2 ≤ 9) (hg1 : g1 ≤ 9) (hg2 : g2 ≤ 9) (hu1 : u1 ≤ 9) (hu2 : u2 ≤ 9) (hu3 : u3 ≤ 9) (hp1 : p1 ≤ 9) (hp2 : p2 ≤ 9) (hq1 : q1 ≤ 9) (hq2 : q2 ≤ 9)
    (hsg : sg = 43 ∨ sg = 45) :
    scanRunes initScanState [48 + a1, 48 + a2, 48 + a3, 48 + a4, 45, 48 + b1, 48 + b2, 45, 48 + c1, 48 + c2, 84, 48 + e1, 48 + e2, 58, 48 + f1, 48 + f2, 58, 48 + g1, 48 + g2, 46, 48 + u1, 48 + u2, 48 + u3, sg, 48 + p1, 48 + p2, 58, 48 + q1, 48 + q2] 0 = (⟨afterSection, [48 + a1, 48 + a2, 48 + a3, 48 + a4], [48 + b1, 48 + b2], [48 + c1, 48 + c2], [48 + e1, 48 + e2], [48 + f1, 48 + f2], [48 + g1, 48 + g2], [48 + u1, 48 + u2, 48 + u3], [48 + p1, 48 + p2, 48 + q1, 48 + q2], decide (sg = 43), [], false⟩ : ScanState) := by
  have dga1 := isDigitR_48add a1 ha1
  have dga2 := isDigitR_48add a2 ha2
  have dga3 := isDigitR_48add a3 ha3
  have dga4 := isDigitR_48add a4 ha4
  have dgb1 := isDigitR_48add b1 hb1
  have dgb2 := isDigitR_48add b2 hb2
  have dgc1 := isDigitR_48add c1 hc1
  have dgc2 := isDigitR_48add c2 hc2
  have dge1 := isDigitR_48add e1 he1
  have dge2 := isDigitR_48add e2 he2
  have dgf1 := isDigitR_48add f1 hf1
  have dgf2 := isDigitR_48add f2 hf2
  have dgg1 := isDigitR_48add g1 hg1
  have dgg2 := isDigitR_48add g2 hg2
  have dgu1 := isDigitR_48add u1 hu1
  have dgu2 := isDigitR_48add u2 hu2
  have dgu3 := isDigitR_48add u3 hu3
  have dgp1 := isDigitR_48add p1 hp1
  have dgp2 := isDigitR_48add p2 hp2
  have dgq1 := isDigitR_48add q1 hq1
  have dgq2 := isDigitR_48add q2 hq2
  have hnil : ∀ (st : ScanState) (i : Nat), scanRunes st [] i = st := fun _ _ => rfl
  have s1 : ∀ i : Nat, scanStep initScanState (48 + a1) i = (⟨yearSection, [48 + a1], [], [], [], [], [], [], [], false, [], false⟩ : ScanState) := by
    intro i; simp [scanStep, addIf, initScanState, dga1, emptySection, yearSection, monthSection, daySection, hourSection, minuteSection, secondSection, subsecondSection, zoneSection, afterSection, yearMax, monthMax, dayMax, hourMax, minuteMax, secondMax, subsecondMax, zoneMax]
  have s2 : ∀ i : Nat, scanStep (⟨yearSection, [48 + a1], [], [], [], [], [], [], [], false, [], false⟩ : ScanState) (48 + a2) i = (⟨yearSection, [48 + a1, 48 + a2], [], [], [], [], [], [], [], false, [], false⟩ : ScanState) := by
    intro i; simp [scanStep, addIf, initScanState, dga2, emptySection, yearSection, monthSection, daySection, hourSection, minuteSection, secondSection, subsecondSection, zoneSection, afterSection, yearMax, monthMax, dayMax, hourMax, minuteMax, secondMax, subsecondMax, zoneMax]
  have s3 : ∀ i : Nat, scanStep (⟨yearSection, [48 + a1, 48 + a2], [], [], [], [], [], [], [], false, [], false⟩ : ScanState) (48 + a3) i = (⟨yearSection, [48 + a1, 48 + a2, 48 + a3], [], [], [], [], [], [], [], false, [], false⟩ : ScanState) := by
    intro i; simp [scanStep, addIf, initScanState, dga3, emptySection, yearSection, monthSection, daySection, hourSection, minuteSection, secondSection, subsecondSection, zoneSection, afterSection, yearMax, monthMax, dayMax, hourMax, minuteMax, secondMax, subsecondMax, zoneMax]
  have s4 : ∀ i : Nat, scanStep (⟨yearSection, [48 + a1, 48 + a2, 48 + a3], [], [], [], [], [], [], [], false, [], false⟩ : ScanState) (48 + a4) i = (⟨monthSection, [48 + a1, 48 + a2, 48 + a3, 48 + a4], [], [], [], [], [], [], [], false, [], false⟩ : ScanState) := by
    intro i; simp [scanStep, addIf, initScanState, dga4, emptySection, yearSection, monthSection, daySection, hourSection, minuteSection, secondSection, subsecondSection, zoneSection, afterSection, yearMax, monthMax, dayMax, hourMax, minuteMax, secondMax, subsecondMax, zoneMax]
  have s5 : ∀ i : Nat, scanStep (⟨monthSection, [48 + a1, 48 + a2, 48 + a3, 48 + a4], [], [], [], [], [], [], [], false, [], false⟩ : ScanState) (45) i = (⟨monthSection, [48 + a1, 48 + a2, 48 + a3, 48 + a4], [], [], [], [], [], [], [], false, [], false⟩ : ScanState) := by
    intro i; simp [scanStep, addIf, initScanState, toUpperR, isSpaceR, isDigitR, emptySection, yearSection, monthSection, daySection, hourSection, minuteSection, secondSection, subsecondSection, zoneSection, afterSection, yearMax, monthMax, dayMax, hourMax, minuteMax, secondMax, subsecondMax, zoneMax]
  have s6 : ∀ i : Nat, scanStep (⟨monthSection, [48 + a1, 48 + a2, 48 + a3, 48 + a4], [], [], [], [], [], [], [], false, [], false⟩ : ScanState) (48 + b1) i = (⟨monthSection, [48 + a1, 48 + a2, 48 + a3, 48 + a4], [48 + b1], [], [], [], [], [], [], false, [], false⟩ : ScanState) := by
    intro i; simp [scanStep, addIf, initScanState, dgb1, emptySection, yearSection, monthSection, daySection, hourSection, minuteSection, secondSection, subsecondSection, zoneSection, afterSection, yearMax, monthMax, dayMax, hourMax, minuteMax, secondMax, subsecondMax, zoneMax]
  have s7 : ∀ i : Nat, scanStep (⟨monthSection, [48 + a1, 48 + a2, 48 + a3, 48 + a4], [48 + b1], [], [], [], [], [], [], false, [], false⟩ : ScanState) (48 + b2) i = (⟨daySection, [48 + a1, 48 + a2, 48 + a3, 48 + a4], [48 + b1, 48 + b2], [], [], [], [], [], [], false, [], false⟩ : ScanState) := by
    intro i; simp [scanStep, addIf, initScanState, dgb2, emptySection, yearSection, monthSection, daySection, hourSection, minuteSection, secondSection, subsecondSection, zoneSection, afterSection, yearMax, monthMax, dayMax, hourMax, minuteMax, secondMax, subsecondMax, zoneMax]
  have s8 : ∀ i : Nat, scanStep (⟨daySection, [48 + a1, 48 + a2, 48 + a3, 48 + a4], [48 + b1, 48 + b2], [], [], [], [], [], [], false, [], false⟩ : ScanState) (45) i = (⟨daySection, [48 + a1, 48 + a2, 48 + a3, 48 + a4], [48 + b1, 48 + b2], [], [], [], [], [], [], false, [], false⟩ : ScanState) := by
    intro i; simp [scanStep, addIf, initScanState, toUpperR, isSpaceR, isDigitR, emptySection, yearSection, monthSection, daySection, hourSection, minuteSection, secondSection, subsecondSection, zoneSection, afterSection, yearMax, monthMax, dayMax, hourMax, minuteMax, secondMax, subsecondMax, zoneMax]
  have s9 : ∀ i : Nat, scanStep (⟨daySection, [48 + a1, 48 + a2, 48 + a3, 48 + a4], [48 + b1, 48 + b2], [], [], [], [], [], [], false, [], false⟩ : ScanState) (48 + c1) i = (⟨daySection, [48 + a1, 48 + a2, 48 + a3, 48 + a4], [48 + b1, 48 + b2], [48 + c1], [], [], [], [], [], false, [], false⟩ : ScanState) := by
    intro i; simp [scanStep, addIf, initScanState, dgc1, emptySection, yearSection, monthSection, daySection, hourSection, minuteSection, secondSection, subsecondSection, zoneSection, afterSection, yearMax, monthMax, dayMax, hourMax, minuteMax, secondMax, subsecondMax, zoneMax]
  have s10 : ∀ i : Nat, scanStep (⟨daySection, [48 + a1, 48 + a2, 48 + a3, 48 + a4], [48 + b1, 48 + b2], [48 + c1], [], [], [], [], [], false, [], false⟩ : ScanState) (48 + c2) i = (⟨hourSection, [48 + a1, 48 + a2, 48 + a3, 48 + a4], [48 + b1, 48 + b2], [48 + c1, 48 + c2], [], [], [], [], [], false, [], false⟩ : ScanState) := by
    intro i; simp [scanStep, addIf, initScanState, dgc2, emptySection, yearSection, monthSection, daySection, hourSection, minuteSection, secondSection, subsecondSection, zoneSection, afterSection, yearMax, monthMax, dayMax, hourMax, minuteMax, secondMax, subsecondMax, zoneMax]
  have s11 : ∀ i : Nat, scanStep (⟨hourSection, [48 + a1, 48 + a2, 48 + a3, 48 + a4], [48 + b1, 48 + b2], [48 + c1, 48 + c2], [], [], [], [], [], false, [], false⟩ : ScanState) (84) i = (⟨hourSection, [48 + a1, 48 + a2, 48 + a3, 48 + a4], [48 + b1, 48 + b2], [48 + c1, 48 + c2], [], [], [], [], [], false, [], false⟩ : ScanState) := by
    intro i; simp [scanStep, addIf, initScanState, toUpperR, isSpaceR, isDigitR, emptySection, yearSection, monthSection, daySection, hourSection, minuteSection, secondSection, subsecondSection, zoneSection, afterSection, yearMax, monthMax, dayMax, hourMax, minuteMax, secondMax, subsecondMax, zoneMax]
  have s12 : ∀ i : Nat, scanStep (⟨hourSection, [48 + a1, 48 + a2, 48 + a3, 48 + a4], [48 + b1, 48 + b2], [48 + c1, 48 + c2], [], [], [], [], [], false, [], false⟩ : ScanState) (48 + e1) i = (⟨hourSection, [48 + a1, 48 + a2, 48 + a3, 48 + a4], [48 + b1, 48 + b2], [48 + c1, 48 + c2], [48 + e1], [], [], [], [], false, [], false⟩ : ScanState) := by
    intro i; simp [scanStep, addIf, initScanState, dge1, emptySection, yearSection, monthSection, daySection, hourSection, minuteSection, secondSection, subsecondSection, zoneSection, afterSection, yearMax, monthMax, dayMax, hourMax, minuteMax, secondMax, subsecondMax, zoneMax]
  have s13 : ∀ i : Nat, scanStep (⟨hourSection, [48 + a1, 48 + a2, 48 + a3, 48 + a4], [48 + b1, 48 + b2], [48 + c1, 48 + c2], [48 + e1], [], [], [], [], false, [], false⟩ : ScanState) (48 + e2) i = (⟨minuteSection, [48 + a1, 48 + a2, 48 + a3, 48 + a4], [48 + b1, 48 + b2], [48 + c1, 48 + c2], [48 + e1, 48 + e2], [], [], [], [], false, [], false⟩ : ScanState) := by
    intro i; simp [scanStep, addIf, initScanState, dge2, emptySection, yearSection, monthSection, daySection, hourSection, minuteSection, secondSection, subsecondSection, zoneSection, afterSection, yearMax, monthMax, dayMax, hourMax, minuteMax, secondMax, subsecondMax, zoneMax]
  have s14 : ∀ i : Nat, scanStep (⟨minuteSection, [48 + a1, 48 + a2, 48 + a3, 48 + a4], [48 + b1, 48 + b2], [48 + c1, 48 + c2], [48 + e1, 48 + e2], [], [], [], [], false, [], false⟩ : ScanState) (58) i = (⟨minuteSection, [48 + a1, 48 + a2, 48 + a3, 48 + a4], [48 + b1, 48 + b2], [48 + c1, 48 + c2], [48 + e1, 48 + e2], [], [], [], [], false, [], false⟩ : ScanState) := by
    intro i; simp [scanStep, addIf, initScanState, toUpperR, isSpaceR, isDigitR, emptySection, yearSection, monthSection, daySection, hourSection, minuteSection, secondSection, subsecondSection, zoneSection, afterSection, yearMax, monthMax, dayMax, hourMax, minuteMax, secondMax, subsecondMax, zoneMax]
  have s15 : ∀ i : Nat, scanStep (⟨minuteSection, [48 + a1, 48 + a2, 48 + a3, 48 + a4], [48 + b1, 48 + b2], [48 + c1, 48 + c2], [48 + e1, 48 + e2], [], [], [], [], false, [], false⟩ : ScanState) (48 + f1) i = (⟨minuteSection, [48 + a1, 48 + a2, 48 + a3, 48 + a4], [48 + b1, 48 + b2], [48 + c1, 48 + c2], [48 + e1, 48 + e2], [48 + f1], [], [], [], false, [], false⟩ : ScanState) := by
    intro i; simp [scanStep, addIf, initScanState, dgf1, emptySection, yearSection, monthSection, daySection, hourSection, minuteSection, secondSection, subsecondSection, zoneSection, afterSection, yearMax, monthMax, dayMax, hourMax, minuteMax, secondMax, subsecondMax, zoneMax]
  have s16 : ∀ i : Nat, scanStep (⟨minuteSection, [48 + a1, 48 + a2, 48 + a3, 48 + a4], [48 + b1, 48 + b2], [48 + c1, 48 + c2], [48 + e1, 48 + e2], [48 + f1], [], [], [], false, [], false⟩ : ScanState) (48 + f2) i = (⟨secondSection, [48 + a1, 48 + a2, 48 + a3, 48 + a4], [48 + b1, 48 + b2], [48 + c1, 48 + c2], [48 + e1, 48 + e2], [48 + f1, 48 + f2], [], [], [], false, [], false⟩ : ScanState) := by
    intro i; simp [scanStep, addIf, initScanState, dgf2, emptySection, yearSection, monthSection, daySection, hourSection, minuteSection, secondSection, subsecondSection, zoneSection, afterSection, yearMax, monthMax, dayMax, hourMax, minuteMax, secondMax, subsecondMax, zoneMax]
  have s17 : ∀ i : Nat, scanStep (⟨secondSection, [48 + a1, 48 + a2, 48 + a3, 48 + a4], [48 + b1, 48 + b2], [48 + c1, 48 + c2], [48 + e1, 48 + e2], [48 + f1, 48 + f2], [], [], [], false, [], false⟩ : ScanState) (58) i = (⟨secondSection, [48 + a1, 48 + a2, 48 + a3, 48 + a4], [48 + b1, 48 + b2], [48 + c1, 48 + c2], [48 + e1, 48 + e2], [48 + f1, 48 + f2], [], [], [], false, [], false⟩ : ScanState) := by
    intro i; simp [scanStep, addIf, initScanState, toUpperR, isSpaceR, isDigitR, emptySection, yearSection, monthSection, daySection, hourSection, minuteSection, secondSection, subsecondSection, zoneSection, afterSection, yearMax, monthMax, dayMax, hourMax, minuteMax, secondMax, subsecondMax, zoneMax]
  have s18 : ∀ i : Nat, scanStep (⟨secondSection, [48 + a1, 48 + a2, 48 + a3, 48 + a4], [48 + b1, 48 + b2], [48 + c1, 48 + c2], [48 + e1, 48 + e2], [48 + f1, 48 + f2], [], [], [], false, [], false⟩ : ScanState) (48 + g1) i = (⟨secondSection, [48 + a1, 48 + a2, 48 + a3, 48 + a4], [48 + b1, 48 + b2], [48 + c1, 48 + c2], [48 + e1, 48 + e2], [48 + f1, 48 + f2], [48 + g1], [], [], false, [], false⟩ : ScanState) := by
    intro i; simp [scanStep, addIf, initScanState, dgg1, emptySection, yearSection, monthSection, daySection, hourSection, minuteSection, secondSection, subsecondSection, zoneSection, afterSection, yearMax, monthMax, dayMax, hourMax, minuteMax, secondMax, subsecondMax, zoneMax]
  have s19 : ∀ i : Nat, scanStep (⟨secondSection, [48 + a1, 48 + a2, 48 + a3, 48 + a4], [48 + b1, 48 + b2], [48 + c1, 48 + c2], [48 + e1, 48 + e2], [48 + f1, 48 + f2], [48 + g1], [], [], false, [], false⟩ : ScanState) (48 + g2) i = (⟨subsecondSection, [48 + a1, 48 + a2, 48 + a3, 48 + a4], [48 + b1, 48 + b2], [48 + c1, 48 + c2], [48 + e1, 48 + e2], [48 + f1, 48 + f2], [48 + g1, 48 + g2], [], [], false, [], false⟩ : ScanState) := by
    intro i; simp [scanStep, addIf, initScanState, dgg2, emptySection, yearSection, monthSection, daySection, hourSection, minuteSection, secondSection, subsecondSection, zoneSection, afterSection, yearMax, monthMax, dayMax, hourMax, minuteMax, secondMax, subsecondMax, zoneMax]
  have s20 : ∀ i : Nat, scanStep (⟨subsecondSection, [48 + a1, 48 + a2, 48 + a3, 48 + a4], [48 + b1, 48 + b2], [48 + c1, 48 + c2], [48 + e1, 48 + e2], [48 + f1, 48 + f2], [48 + g1, 48 + g2], [], [], false, [], false⟩ : ScanState) (46) i = (⟨subsecondSection, [48 + a1, 48 + a2, 48 + a3, 48 + a4], [48 + b1, 48 + b2], [48 + c1, 48 + c2], [48 + e1, 48 + e2], [48 + f1, 48 + f2], [48 + g1, 48 + g2], [], [], false, [], false⟩ : ScanState) := by
    intro i; simp [scanStep, addIf, initScanState, toUpperR, isSpaceR, isDigitR, emptySection, yearSection, monthSection, daySection, hourSection, minuteSection, secondSection, subsecondSection, zoneSection, afterSection, yearMax, monthMax, dayMax, hourMax, minuteMax, secondMax, subsecondMax, zoneMax]
  have s21 : ∀ i : Nat, scanStep (⟨subsecondSection, [48 + a1, 48 + a2, 48 + a3, 48 + a4], [48 + b1, 48 + b2], [48 + c1, 48 + c2], [48 + e1, 48 + e2], [48 + f1, 48 + f2], [48 + g1, 48 + g2], [], [], false, [], false⟩ : ScanState) (48 + u1) i = (⟨subsecondSection, [48 + a1, 48 + a2, 48 + a3, 48 + a4], [48 + b1, 48 + b2], [48 + c1, 48 + c2], [48 + e1, 48 + e2], [48 + f1, 48 + f2], [48 + g1, 48 + g2], [48 + u1], [], false, [], false⟩ : ScanState) := by
    intro i; simp [scanStep, addIf, initScanState, dgu1, emptySection, yearSection, monthSection, daySection, hourSection, minuteSection, secondSection, subsecondSection, zoneSection, afterSection, yearMax, monthMax, dayMax, hourMax, minuteMax, secondMax, subsecondMax, zoneMax]
  have s22 : ∀ i : Nat, scanStep (⟨subsecondSection, [48 + a1, 48 + a2, 48 + a3, 48 + a4], [48 + b1, 48 + b2], [48 + c1, 48 + c2], [48 + e1, 48 + e2], [48 + f1, 48 + f2], [48 + g1, 48 + g2], [48 + u1], [], false, [], false⟩ : ScanState) (48 + u2) i = (⟨subsecondSection, [48 + a1, 48 + a2, 48 + a3, 48 + a4], [48 + b1, 48 + b2], [48 + c1, 48 + c2], [48 + e1, 48 + e2], [48 + f1, 48 + f2], [48 + g1, 48 + g2], [48 + u1, 48 + u2], [], false, [], false⟩ : ScanState) := by
    intro i; simp [scanStep, addIf, initScanState, dgu2, emptySection, yearSection, monthSection, daySection, hourSection, minuteSection, secondSection, subsecondSection, zoneSection, afterSection, yearMax, monthMax, dayMax, hourMax, minuteMax, secondMax, subsecondMax, zoneMax]
  have s23 : ∀ i : Nat, scanStep (⟨subsecondSection, [48 + a1, 48 + a2, 48 + a3, 48 + a4], [48 + b1, 48 + b2], [48 + c1, 48 + c2], [48 + e1, 48 + e2], [48 + f1, 48 + f2], [48 + g1, 48 + g2], [48 + u1, 48 + u2], [], false, [], false⟩ : ScanState) (48 + u3) i = (⟨subsecondSection, [48 + a1, 48 + a2, 48 + a3, 48 + a4], [48 + b1, 48 + b2], [48 + c1, 48 + c2], [48 + e1, 48 + e2], [48 + f1, 48 + f2], [48 + g1, 48 + g2], [48 + u1, 48 + u2, 48 + u3], [], false, [], false⟩ : ScanState) := by
    intro i; simp [scanStep, addIf, initScanState, dgu3, emptySection, yearSection, monthSection, daySection, hourSection, minuteSection, secondSection, subsecondSection, zoneSection, afterSection, yearMax, monthMax, dayMax, hourMax, minuteMax, secondMax, subsecondMax, zoneMax]
  have s24 : ∀ i : Nat, scanStep (⟨subsecondSection, [48 + a1, 48 + a2, 48 + a3, 48 + a4], [48 + b1, 48 + b2], [48 + c1, 48 + c2], [48 + e1, 48 + e2], [48 + f1, 48 + f2], [48 + g1, 48 + g2], [48 + u1, 48 + u2, 48 + u3], [], false, [], false⟩ : ScanState) sg i = (⟨zoneSection, [48 + a1, 48 + a2, 48 + a3, 48 + a4], [48 + b1, 48 + b2], [48 + c1, 48 + c2], [48 + e1, 48 + e2], [48 + f1, 48 + f2], [48 + g1, 48 + g2], [48 + u1, 48 + u2, 48 + u3], [], decide (sg = 43), [], false⟩ : ScanState) := by
    intro i; rcases hsg with rfl | rfl <;>
      simp [scanStep, addIf, initScanState, toUpperR, isSpaceR, isDigitR, emptySection, yearSection, monthSection, daySection, hourSection, minuteSection, secondSection, subsecondSection, zoneSection, afterSection, yearMax, monthMax, dayMax, hourMax, minuteMax, secondMax, subsecondMax, zoneMax]
  have s25 : ∀ i : Nat, scanStep (⟨zoneSection, [48 + a1, 48 + a2, 48 + a3, 48 + a4], [48 + b1, 48 + b2], [48 + c1, 48 + c2], [48 + e1, 48 + e2], [48 + f1, 48 + f2], [48 + g1, 48 + g2], [48 + u1, 48 + u2, 48 + u3], [], decide (sg = 43), [], false⟩ : ScanState) (48 + p1) i = (⟨zoneSection, [48 + a1, 48 + a2, 48 + a3, 48 + a4], [48 + b1, 48 + b2], [48 + c1, 48 + c2], [48 + e1, 48 + e2], [48 + f1, 48 + f2], [48 + g1, 48 + g2], [48 + u1, 48 + u2, 48 + u3], [48 + p1], decide (sg = 43), [], false⟩ : ScanState) := by
    intro i; simp [scanStep, addIf, initScanState, dgp1, emptySection, yearSection, monthSection, daySection, hourSection, minuteSection, secondSection, subsecondSection, zoneSection, afterSection, yearMax, monthMax, dayMax, hourMax, minuteMax, secondMax, subsecondMax, zoneMax]
  have s26 : ∀ i : Nat, scanStep (⟨zoneSection, [48 + a1, 48 + a2, 48 + a3, 48 + a4], [48 + b1, 48 + b2], [48 + c1, 48 + c2], [48 + e1, 48 + e2], [48 + f1, 48 + f2], [48 + g1, 48 + g2], [48 + u1, 48 + u2, 48 + u3], [48 + p1], decide (sg = 43), [], false⟩ : ScanState) (48 + p2) i = (⟨zoneSection, [48 + a1, 48 + a2, 48 + a3, 48 + a4], [48 + b1, 48 + b2], [48 + c1, 48 + c2], [48 + e1, 48 + e2], [48 + f1, 48 + f2], [48 + g1, 48 + g2], [48 + u1, 48 + u2, 48 + u3], [48 + p1, 48 + p2], decide (sg = 43), [], false⟩ : ScanState) := by
    intro i; simp [scanStep, addIf, initScanState, dgp2, emptySection, yearSection, monthSection, daySection, hourSection, minuteSection, secondSection, subsecondSection, zoneSection, afterSection, yearMax, monthMax, dayMax, hourMax, minuteMax, secondMax, subsecondMax, zoneMax]
  have s27 : ∀ i : Nat, scanStep (⟨zoneSection, [48 + a1, 48 + a2, 48 + a3, 48 + a4], [48 + b1, 48 + b2], [48 + c1, 48 + c2], [48 + e1, 48 + e2], [48 + f1, 48 + f2], [48 + g1, 48 + g2], [48 + u1, 48 + u2, 48 + u3], [48 + p1, 48 + p2], decide (sg = 43), [], false⟩ : ScanState) (58) i = (⟨zoneSection, [48 + a1, 48 + a2, 48 + a3, 48 + a4], [48 + b1, 48 + b2], [48 + c1, 48 + c2], [48 + e1, 48 + e2], [48 + f1, 48 + f2], [48 + g1, 48 + g2], [48 + u1, 48 + u2, 48 + u3], [48 + p1, 48 + p2], decide (sg = 43), [], false⟩ : ScanState) := by
    intro i; simp [scanStep, addIf, initScanState, toUpperR, isSpaceR, isDigitR, emptySection, yearSection, monthSection, daySection, hourSection, minuteSection, secondSection, subsecondSection, zoneSection, afterSection, yearMax, monthMax, dayMax, hourMax, minuteMax, secondMax, subsecondMax, zoneMax]
  have s28 : ∀ i : Nat, scanStep (⟨zoneSection, [48 + a1, 48 + a2, 48 + a3, 48 + a4], [48 + b1, 48 + b2], [48 + c1, 48 + c2], [48 + e1, 48 + e2], [48 + f1, 48 + f2], [48 + g1, 48 + g2], [48 + u1, 48 + u2, 48 + u3], [48 + p1, 48 + p2], decide (sg = 43), [], false⟩ : ScanState) (48 + q1) i = (⟨zoneSection, [48 + a1, 48 + a2, 48 + a3, 48 + a4], [48 + b1, 48 + b2], [48 + c1, 48 + c2], [48 + e1, 48 + e2], [48 + f1, 48 + f2], [48 + g1, 48 + g2], [48 + u1, 48 + u2, 48 + u3], [48 + p1, 48 + p2, 48 + q1], decide (sg = 43), [], false⟩ : ScanState) := by
    intro i; simp [scanStep, addIf, initScanState, dgq1, emptySection, yearSection, monthSection, daySection, hourSection, minuteSection, secondSection, subsecondSection, zoneSection, afterSection, yearMax, monthMax, dayMax, hourMax, minuteMax, secondMax, subsecondMax, zoneMax]
  have s29 : ∀ i : Nat, scanStep (⟨zoneSection, [48 + a1, 48 + a2, 48 + a3, 48 + a4], [48 + b1, 48 + b2], [48 + c1, 48 + c2], [48 + e1, 48 + e2], [48 + f1, 48 + f2], [48 + g1, 48 + g2], [48 + u1, 48 + u2, 48 + u3], [48 + p1, 48 + p2, 48 + q1], decide (sg = 43), [], false⟩ : ScanState) (48 + q2) i = (⟨afterSection, [48 + a1, 48 + a2, 48 + a3, 48 + a4], [48 + b1, 48 + b2], [48 + c1, 48 + c2], [48 + e1, 48 + e2], [48 + f1, 48 + f2], [48 + g1, 48 + g2], [48 + u1, 48 + u2, 48 + u3], [48 + p1, 48 + p2, 48 + q1, 48 + q2], decide (sg = 43), [], false⟩ : ScanState) := by
    intro i; simp [scanStep, addIf, initScanState, dgq2, emptySection, yearSection, monthSection, daySection, hourSection, minuteSection, secondSection, subsecondSection, zoneSection, afterSection, yearMax, monthMax, dayMax, hourMax, minuteMax, secondMax, subsecondMax, zoneMax]
  simp only [scanRunes_cons, s1, s2, s3, s4, s5, s6, s7, s8, s9, s10, s11, s12, s13, s14, s15, s16, s17, s18, s19, s20, s21, s22, s23, s24, s25, s26, s27, s28, s29, Bool.false_eq_true, if_false, hnil]

theorem digitVal2L (x y : Nat) : digitVal [48 + x, 48 + y] = x * 10 + y := by
  simp [digitVal]

theorem digitVal3L (x y z : Nat) : digitVal [48 + x, 48 + y, 48 + z] =
    x * 100 + y * 10 + z := by
  simp [digitVal]
  ring

theorem digitVal4L (x y z w : Nat) : digitVal [48 + x, 48 + y, 48 + z, 48 + w] =
    x * 1000 + y * 100 + z * 10 + w := by
  simp [digitVal]
  ring

theorem dropWhile_eq_self_head (p : Nat → Bool) (l : List Nat)
    (h : ∀ r ∈ l.head?, p r = false) : l.dropWhile p = l := by
  cases l with
  | nil => rfl
  | cons x xs =>
    have hx : p x = false := h x rfl
    simp [List.dropWhile, hx]

theorem trimSpace_eq_self (l : List Nat)
    (h1 : ∀ r ∈ l.head?, isSpaceR r = false)
    (h2 : ∀ r ∈ l.getLast?, isSpaceR r = false) : trimSpace l = l := by
  unfold trimSpace
  rw [dropWhile_eq_self_head _ l h1,
    dropWhile_eq_self_head _ l.reverse (by simpa [List.head?_reverse] using h2),
    List.reverse_reverse]

theorem reDigitsMatch_false_mem (l : List Nat) (r : Nat) (hr : r ∈ l)
    (h1 : isDigitR r = false) (h2 : r ≠ 46) : reDigitsMatch l = false := by
  unfold reDigitsMatch
  have hall : l.all (fun r => isDigitR r || r == 46) = false := by
    rw [List.all_eq_false]
    exact ⟨r, hr, by simp [h1, h2]⟩
  simp [hall]

theorem parseISO_from_scan (rs : List Nat) (loc : Location) (st : ScanState)
    (hscan : scanRunes initScanState rs 0 = st) (hlen : rs.length ≤ 35)
    (hunp : st.unparsed = []) :
    parseISOTimestamp rs loc = resolveScan st loc := by
  unfold parseISOTimestamp
  rw [if_neg (by omega), hscan, if_neg (by simp [hunp])]

theorem ParseInUTC_iso_ok (rs : List Nat) (t2 : GoTime)
    (htrim : trimSpace rs = rs) (hre : reDigitsMatch rs = false)
    (hiso : parseISOTimestamp rs utc = .ok t2) :
    ParseInUTC noFallback rs = .ok t2 := by
  unfold ParseInUTC parseTimestampT
  simp only [htrim, hre, Bool.false_and, hiso, if_true, reduceIte]

theorem digits2_mem (x y : Nat) (hx : x ≤ 9) (hy : y ≤ 9) :
    ∀ r ∈ [48 + x, 48 + y], isDigitR r = true := by
  intro r hr
  rcases hr with _ | ⟨_, _ | ⟨_, h⟩⟩
  · exact isDigitR_48add x hx
  · exact isDigitR_48add y hy
  · cases h

theorem digits4_mem (x y z w : Nat) (hx : x ≤ 9) (hy : y ≤ 9) (hz : z ≤ 9) (hw : w ≤ 9) :
    ∀ r ∈ [48 + x, 48 + y, 48 + z, 48 + w], isDigitR r = true := by
  intro r hr
  rcases hr with _ | ⟨_, _ | ⟨_, _ | ⟨_, _ | ⟨_, h⟩⟩⟩⟩
  · exact isDigitR_48add x hx
  · exact isDigitR_48add y hy
  · exact isDigitR_48add z hz
  · exact isDigitR_48add w hw
  · cases h

theorem resolveScan_format_state (y m d h mn s ns oh om : Nat) (sub : List Nat)
    (sg : Nat) (off : Int)
    (hy1 : 1000 ≤ y) (hy2 : y ≤ 9999) (hm2 : m ≤ 99) (hd2 : d ≤ 99) (hh2 : h ≤ 99)
    (hmn2 : mn ≤ 99) (hs2 : s ≤ 99) (hoh : oh ≤ 99)
    (hom : om = 0 ∨ om = 15 ∨ om = 30 ∨ om = 45)
    (habs : off.natAbs = oh * 3600 + om * 60)
    (hsg : sg = if off < 0 then 45 else 43)
    (hsub : subsecondVal sub = ns) (hsubd : ∀ r ∈ sub, isDigitR r = true) :
    ∃ t2 : GoTime,
      resolveScan ⟨afterSection,
        [48 + y / 1000, 48 + y / 100 % 10, 48 + y / 10 % 10, 48 + y % 10],
        [48 + m / 10, 48 + m % 10], [48 + d / 10, 48 + d % 10],
        [48 + h / 10, 48 + h % 10], [48 + mn / 10, 48 + mn % 10],
        [48 + s / 10, 48 + s % 10], sub,
        [48 + oh / 10, 48 + oh % 10, 48 + om / 10, 48 + om % 10],
        decide (sg = 43), [], false⟩ utc = .ok t2 ∧
      t2.nanos = (daysFromCivil y m d * 86400 + h * 3600 + mn * 60 + s - off) *
        1000000000 + ns ∧
      t2.loc.offset = off := by
  have hfl : fullLengths ⟨afterSection,
      [48 + y / 1000, 48 + y / 100 % 10, 48 + y / 10 % 10, 48 + y % 10],
      [48 + m / 10, 48 + m % 10], [48 + d / 10, 48 + d % 10],
      [48 + h / 10, 48 + h % 10], [48 + mn / 10, 48 + mn % 10],
      [48 + s / 10, 48 + s % 10], sub,
      [48 + oh / 10, 48 + oh % 10, 48 + om / 10, 48 + om % 10],
      decide (sg = 43), [], false⟩ := by
    refine ⟨by simp, by simp, by simp, by simp, by simp, by simp⟩
  have hdig : digitParts ⟨afterSection,
      [48 + y / 1000, 48 + y / 100 % 10, 48 + y / 10 % 10, 48 + y % 10],
      [48 + m / 10, 48 + m % 10], [48 + d / 10, 48 + d % 10],
      [48 + h / 10, 48 + h % 10], [48 + mn / 10, 48 + mn % 10],
      [48 + s / 10, 48 + s % 10], sub,
      [48 + oh / 10, 48 + oh % 10, 48 + om / 10, 48 + om % 10],
      decide (sg = 43), [], false⟩ := by
    exact ⟨digits4_mem _ _ _ _ (by omega) (by omega) (by omega) (by omega),
      digits2_mem _ _ (by omega) (by omega), digits2_mem _ _ (by omega) (by omega),
      digits2_mem _ _ (by omega) (by omega), digits2_mem _ _ (by omega) (by omega),
      digits2_mem _ _ (by omega) (by omega), hsubd,
      digits4_mem _ _ _ _ (by omega) (by omega) (by omega) (by omega)⟩
  have hyv : digitVal [48 + y / 1000, 48 + y / 100 % 10, 48 + y / 10 % 10, 48 + y % 10]
      = y := by rw [digitVal4L]; omega
  have hmv : digitVal [48 + m / 10, 48 + m % 10] = m := by rw [digitVal2L]; omega
  have hdv : digitVal [48 + d / 10, 48 + d % 10] = d := by rw [digitVal2L]; omega
  have hhv : digitVal [48 + h / 10, 48 + h % 10] = h := by rw [digitVal2L]; omega
  have hmnv : digitVal [48 + mn / 10, 48 + mn % 10] = mn := by rw [digitVal2L]; omega
  have hsv : digitVal [48 + s / 10, 48 + s % 10] = s := by rw [digitVal2L]; omega
  by_cases hzero : oh = 0 ∧ om = 0
  · obtain ⟨rfl, rfl⟩ := hzero
    have hoff : off = 0 := by omega
    refine ⟨_, resolveScan_zoneZero _ utc hfl hdig (Or.inr (by simp))
      (by norm_num [isZeroPart]), ?_, ?_⟩
    · simp only [timeDate, hyv, hmv, hdv, hhv, hmnv, hsv, hsub, hoff]
      norm_num [utc]
    · simp only [timeDate, hoff]
      norm_num [utc]
  · have hnz : isZeroPart [48 + oh / 10, 48 + oh % 10, 48 + om / 10, 48 + om % 10]
        = false := by
      rw [Bool.eq_false_iff]
      intro hall
      simp only [isZeroPart, List.all_cons, List.all_nil, Bool.and_true,
        Bool.and_eq_true, beq_iff_eq] at hall
      exact hzero ⟨by omega, by omega⟩
    have hres := resolveScan_zoneM _ utc hfl hdig (Or.inr (by simp)) hnz
    have hzp : zonePadded ⟨afterSection,
        [48 + y / 1000, 48 + y / 100 % 10, 48 + y / 10 % 10, 48 + y % 10],
        [48 + m / 10, 48 + m % 10], [48 + d / 10, 48 + d % 10],
        [48 + h / 10, 48 + h % 10], [48 + mn / 10, 48 + mn % 10],
        [48 + s / 10, 48 + s % 10], sub,
        [48 + oh / 10, 48 + oh % 10, 48 + om / 10, 48 + om % 10],
        decide (sg = 43), [], false⟩ =
        [48 + oh / 10, 48 + oh % 10, 48 + om / 10, 48 + om % 10] := by
      simp [zonePadded]
    have hzm : zoneMinutes ⟨afterSection,
        [48 + y / 1000, 48 + y / 100 % 10, 48 + y / 10 % 10, 48 + y % 10],
        [48 + m / 10, 48 + m % 10], [48 + d / 10, 48 + d % 10],
        [48 + h / 10, 48 + h % 10], [48 + mn / 10, 48 + mn % 10],
        [48 + s / 10, 48 + s % 10], sub,
        [48 + oh / 10, 48 + oh % 10, 48 + om / 10, 48 + om % 10],
        decide (sg = 43), [], false⟩ = om := by
      unfold zoneMinutes
      rw [hzp]
      simp only [List.drop]
      rw [digitVal2L]
      omega
    have hzo : zoneOffsetSec ⟨afterSection,
        [48 + y / 1000, 48 + y / 100 % 10, 48 + y / 10 % 10, 48 + y % 10],
        [48 + m / 10, 48 + m % 10], [48 + d / 10, 48 + d % 10],
        [48 + h / 10, 48 + h % 10], [48 + mn / 10, 48 + mn % 10],
        [48 + s / 10, 48 + s % 10], sub,
        [48 + oh / 10, 48 + oh % 10, 48 + om / 10, 48 + om % 10],
        decide (sg = 43), [], false⟩ = off := by
      unfold zoneOffsetSec
      rw [hzm, hzp]
      simp only [List.take, digitVal2L]
      have htk : (oh / 10) * 10 + oh % 10 = oh := by omega
      rw [htk]
      by_cases hneg : off < 0
      · rw [if_pos hneg] at hsg
        subst hsg
        norm_num
        omega
      · rw [if_neg hneg] at hsg
        subst hsg
        norm_num
        omega
    rw [hzm] at hres
    rw [if_pos hom] at hres
    refine ⟨_, hres, ?_, ?_⟩
    · simp only [timeDate, hyv, hmv, hdv, hhv, hmnv, hsv, hsub, hzo, FixedZone]
    · simp only [timeDate, FixedZone, hzo]

theorem iso8601Compact_expand (nm : String) (y m d h mn s oh om : Nat) (off : Int)
    (hy1 : 1000 ≤ y) (hy2 : y ≤ 9999) (hm2 : m ≤ 99) (hd2 : d ≤ 99) (hh : h ≤ 23)
    (hmn : mn ≤ 59) (hs : s ≤ 59) (hoh : oh ≤ 99) (hom : om ≤ 59)
    (habs : off.natAbs = oh * 3600 + om * 60)
    (hnorm : civilFromDays (daysFromCivil (y : Int) (m : Int) (d : Int)) =
      ((y : Int), (m : Int), (d : Int))) :
    iso8601Compact (timeDate y m d h mn s 0 (FixedZone nm off)) =
      [48 + y / 1000, 48 + y / 100 % 10, 48 + y / 10 % 10, 48 + y % 10,
       48 + m / 10, 48 + m % 10, 48 + d / 10, 48 + d % 10, 84,
       48 + h / 10, 48 + h % 10, 48 + mn / 10, 48 + mn % 10, 48 + s / 10, 48 + s % 10,
       (if off < 0 then 45 else 43),
       48 + oh / 10, 48 + oh % 10, 48 + om / 10, 48 + om % 10] := by
  unfold iso8601Compact
  dsimp only
  rw [dateFieldsOf_timeDate y m d h mn s 0 _ hh hmn hs (by norm_num) (by norm_num) hnorm]
  dsimp only
  rw [show (timeDate y m d h mn s 0 (FixedZone nm off)).loc.offset = off from rfl]
  rw [appendIntW4_nat y hy1 hy2, appendIntW2_nat m hm2, appendIntW2_nat d hd2,
    appendIntW2_nat h (by omega), appendIntW2_nat mn (by omega),
    appendIntW2_nat s (by omega), formatZoneHM_eq false off oh om habs hoh (by omega)]
  simp

theorem iso8601Ext_expand (nm : String) (y m d h mn s oh om : Nat) (off : Int)
    (hy1 : 1000 ≤ y) (hy2 : y ≤ 9999) (hm2 : m ≤ 99) (hd2 : d ≤ 99) (hh : h ≤ 23)
    (hmn : mn ≤ 59) (hs : s ≤ 59) (hoh : oh ≤ 99) (hom : om ≤ 59)
    (habs : off.natAbs = oh * 3600 + om * 60)
    (hnorm : civilFromDays (daysFromCivil (y : Int) (m : Int) (d : Int)) =
      ((y : Int), (m : Int), (d : Int))) :
    iso8601Ext (timeDate y m d h mn s 0 (FixedZone nm off)) =
      [48 + y / 1000, 48 + y / 100 % 10, 48 + y / 10 % 10, 48 + y % 10, 45,
       48 + m / 10, 48 + m % 10, 45, 48 + d / 10, 48 + d % 10, 84,
       48 + h / 10, 48 + h % 10, 58, 48 + mn / 10, 48 + mn % 10, 58,
       48 + s / 10, 48 + s % 10,
       (if off < 0 then 45 else 43),
       48 + oh / 10, 48 + oh % 10, 58, 48 + om / 10, 48 + om % 10] := by
  unfold iso8601Ext
  dsimp only
  rw [dateFieldsOf_timeDate y m d h mn s 0 _ hh hmn hs (by norm_num) (by norm_num) hnorm]
  dsimp only
  rw [show (timeDate y m d h mn s 0 (FixedZone nm off)).loc.offset = off from rfl]
  rw [appendIntW4_nat y hy1 hy2, appendIntW2_nat m hm2, appendIntW2_nat d hd2,
    appendIntW2_nat h (by omega), appendIntW2_nat mn (by omega),
    appendIntW2_nat s (by omega), formatZoneHM_eq true off oh om habs hoh (by omega)]
  simp

theorem iso8601CompactMsec_expand (nm : String) (y m d h mn s ms oh om : Nat) (off : Int)
    (hy1 : 1000 ≤ y) (hy2 : y ≤ 9999) (hm2 : m ≤ 99) (hd2 : d ≤ 99) (hh : h ≤ 23)
    (hmn : mn ≤ 59) (hs : s ≤ 59) (hms : ms ≤ 999) (hoh : oh ≤ 99) (hom : om ≤ 59)
    (habs : off.natAbs = oh * 3600 + om * 60)
    (hnorm : civilFromDays (daysFromCivil (y : Int) (m : Int) (d : Int)) =
      ((y : Int), (m : Int), (d : Int))) :
    iso8601CompactMsec (timeDate y m d h mn s (ms * 1000000) (FixedZone nm off)) =
      [48 + y / 1000, 48 + y / 100 % 10, 48 + y / 10 % 10, 48 + y % 10,
       48 + m / 10, 48 + m % 10, 48 + d / 10, 48 + d % 10, 84,
       48 + h / 10, 48 + h % 10, 48 + mn / 10, 48 + mn % 10, 48 + s / 10, 48 + s % 10,
       46, 48 + ms / 100, 48 + ms / 10 % 10, 48 + ms % 10,
       (if off < 0 then 45 else 43),
       48 + oh / 10, 48 + oh % 10, 48 + om / 10, 48 + om % 10] := by
  unfold iso8601CompactMsec
  dsimp only
  rw [dateFieldsOf_timeDate y m d h mn s (ms * 1000000) _ hh hmn hs
    (by positivity) (by exact_mod_cast Nat.le_of_lt_succ (by omega)) hnorm]
  dsimp only
  rw [show (timeDate y m d h mn s (ms * 1000000) (FixedZone nm off)).loc.offset = off from rfl]
  have hdiv : ((ms : Int) * 1000000) / 1000000 = (ms : Int) := by omega
  rw [hdiv, appendIntW4_nat y hy1 hy2, appendIntW2_nat m hm2, appendIntW2_nat d hd2,
    appendIntW2_nat h (by omega), appendIntW2_nat mn (by omega),
    appendIntW2_nat s (by omega), appendIntW3_nat ms hms,
    formatZoneHM_eq false off oh om habs hoh (by omega)]
  simp

theorem iso8601ExtMsec_expand (nm : String) (y m d h mn s ms oh om : Nat) (off : Int)
    (hy1 : 1000 ≤ y) (hy2 : y ≤ 9999) (hm2 : m ≤ 99) (hd2 : d ≤ 99) (hh : h ≤ 23)
    (hmn : mn ≤ 59) (hs : s ≤ 59) (hms : ms ≤ 999) (hoh : oh ≤ 99) (hom : om ≤ 59)
    (habs : off.natAbs = oh * 3600 + om * 60)
    (hnorm : civilFromDays (daysFromCivil (y : Int) (m : Int) (d : Int)) =
      ((y : Int), (m : Int), (d : Int))) :
    iso8601ExtMsec (timeDate y m d h mn s (ms * 1000000) (FixedZone nm off)) =
      [48 + y / 1000, 48 + y / 100 % 10, 48 + y / 10 % 10, 48 + y % 10, 45,
       48 + m / 10, 48 + m % 10, 45, 48 + d / 10, 48 + d % 10, 84,
       48 + h / 10, 48 + h % 10, 58, 48 + mn / 10, 48 + mn % 10, 58,
       48 + s / 10, 48 + s % 10,
       46, 48 + ms / 100, 48 + ms / 10 % 10, 48 + ms % 10,
       (if off < 0 then 45 else 43),
       48 + oh / 10, 48 + oh % 10, 58, 48 + om / 10, 48 + om % 10] := by
  unfold iso8601ExtMsec
  dsimp only
  rw [dateFieldsOf_timeDate y m d h mn s (ms * 1000000) _ hh hmn hs
    (by positivity) (by exact_mod_cast Nat.le_of_lt_succ (by omega)) hnorm]
  dsimp only
  rw [show (timeDate y m d h mn s (ms * 1000000) (FixedZone nm off)).loc.offset = off from rfl]
  have hdiv : ((ms : Int) * 1000000) / 1000000 = (ms : Int) := by omega
  rw [hdiv, appendIntW4_nat y hy1 hy2, appendIntW2_nat m hm2, appendIntW2_nat d hd2,
    appendIntW2_nat h (by omega), appendIntW2_nat mn (by omega),
    appendIntW2_nat s (by omega), appendIntW3_nat ms hms,
    formatZoneHM_eq true off oh om habs hoh (by omega)]
  simp

theorem isSpaceR_48add (k : Nat) (hk : k ≤ 9) : isSpaceR (48 + k) = false := by
  simp [isSpaceR]
  omega

theorem trimSpace_digit_ends (l : List Nat) (x z : Nat) (hx : x ≤ 9) (hz : z ≤ 9)
    (hhead : l.head? = some (48 + x)) (hlast : l.getLast? = some (48 + z)) :
    trimSpace l = l := by
  refine trimSpace_eq_self l ?_ ?_
  · intro r hr
    rw [hhead] at hr
    obtain rfl : 48 + x = r := by simpa using hr
    exact isSpaceR_48add x hx
  · intro r hr
    rw [hlast] at hr
    obtain rfl : 48 + z = r := by simpa using hr
    exact isSpaceR_48add z hz

theorem digits3_mem (x y z : Nat) (hx : x ≤ 9) (hy : y ≤ 9) (hz : z ≤ 9) :
    ∀ r ∈ [48 + x, 48 + y, 48 + z], isDigitR r = true := by
  intro r hr
  rcases hr with _ | ⟨_, _ | ⟨_, _ | ⟨_, h⟩⟩⟩
  · exact isDigitR_48add x hx
  · exact isDigitR_48add y hy
  · exact isDigitR_48add z hz
  · cases h

/-- C8 (amended): round-tripping holds for the four ISO formats on instants
with a representable fraction (zero for the second-precision formats, whole
milliseconds for the Msec formats) built from normalized civil fields with a
quarter-hour offset: re-parsing the formatted string through `ParseInUTC`
reproduces the same absolute instant and the same offset.  (The fifth format,
RFC7232, re-parses through the external fallback formats, and instants with
other fractions lose precision: see the counterexample.) -/
theorem C8_theorem (nm : String) (y m d h mn s ms oh om : Nat) (off : Int)
    (hy1 : 1000 ≤ y) (hy2 : y ≤ 9999) (hm1 : 1 ≤ m) (hm2 : m ≤ 12)
    (hd1 : 1 ≤ d) (hd2 : d ≤ 31) (hh : h ≤ 23) (hmn : mn ≤ 59) (hs : s ≤ 59)
    (hms : ms ≤ 999) (hoh : oh ≤ 99) (hom : om = 0 ∨ om = 15 ∨ om = 30 ∨ om = 45)
    (habs : off.natAbs = oh * 3600 + om * 60)
    (hnorm : civilFromDays (daysFromCivil (y : Int) (m : Int) (d : Int)) =
      ((y : Int), (m : Int), (d : Int))) :
    (∃ t2 : GoTime,
      ParseInUTC noFallback (iso8601Compact (timeDate y m d h mn s 0 (FixedZone nm off)))
        = .ok t2 ∧
      t2.nanos = (timeDate y m d h mn s 0 (FixedZone nm off)).nanos ∧
      t2.loc.offset = (FixedZone nm off).offset) ∧
    (∃ t2 : GoTime,
      ParseInUTC noFallback (iso8601Ext (timeDate y m d h mn s 0 (FixedZone nm off)))
        = .ok t2 ∧
      t2.nanos = (timeDate y m d h mn s 0 (FixedZone nm off)).nanos ∧
      t2.loc.offset = (FixedZone nm off).offset) ∧
    (∃ t2 : GoTime,
      ParseInUTC noFallback (iso8601CompactMsec
        (timeDate y m d h mn s (ms * 1000000) (FixedZone nm off))) = .ok t2 ∧
      t2.nanos = (timeDate y m d h mn s (ms * 1000000) (FixedZone nm off)).nanos ∧
      t2.loc.offset = (FixedZone nm off).offset) ∧
    (∃ t2 : GoTime,
      ParseInUTC noFallback (iso8601ExtMsec
        (timeDate y m d h mn s (ms * 1000000) (FixedZone nm off))) = .ok t2 ∧
      t2.nanos = (timeDate y m d h mn s (ms * 1000000) (FixedZone nm off)).nanos ∧
      t2.loc.offset = (FixedZone nm off).offset) := by
  have hsgor : (if off < 0 then 45 else 43) = 43 ∨ (if off < 0 then 45 else 43) = 45 := by
    by_cases hc : off < 0 <;> simp [hc]
  have hsubv : subsecondVal [48 + ms / 100, 48 + ms / 10 % 10, 48 + ms % 10]
      = ms * 1000000 := by
    simp only [subsecondVal, subsecondMax, List.length_cons, List.length_nil, digitVal3L]
    norm_num
    omega
  refine ⟨?_, ?_, ?_, ?_⟩
  · rw [iso8601Compact_expand nm y m d h mn s oh om off hy1 hy2 (by omega) (by omega)
      hh hmn hs hoh (by omega) habs hnorm]
    obtain ⟨t2, hres, hnan, hoffq⟩ := resolveScan_format_state y m d h mn s 0 oh om []
      (if off < 0 then 45 else 43) off hy1 hy2 (by omega) (by omega) (by omega) (by omega)
      (by omega) hoh hom habs rfl (by simp [subsecondVal, digitVal]) (by simp)
    refine ⟨t2, ParseInUTC_iso_ok _ t2
      (trimSpace_digit_ends _ (y / 1000) (om % 10) (by omega) (by omega) rfl rfl)
      (reDigitsMatch_false_mem _ 84 (by simp) (by decide) (by decide)) ?_, ?_, ?_⟩
    · rw [parseISO_from_scan _ utc _
        (scanRunes_compactL (y / 1000) (y / 100 % 10) (y / 10 % 10) (y % 10)
          (m / 10) (m % 10) (d / 10) (d % 10) (h / 10) (h % 10) (mn / 10) (mn % 10)
          (s / 10) (s % 10) (oh / 10) (oh % 10) (om / 10) (om % 10)
          (if off < 0 then 45 else 43)
          (by omega) (by omega) (by omega) (by omega) (by omega) (by omega) (by omega)
          (by omega) (by omega) (by omega) (by omega) (by omega) (by omega) (by omega)
          (by omega) (by omega) (by omega) (by omega) hsgor)
        (by simp) rfl]
      exact hres
    · rw [hnan]
      simp only [timeDate, FixedZone]
      push_cast
      ring
    · rw [hoffq]
      rfl
  · rw [iso8601Ext_expand nm y m d h mn s oh om off hy1 hy2 (by omega) (by omega)
      hh hmn hs hoh (by omega) habs hnorm]
    obtain ⟨t2, hres, hnan, hoffq⟩ := resolveScan_format_state y m d h mn s 0 oh om []
      (if off < 0 then 45 else 43) off hy1 hy2 (by omega) (by omega) (by omega) (by omega)
      (by omega) hoh hom habs rfl (by simp [subsecondVal, digitVal]) (by simp)
    refine ⟨t2, ParseInUTC_iso_ok _ t2
      (trimSpace_digit_ends _ (y / 1000) (om % 10) (by omega) (by omega) rfl rfl)
      (reDigitsMatch_false_mem _ 84 (by simp) (by decide) (by decide)) ?_, ?_, ?_⟩
    · rw [parseISO_from_scan _ utc _
        (scanRunes_extL (y / 1000) (y / 100 % 10) (y / 10 % 10) (y % 10)
          (m / 10) (m % 10) (d / 10) (d % 10) (h / 10) (h % 10) (mn / 10) (mn % 10)
          (s / 10) (s % 10) (oh / 10) (oh % 10) (om / 10) (om % 10)
          (if off < 0 then 45 else 43)
          (by omega) (by omega) (by omega) (by omega) (by omega) (by omega) (by omega)
          (by omega) (by omega) (by omega) (by omega) (by omega) (by omega) (by omega)
          (by omega) (by omega) (by omega) (by omega) hsgor)
        (by simp) rfl]
      exact hres
    · rw [hnan]
      simp only [timeDate, FixedZone]
      push_cast
      ring
    · rw [hoffq]
      rfl
  · rw [iso8601CompactMsec_expand nm y m d h mn s ms oh om off hy1 hy2 (by omega)
      (by omega) hh hmn hs hms hoh (by omega) habs hnorm]
    obtain ⟨t2, hres, hnan, hoffq⟩ := resolveScan_format_state y m d h mn s
      (ms * 1000000) oh om [48 + ms / 100, 48 + ms / 10 % 10, 48 + ms % 10]
      (if off < 0 then 45 else 43) off hy1 hy2 (by omega) (by omega) (by omega) (by omega)
      (by omega) hoh hom habs rfl hsubv
      (digits3_mem _ _ _ (by omega) (by omega) (by omega))
    refine ⟨t2, ParseInUTC_iso_ok _ t2
      (trimSpace_digit_ends _ (y / 1000) (om % 10) (by omega) (by omega) rfl rfl)
      (reDigitsMatch_false_mem _ 84 (by simp) (by decide) (by decide)) ?_, ?_, ?_⟩
    · rw [parseISO_from_scan _ utc _
        (scanRunes_compactMsecL (y / 1000) (y / 100 % 10) (y / 10 % 10) (y % 10)
          (m / 10) (m % 10) (d / 10) (d % 10) (h / 10) (h % 10) (mn / 10) (mn % 10)
          (s / 10) (s % 10) (ms / 100) (ms / 10 % 10) (ms % 10)
          (oh / 10) (oh % 10) (om / 10) (om % 10)
          (if off < 0 then 45 else 43)
          (by omega) (by omega) (by omega) (by omega) (by omega) (by omega) (by omega)
          (by omega) (by omega) (by omega) (by omega) (by omega) (by omega) (by omega)
          (by omega) (by omega) (by omega) (by omega) (by omega) (by omega) (by omega)
          hsgor)
        (by simp) rfl]
      exact hres
    · rw [hnan]
      simp only [timeDate, FixedZone]
      push_cast
      ring
    · rw [hoffq]
      rfl
  · rw [iso8601ExtMsec_expand nm y m d h mn s ms oh om off hy1 hy2 (by omega)
      (by omega) hh hmn hs hms hoh (by omega) habs hnorm]
    obtain ⟨t2, hres, hnan, hoffq⟩ := resolveScan_format_state y m d h mn s
      (ms * 1000000) oh om [48 + ms / 100, 48 + ms / 10 % 10, 48 + ms % 10]
      (if off < 0 then 45 else 43) off hy1 hy2 (by omega) (by omega) (by omega) (by omega)
      (by omega) hoh hom habs rfl hsubv
      (digits3_mem _ _ _ (by omega) (by omega) (by omega))
    refine ⟨t2, ParseInUTC_iso_ok _ t2
      (trimSpace_digit_ends _ (y / 1000) (om % 10) (by omega) (by omega) rfl rfl)
      (reDigitsMatch_false_mem _ 84 (by simp) (by decide) (by decide)) ?_, ?_, ?_⟩
    · rw [parseISO_from_scan _ utc _
        (scanRunes_extMsecL (y / 1000) (y / 100 % 10) (y / 10 % 10) (y % 10)
          (m / 10) (m % 10) (d / 10) (d % 10) (h / 10) (h % 10) (mn / 10) (mn % 10)
          (s / 10) (s % 10) (ms / 100) (ms / 10 % 10) (ms % 10)
          (oh / 10) (oh % 10) (om / 10) (om % 10)
          (if off < 0 then 45 else 43)
          (by omega) (by omega) (by omega) (by omega) (by omega) (by omega) (by omega)
          (by omega) (by omega) (by omega) (by omega) (by omega) (by omega) (by omega)
          (by omega) (by omega) (by omega) (by omega) (by omega) (by omega) (by omega)
          hsgor)
        (by simp) rfl]
      exact hres
    · rw [hnan]
      simp only [timeDate, FixedZone]
      push_cast
      ring
    · rw [hoffq]
      rfl

/-- An instant carrying a sub-millisecond fraction does not round-trip:
ISO8601Compact drops the fraction, so re-parsing yields a different instant,
refuting the claim for arbitrary parsed instants. -/
theorem C8_counterexample :
    ParseInUTC noFallback (runesOf "20060102T150405.123456789Z") =
      .ok ⟨1136214245123456789, utc⟩ ∧
    iso8601Compact ⟨1136214245123456789, utc⟩ = runesOf "20060102T150405+0000" ∧
    ParseInUTC noFallback (iso8601Compact ⟨1136214245123456789, utc⟩) =
      .ok ⟨1136214245000000000, utc⟩ ∧
    (1136214245123456789 : Int) ≠ 1136214245000000000 := by
  refine ⟨by decide, by decide, by decide, by decide⟩

/-- Witness for C8 at 2006-01-02 15:04:05(.123) +01:30. -/
theorem C8_witness :
    (∃ t2 : GoTime,
      ParseInUTC noFallback (iso8601Compact
        (timeDate 2006 1 2 15 4 5 0 (FixedZone "X" 5400))) = .ok t2 ∧
      t2.nanos = (timeDate 2006 1 2 15 4 5 0 (FixedZone "X" 5400)).nanos ∧
      t2.loc.offset = (FixedZone "X" 5400).offset) ∧
    (∃ t2 : GoTime,
      ParseInUTC noFallback (iso8601Ext
        (timeDate 2006 1 2 15 4 5 0 (FixedZone "X" 5400))) = .ok t2 ∧
      t2.nanos = (timeDate 2006 1 2 15 4 5 0 (FixedZone "X" 5400)).nanos ∧
      t2.loc.offset = (FixedZone "X" 5400).offset) ∧
    (∃ t2 : GoTime,
      ParseInUTC noFallback (iso8601CompactMsec
        (timeDate 2006 1 2 15 4 5 (123 * 1000000) (FixedZone "X" 5400))) = .ok t2 ∧
      t2.nanos = (timeDate 2006 1 2 15 4 5 (123 * 1000000) (FixedZone "X" 5400)).nanos ∧
      t2.loc.offset = (FixedZone "X" 5400).offset) ∧
    (∃ t2 : GoTime,
      ParseInUTC noFallback (iso8601ExtMsec
        (timeDate 2006 1 2 15 4 5 (123 * 1000000) (FixedZone "X" 5400))) = .ok t2 ∧
      t2.nanos = (timeDate 2006 1 2 15 4 5 (123 * 1000000) (FixedZone "X" 5400)).nanos ∧
      t2.loc.offset = (FixedZone "X" 5400).offset) := by
  exact C8_theorem "X" 2006 1 2 15 4 5 123 1 30 5400 (by decide) (by decide) (by decide)
    (by decide) (by decide) (by decide) (by decide) (by decide) (by decide) (by decide)
    (by decide) (by decide) (by decide) (by decide)
